import Mathlib

/-!
# Verification of `src/lib/target/src/vif.c`

A shallow embedding of the VIF reconciliation code of the RDK target layer
(`vif.c`): the security mode translator, the ACL reconciler, the state reader,
the config writer, the deferred update scheduler and the HAL event queue,
followed by theorems about them.

Conventions of the embedding.

* C strings are `String`s (no embedded NUL); `strcmp(a, b) == 0` is `a = b`.
* `bool f(..., T *out)` functions return `Option T` (`none` for `false`), or a
  pair when the output is written on failure too.
* The vendor HAL is an explicit interface `Platform σ` over an abstract
  external state `σ`: queries read the state, mutating calls return a new state
  and a status.
  Every mutating HAL call, every message to the secondary (mesh) sink and every
  published state is also appended to a log, so that "which calls were issued"
  is a value of the model.
* Schema records carry the `_exists` companion of a field only where the
  source reads it; fields of the state record that the reader may leave unset
  are `Option`s (`SCHEMA_SET_*` stores `some v`).
* Fixed-size buffers are not modelled: `STRSCPY` and the `SCHEMA_*` stores copy
  the whole string, and a schema array takes every appended value.
* Build-time switches (`#ifdef CONFIG_...`) are fields of `BuildConfig`.
-/

namespace Vif

/-! ## Constants -/

/-- `RETURN_OK` of the HAL. -/
def RETURN_OK : Int := 0

/-- `RETURN_ERR` of the HAL. -/
def RETURN_ERR : Int := -1

/-- Modelled from the spec: `MAC_STR_LEN` is declared in a header that is not
part of the sources; a MAC string has 17 characters (see `mac_str_len = 17` in
`acl_to_state`), so the buffer size including the terminator is 18. -/
def MAC_STR_LEN : Nat := 18

def ACL_BUF_SIZE : Nat := 1024

def MAX_ACL_NUMBER : Nat := 64

def MAX_MULTI_PSK_KEYS : Nat := 30

def HAL_CB_QUEUE_MAX : Nat := 20

def OVSDB_SECURITY_KEY_MGMT_DPP : String := "dpp"

def OVSDB_SECURITY_KEY_MGMT_WPA_PSK : String := "wpa-psk"

def OVSDB_SECURITY_KEY_MGMT_WPA_EAP : String := "wpa-eap"

def OVSDB_SECURITY_KEY_MGMT_SAE : String := "sae"

def OVSDB_SECURITY_KEY_MGMT_NONE : String := ""

def OVSDB_SECURITY_PMF_DISABLED : String := "disabled"

def OVSDB_SECURITY_PMF_OPTIONAL : String := "optional"

def OVSDB_SECURITY_PMF_REQUIRED : String := "required"

def RDK_SECURITY_KEY_MGMT_OPEN : String := "None"

def RDK_SECURITY_KEY_MGMT_WPA_PSK : String := "WPA-Personal"

def RDK_SECURITY_KEY_MGMT_WPA2_PSK : String := "WPA2-Personal"

def RDK_SECURITY_KEY_MGMT_WPA_WPA2_PSK : String := "WPA-WPA2-Personal"

def RDK_SECURITY_KEY_MGMT_WPA2_EAP : String := "WPA2-Enterprise"

def RDK_SECURITY_KEY_MGMT_WPA3 : String := "WPA3-Sae"

def RDK_SECURITY_KEY_MGMT_WPA3_TRANSITION : String := "WPA3-Personal-Transition"

def DEFAULT_ENC_MODE : String := "TKIPandAESEncryption"

/-! ## C string helpers -/

/-- Whether the second character list starts the first one. -/
def starts_with : List Char → List Char → Bool
  | _, [] => true
  | [], _ :: _ => false
  | a :: as, b :: bs => a == b && starts_with as bs

/-- The search of `strstr` over character lists: whether the needle occurs at
some position of the haystack. -/
def strstr_chars : List Char → List Char → Bool
  | [], n => starts_with [] n
  | h :: hs, n => starts_with (h :: hs) n || strstr_chars hs n

/-- `strstr(haystack, needle) != NULL`. -/
def strstr (haystack needle : String) : Bool :=
  strstr_chars haystack.data needle.data

/-! ## HAL enumerations -/

/-- The security mode enumeration `wifi_security_modes_t` of the HAL. The
enumerators named in `vif.c` are constructors; `other code` stands for every
other code of the HAL enumeration (WEP, the remaining enterprise modes, ...). -/
inductive wifi_security_modes_t where
  | wifi_security_mode_none
  | wifi_security_mode_wpa_personal
  | wifi_security_mode_wpa2_personal
  | wifi_security_mode_wpa_wpa2_personal
  | wifi_security_mode_wpa2_enterprise
  | wifi_security_mode_wpa3_personal
  | wifi_security_mode_wpa3_transition
  | other (code : Nat)
deriving DecidableEq, Repr

open wifi_security_modes_t

/-- The PMF setting `wifi_mfp_cfg_t` of the HAL. -/
inductive wifi_mfp_cfg_t where
  | wifi_mfp_cfg_disabled
  | wifi_mfp_cfg_optional
  | wifi_mfp_cfg_required
  | other (code : Nat)
deriving DecidableEq, Repr

open wifi_mfp_cfg_t

/-- The ACL mode `wifi_mac_filter_mode_t` of the HAL. -/
inductive wifi_mac_filter_mode_t where
  | wifi_mac_filter_mode_black_list
  | wifi_mac_filter_mode_white_list
  | other (code : Nat)
deriving DecidableEq, Repr

open wifi_mac_filter_mode_t

/-- The role `wifi_vap_mode_t` of a VAP. -/
inductive wifi_vap_mode_t where
  | wifi_vap_mode_ap
  | wifi_vap_mode_sta
  | other (code : Nat)
deriving DecidableEq, Repr

open wifi_vap_mode_t

/-- The encryption method `wifi_encryption_method_t` of the HAL. -/
inductive wifi_encryption_method_t where
  | wifi_encryption_none
  | wifi_encryption_tkip
  | wifi_encryption_aes
  | wifi_encryption_aes_tkip
deriving DecidableEq, Repr

open wifi_encryption_method_t

/-! ## Schema records -/

/-- The desired configuration record `struct schema_Wifi_VIF_Config`, with the
fields `vif.c` reads or writes. An entry of `wpa_psks` is the pair
(`wpa_psks_keys[i]`, `wpa_psks[i]`) of a key identifier and its secret (the two
C arrays share `wpa_psks_len`); `security` is the legacy key/value map. -/
structure schema_Wifi_VIF_Config where
  if_name : String := ""
  mode : String := ""
  enabled : Bool := false
  bridge : String := ""
  ap_bridge : Bool := false
  wds : Bool := false
  ssid_broadcast : String := ""
  ssid : String := ""
  parent : String := ""
  rrm : Int := 0
  btm : Int := 0
  uapsd_enable : Bool := false
  uapsd_enable_exists : Bool := false
  mcast2ucast : Bool := false
  wpa : Bool := false
  wpa_key_mgmt : List String := []
  wpa_psks : List (String × String) := []
  radius_srv_addr : String := ""
  radius_srv_port : Int := 0
  radius_srv_secret : String := ""
  wpa_pairwise_tkip : Bool := false
  wpa_pairwise_ccmp : Bool := false
  rsn_pairwise_tkip : Bool := false
  rsn_pairwise_ccmp : Bool := false
  pmf : String := ""
  security : List (String × String) := []
  mac_list_type : String := ""
  mac_list_type_exists : Bool := false
  mac_list_present : Bool := false
  mac_list : List String := []
deriving DecidableEq, Repr

/-- The change mask `struct schema_Wifi_VIF_Config_flags`. -/
structure schema_Wifi_VIF_Config_flags where
  enabled : Bool := false
  bridge : Bool := false
  ap_bridge : Bool := false
  ssid_broadcast : Bool := false
  ssid : Bool := false
  parent : Bool := false
  rrm : Bool := false
  btm : Bool := false
  uapsd_enable : Bool := false
  mcast2ucast : Bool := false
  wpa : Bool := false
  wpa_key_mgmt : Bool := false
  wpa_psks : Bool := false
  wpa_pairwise_tkip : Bool := false
  wpa_pairwise_ccmp : Bool := false
  rsn_pairwise_tkip : Bool := false
  rsn_pairwise_ccmp : Bool := false
  pmf : Bool := false
  security : Bool := false
  mac_list_type : Bool := false
  mac_list : Bool := false
deriving DecidableEq, Repr

/-- The runtime state record `struct schema_Wifi_VIF_State`. A scalar field is
`none` until a `SCHEMA_SET_*` stores a value (the record starts zeroed). -/
structure schema_Wifi_VIF_State where
  if_name : Option String := none
  mode : Option String := none
  enabled : Option Bool := none
  bridge : Option String := none
  ap_bridge : Option Bool := none
  wds : Option Bool := none
  ssid_broadcast : Option String := none
  ssid : Option String := none
  parent : Option String := none
  mac : Option String := none
  channel : Option Nat := none
  vif_radio_idx : Option Int := none
  rrm : Option Int := none
  btm : Option Int := none
  uapsd_enable : Option Bool := none
  mcast2ucast : Option Bool := none
  wpa : Option Bool := none
  wpa_key_mgmt : List String := []
  wpa_psks : List (String × String) := []
  radius_srv_addr : Option String := none
  radius_srv_port : Option Int := none
  radius_srv_secret : Option String := none
  wpa_pairwise_tkip : Option Bool := none
  wpa_pairwise_ccmp : Option Bool := none
  rsn_pairwise_tkip : Option Bool := none
  rsn_pairwise_ccmp : Option Bool := none
  pmf : Option String := none
  security : List (String × String) := []
  mac_list_type : Option String := none
  mac_list_present : Bool := false
  mac_list : List String := []
deriving DecidableEq, Repr

/-! ## Security mode translator -/

/-- One row of the static table `security_mode_map`. -/
structure security_mode_map_t where
  mode : wifi_security_modes_t
  wpa_pairwise_tkip : Bool
  wpa_pairwise_ccmp : Bool
  rsn_pairwise_tkip : Bool
  rsn_pairwise_ccmp : Bool
deriving DecidableEq, Repr

def security_mode_map : List security_mode_map_t :=
  [ ⟨wifi_security_mode_wpa_personal,      true,  true,  false, false⟩,
    ⟨wifi_security_mode_wpa_wpa2_personal, true,  true,  true,  true⟩,
    ⟨wifi_security_mode_wpa2_personal,     false, false, false, true⟩,
    ⟨wifi_security_mode_wpa2_enterprise,   false, false, false, true⟩,
    ⟨wifi_security_mode_wpa3_transition,   false, false, false, true⟩,
    ⟨wifi_security_mode_wpa3_personal,     false, false, false, true⟩,
    ⟨wifi_security_mode_none,              false, false, false, false⟩ ]

/-- The table scan of `security_key_mgmt_hal_to_ovsdb`:
`for (map = security_mode_map; map->mode != wifi_security_mode_none; map++)`,
leaving the loop at the first row whose mode is the one looked up. -/
def security_mode_map_scan (mode : wifi_security_modes_t) :
    List security_mode_map_t → Option security_mode_map_t
  | [] => none
  | m :: rest =>
    if m.mode = wifi_security_mode_none then none
    else if m.mode = mode then some m
    else security_mode_map_scan mode rest

/-- The four `SCHEMA_SET_BOOL` of the table row into the state record. -/
def set_pairwise_state (m : security_mode_map_t) (vstate : schema_Wifi_VIF_State) :
    schema_Wifi_VIF_State :=
  { vstate with
    wpa_pairwise_tkip := some m.wpa_pairwise_tkip
    wpa_pairwise_ccmp := some m.wpa_pairwise_ccmp
    rsn_pairwise_tkip := some m.rsn_pairwise_tkip
    rsn_pairwise_ccmp := some m.rsn_pairwise_ccmp }

/-- The four `SCHEMA_SET_BOOL` of the table row into the config record. -/
def set_pairwise_config (m : security_mode_map_t) (vconfig : schema_Wifi_VIF_Config) :
    schema_Wifi_VIF_Config :=
  { vconfig with
    wpa_pairwise_tkip := m.wpa_pairwise_tkip
    wpa_pairwise_ccmp := m.wpa_pairwise_ccmp
    rsn_pairwise_tkip := m.rsn_pairwise_tkip
    rsn_pairwise_ccmp := m.rsn_pairwise_ccmp }

/-- `SCHEMA_VAL_APPEND(vstate->wpa_key_mgmt, ...)` for each of `vals`. -/
def state_key_mgmt_append (vals : List String) (vstate : schema_Wifi_VIF_State) :
    schema_Wifi_VIF_State :=
  { vstate with wpa_key_mgmt := vstate.wpa_key_mgmt ++ vals }

/-- `SCHEMA_VAL_APPEND(vconfig->wpa_key_mgmt, ...)` for each of `vals`. -/
def config_key_mgmt_append (vals : List String) (vconfig : schema_Wifi_VIF_Config) :
    schema_Wifi_VIF_Config :=
  { vconfig with wpa_key_mgmt := vconfig.wpa_key_mgmt ++ vals }

/-- The key-management strings the `switch (mode)` of
`security_key_mgmt_hal_to_ovsdb` appends; `none` is its `default` branch. -/
def key_mgmt_of_mode : wifi_security_modes_t → Option (List String)
  | wifi_security_mode_wpa_personal => some [OVSDB_SECURITY_KEY_MGMT_WPA_PSK]
  | wifi_security_mode_wpa2_personal => some [OVSDB_SECURITY_KEY_MGMT_WPA_PSK]
  | wifi_security_mode_wpa_wpa2_personal => some [OVSDB_SECURITY_KEY_MGMT_WPA_PSK]
  | wifi_security_mode_wpa3_personal => some [OVSDB_SECURITY_KEY_MGMT_SAE]
  | wifi_security_mode_wpa3_transition =>
    some [OVSDB_SECURITY_KEY_MGMT_WPA_PSK, OVSDB_SECURITY_KEY_MGMT_SAE]
  | wifi_security_mode_wpa2_enterprise => some [OVSDB_SECURITY_KEY_MGMT_WPA_EAP]
  | _ => none

/-- `security_key_mgmt_hal_to_ovsdb(mode, vstate, vconfig)`: either record may
be absent (`NULL`). Returns the status and the two records as they are left. -/
def security_key_mgmt_hal_to_ovsdb (mode : wifi_security_modes_t)
    (vstate : Option schema_Wifi_VIF_State) (vconfig : Option schema_Wifi_VIF_Config) :
    Bool × Option schema_Wifi_VIF_State × Option schema_Wifi_VIF_Config :=
  match security_mode_map_scan mode security_mode_map with
  | none => (false, vstate, vconfig)
  | some m =>
    let vstate1 := vstate.map (set_pairwise_state m)
    let vconfig1 := vconfig.map (set_pairwise_config m)
    match key_mgmt_of_mode mode with
    | some vals =>
      (true, vstate1.map (state_key_mgmt_append vals),
        vconfig1.map (config_key_mgmt_append vals))
    | none => (false, vstate1, vconfig1)

/-- `security_wpa_key_mgmt_match(vconf, key_mgmt)`. -/
def security_wpa_key_mgmt_match (vconf : schema_Wifi_VIF_Config) (key_mgmt : String) : Bool :=
  if vconf.wpa_key_mgmt.length = 0 ∧ key_mgmt = OVSDB_SECURITY_KEY_MGMT_NONE then true
  else vconf.wpa_key_mgmt.any (fun entry => strstr entry key_mgmt)

/-- `security_key_mgmt_ovsdb_to_hal(vconf, &mode)`: `some mode` when it returns
`true`, `none` when it returns `false`. -/
def security_key_mgmt_ovsdb_to_hal (vconf : schema_Wifi_VIF_Config) :
    Option wifi_security_modes_t :=
  if security_wpa_key_mgmt_match vconf OVSDB_SECURITY_KEY_MGMT_WPA_PSK &&
      security_wpa_key_mgmt_match vconf OVSDB_SECURITY_KEY_MGMT_SAE then
    some wifi_security_mode_wpa3_transition
  else if security_wpa_key_mgmt_match vconf OVSDB_SECURITY_KEY_MGMT_SAE then
    some wifi_security_mode_wpa3_personal
  else if security_wpa_key_mgmt_match vconf OVSDB_SECURITY_KEY_MGMT_WPA_EAP then
    some wifi_security_mode_wpa2_enterprise
  else if security_wpa_key_mgmt_match vconf OVSDB_SECURITY_KEY_MGMT_WPA_PSK then
    if (vconf.wpa_pairwise_tkip || vconf.wpa_pairwise_ccmp) &&
        (vconf.rsn_pairwise_tkip || vconf.rsn_pairwise_ccmp) then
      some wifi_security_mode_wpa_wpa2_personal
    else if vconf.wpa_pairwise_tkip || vconf.wpa_pairwise_ccmp then
      some wifi_security_mode_wpa_personal
    else if vconf.rsn_pairwise_tkip || vconf.rsn_pairwise_ccmp then
      some wifi_security_mode_wpa2_personal
    else
      some wifi_security_mode_none
  else if security_wpa_key_mgmt_match vconf OVSDB_SECURITY_KEY_MGMT_NONE then
    some wifi_security_mode_none
  else
    none

/-- `security_key_mgmt_ovsdb_to_sync(vconf)`: the legacy mode string, `none`
for `NULL`. -/
def security_key_mgmt_ovsdb_to_sync (vconf : schema_Wifi_VIF_Config) : Option String :=
  if security_wpa_key_mgmt_match vconf OVSDB_SECURITY_KEY_MGMT_WPA_PSK then
    match security_key_mgmt_ovsdb_to_hal vconf with
    | some wifi_security_mode_wpa_personal => some RDK_SECURITY_KEY_MGMT_WPA_PSK
    | some wifi_security_mode_wpa2_personal => some RDK_SECURITY_KEY_MGMT_WPA2_PSK
    | some wifi_security_mode_wpa_wpa2_personal => some RDK_SECURITY_KEY_MGMT_WPA_WPA2_PSK
    | some wifi_security_mode_wpa2_enterprise => some RDK_SECURITY_KEY_MGMT_WPA2_EAP
    | some wifi_security_mode_wpa3_personal => some RDK_SECURITY_KEY_MGMT_WPA3
    | some wifi_security_mode_wpa3_transition => some RDK_SECURITY_KEY_MGMT_WPA3_TRANSITION
    | _ => none
  else
    none

/-! ## HAL records -/

/-- A MAC address `mac_address_t` (six bytes). -/
abbrev mac_address_t := List Nat

/-- One entry `wifi_key_multi_psk_t` of the multi-key table. -/
structure wifi_key_multi_psk_t where
  wifi_keyId : String := ""
  wifi_psk : String := ""
deriving DecidableEq, Repr

/-- The RADIUS settings `wifi_radius_settings_t` read by the state reader. -/
structure wifi_radius_settings_t where
  ip : String := ""
  port : Int := 0
  key : String := ""
deriving DecidableEq, Repr

/-- The access-point part `u.bss_info` of a VAP descriptor; the fields of
`security` are flattened (`security_mode` is `security.mode`, `security_key`
is `security.u.key.key`, `security_radius` is `security.u.radius`). The HAL
type `BOOL` is an integer type (0 is `FALSE`, 1 is `TRUE`): a `BOOL` of which
`vif.c` reads the truth value only is a `Bool` here, and `showSsid`, which is
looked up by value in `map_enable_disable`, keeps its integer value. -/
structure wifi_front_haul_bss_t where
  ssid : String := ""
  enabled : Bool := false
  showSsid : Int := 0
  isolation : Bool := false
  security_mode : wifi_security_modes_t := wifi_security_mode_none
  security_mfp : wifi_mfp_cfg_t := wifi_mfp_cfg_disabled
  security_key : String := ""
  security_radius : wifi_radius_settings_t := {}
  bssid : mac_address_t := []
  mac_filter_enable : Bool := false
  mac_filter_mode : wifi_mac_filter_mode_t := wifi_mac_filter_mode_black_list
  nbrReportActivated : Int := 0
  bssTransitionActivated : Int := 0
  UAPSDEnabled : Bool := false
  mcast2ucast : Bool := false
deriving DecidableEq, Repr

/-- The station part `u.sta_info` of a VAP descriptor, flattened like
`wifi_front_haul_bss_t`; `scan_channel` is `scan_params.channel.channel` and
`security_key_type_psk` records `security.u.key.type = wifi_security_key_type_psk`. -/
structure wifi_back_haul_sta_t where
  ssid : String := ""
  bssid : mac_address_t := []
  mac : mac_address_t := []
  enabled : Bool := false
  scan_channel : Nat := 0
  security_mode : wifi_security_modes_t := wifi_security_mode_none
  security_encr : wifi_encryption_method_t := wifi_encryption_none
  security_key_type_psk : Bool := false
  security_key : String := ""
deriving DecidableEq, Repr

/-- The VAP descriptor `wifi_vap_info_t`. The C union `u` is kept as two
records; the access-point code touches only `bss_info` and the station code
only `sta_info`. -/
structure wifi_vap_info_t where
  vap_index : Nat := 0
  vap_name : String := ""
  radio_index : Nat := 0
  bridge_name : String := ""
  vap_mode : wifi_vap_mode_t := wifi_vap_mode_ap
  bss_info : wifi_front_haul_bss_t := {}
  sta_info : wifi_back_haul_sta_t := {}
deriving DecidableEq, Repr

/-- One entry of the capability table's `interface_map`. -/
structure wifi_interface_name_idex_map_t where
  vap_name : String := ""
  index : Int := 0
deriving DecidableEq, Repr

/-- One entry of the capability table's `radiocap`. -/
structure wifi_radio_capabilities_t where
  mcast2ucastSupported : Bool := false
deriving DecidableEq, Repr

/-- The capability table `wifi_hal_capability_t` (`wifi_prop` flattened).
`interface_map` lists the whole fixed-size array the lookup scans. -/
structure wifi_hal_capability_t where
  interface_map : List wifi_interface_name_idex_map_t := []
  radiocap : List wifi_radio_capabilities_t := []
deriving DecidableEq, Repr

/-- The legacy security message `MeshWifiAPSecurity` of the secondary sink. -/
structure MeshWifiAPSecurity where
  index : Nat := 0
  passphrase : String := ""
  secMode : String := ""
  encryptMode : String := ""
deriving DecidableEq, Repr

/-- Conversion of an `INT` to `UINT` (32 bit). -/
def UINT_of_INT (i : Int) : Nat := (i % 2 ^ 32).toNat

/-- Conversion of a `UINT` to `INT` (32 bit, two's complement). -/
def INT_of_UINT (n : Nat) : Int :=
  if n % 2 ^ 32 < 2 ^ 31 then ((n % 2 ^ 32 : Nat) : Int) else ((n % 2 ^ 32 : Nat) : Int) - 2 ^ 32

/-! ## The platform: HAL and sinks -/

/-- Build-time switches of `vif.c`. `RDK_VIF_STATE_UPDATE_DELAY` is the value of
`CONFIG_RDK_VIF_STATE_UPDATE_DELAY`; the three `HOME_AP` names are those
`is_home_ap` compares with (`HOME_AP_60` counts only with `RDK_6G_RADIO_SUPPORT`).
The optional WPS and multi-AP hooks are defined in other files and compiled
only with `CONFIG_RDK_WPS_SUPPORT` / `CONFIG_RDK_MULTI_AP_SUPPORT`; the
embedding is of the build without them. -/
structure BuildConfig where
  WIFI_HAL_VERSION_3_PHASE2 : Bool := false
  RDK_SYNC_EXT_HOME_ACLS : Bool := false
  RDK_MULTI_PSK_SUPPORT : Bool := false
  RDK_DISABLE_SYNC : Bool := false
  RDK_6G_RADIO_SUPPORT : Bool := false
  RDK_VIF_STATE_UPDATE_DELAY : Nat := 0
  RDK_HOME_AP_24_IFNAME : String := ""
  RDK_HOME_AP_50_IFNAME : String := ""
  RDK_HOME_AP_60_IFNAME : String := ""
deriving DecidableEq, Repr

/-- The collaborators of `vif.c` over an abstract external state `σ`.

* HAL queries return `none` when the HAL status is not `RETURN_OK`.
  `wifi_getApAclDevices` is the text-buffer form (what the HAL wrote into the
  zeroed `acl_buf`), `wifi_getApAclDevices_v3` the array form of
  `WIFI_HAL_VERSION_3_PHASE2`.
* HAL mutators return the new external state and the HAL status.
* The sinks (`sync_send_*` of the mesh agent, `radio_rops_vstate` of the
  cloud) are fire-and-forget: their result may depend on the external state,
  the message itself is recorded in the log of the `World`.
* `target_unmap_ifname`, `get_radio_cap_index` and the two `printf`/`scanf`
  MAC formats are helpers defined outside `vif.c`; `sscanf_hhx_mac parent old`
  is the array `sscanf(parent, "%hhx:...:%hhx", ...)` leaves from `old`. -/
structure Platform (σ : Type) where
  wifi_getHalCapability : σ → Option wifi_hal_capability_t
  wifi_getSSIDRadioIndex : σ → Int → Option Int
  wifi_getRadioVapInfoMap : σ → Int → Option (List wifi_vap_info_t)
  wifi_getRadioIfName : σ → Int → Option String
  wifi_getRadioOperatingParameters_channel : σ → Int → Option Nat
  wifi_getApAclDeviceNum : σ → Int → Option Nat
  wifi_getApAclDevices : σ → Int → Option String
  wifi_getApAclDevices_v3 : σ → Int → Option (List mac_address_t)
  wifi_getMultiPskKeys : σ → Int → Option (List wifi_key_multi_psk_t)
  wifi_delApAclDevice : σ → Int → String → σ × Int
  wifi_addApAclDevice : σ → Int → String → σ × Int
  wifi_delApAclDevices : σ → Int → σ × Int
  wifi_addApAclDevice_v3 : σ → Int → mac_address_t → σ × Int
  wifi_pushMultiPskKeys : σ → Int → List wifi_key_multi_psk_t → σ × Int
  wifi_createVAP : σ → Nat → List wifi_vap_info_t → σ × Int
  sync_send_security_change : σ → Int → String → MeshWifiAPSecurity → Bool
  sync_send_ssid_change : σ → Int → String → String → Bool
  sync_send_ssid_broadcast_change : σ → Int → Int → Bool
  radio_rops_vstate : σ → schema_Wifi_VIF_State → String → Bool
  target_unmap_ifname : String → String
  get_radio_cap_index : wifi_hal_capability_t → Int → Int
  MAC_ADDR_FMT_print : mac_address_t → String
  MAC_ADDR_FMT_scan : String → Option mac_address_t
  MAC_ADDRESS_FORMAT_print : mac_address_t → String
  sscanf_hhx_mac : String → mac_address_t → mac_address_t

/-- A mutating call of the HAL, with its arguments. -/
inductive HalCall where
  | wifi_delApAclDevice (apIndex : Int) (mac : String)
  | wifi_addApAclDevice (apIndex : Int) (mac : String)
  | wifi_delApAclDevices (apIndex : Int)
  | wifi_addApAclDevice_v3 (apIndex : Int) (mac : mac_address_t)
  | wifi_pushMultiPskKeys (apIndex : Int) (keys : List wifi_key_multi_psk_t)
  | wifi_createVAP (radio_index : Nat) (map : List wifi_vap_info_t)
deriving DecidableEq, Repr

/-- What the code does to the outside, in the order it does it: mutating HAL
calls, messages to the secondary sink, published states, and the entry of
each `vif_state_update` (a refresh execution). -/
inductive Effect where
  | hal (call : HalCall)
  | sync_send_security_change (ssid_index : Int) (if_name : String) (msg : MeshWifiAPSecurity)
  | sync_send_ssid_change (ssid_index : Int) (if_name : String) (ssid : String)
  | sync_send_ssid_broadcast_change (ssid_index : Int) (showSsid : Int)
  | radio_rops_vstate (vstate : schema_Wifi_VIF_State) (radio_ifname : String)
  | vif_state_update (ssidIndex : Int)
deriving DecidableEq, Repr

/-- The timer `ev_timer` of a pending refresh: armed or not, and the delay it
was last set to. -/
structure ev_timer where
  active : Bool := false
  after : Nat := 0
deriving DecidableEq, Repr

/-- A pending refresh entry `vif_state_update_entry_t`. -/
structure vif_state_update_entry_t where
  defer_timer : ev_timer := {}
  ssid_index : Int := 0
deriving DecidableEq, Repr

/-- A queued HAL event `hal_cb_entry_t`; `sta` is the raw event payload. -/
structure hal_cb_entry_t where
  ssidIndex : Int := 0
  sta : String := ""
deriving DecidableEq, Repr

/-- The state the code runs in: the external state `hal`, the log of effects,
and the globals of the target layer (`cached_key_ids`, the pending-refresh
table `vif_update_queue` with its `vif_update_init_done` flag, and the event
bridge `hal_cb_*`; `hal_cb_loop` is
whether the loop pointer is non-`NULL`, `hal_cb_async_pending` whether a wakeup
was sent and not yet served, `hal_cb_registered` how often the HAL callback
was registered). -/
structure World (σ : Type) where
  hal : σ
  log : List Effect := []
  cached_key_ids : Int → String := fun _ => ""
  vif_update_init_done : Bool := false
  vif_update_queue : List vif_state_update_entry_t := []
  hal_cb_loop : Bool := false
  hal_cb_queue : List hal_cb_entry_t := []
  hal_cb_queue_len : Int := 0
  hal_cb_async_pending : Bool := false
  hal_cb_async_active : Bool := false
  hal_cb_registered : Nat := 0

/-- The mutating HAL calls of a log, in order. -/
def hal_calls : List Effect → List HalCall
  | [] => []
  | Effect.hal c :: rest => c :: hal_calls rest
  | _ :: rest => hal_calls rest

/-- `is_home_ap(ifname)`. -/
def is_home_ap (cfg : BuildConfig) (ifname : String) : Bool :=
  ifname = cfg.RDK_HOME_AP_24_IFNAME
    || ifname = cfg.RDK_HOME_AP_50_IFNAME
    || (cfg.RDK_6G_RADIO_SUPPORT && ifname = cfg.RDK_HOME_AP_60_IFNAME)

/-- Modelled from the spec: `c_get_item_by_str` is defined outside the
sources; it is a linear scan of a fixed static table of (key, string) items
for the string, `none` when no item has it. -/
def c_get_item_by_str {κ : Type} (table : List (κ × String)) (str : String) : Option (κ × String) :=
  table.find? (fun item => item.2 == str)

/-- Modelled from the spec: `c_get_str_by_key` is defined outside the
sources; it is a linear scan of the table for the key, yielding the empty
string when no item has it. -/
def c_get_str_by_key {κ : Type} [DecidableEq κ] (table : List (κ × String)) (key : κ) : String :=
  match table.find? (fun item => item.1 == key) with
  | some item => item.2
  | none => ""

/-- The table `map_enable_disable`; the keys `true` and `false` of its items
are the integers 1 and 0. -/
def map_enable_disable : List (Int × String) :=
  [(1, "enabled"), (0, "disabled")]

def map_acl_modes : List (wifi_mac_filter_mode_t × String) :=
  [(wifi_mac_filter_mode_white_list, "whitelist"), (wifi_mac_filter_mode_black_list, "blacklist")]

/-- `ssid_index_to_vap_info(ssid_index, map, &vap_info)`: the descriptor of the
VAP map of the owning radio whose `vap_index` is `ssid_index`. -/
def ssid_index_to_vap_info {σ : Type} (P : Platform σ) (s : σ) (ssid_index : Nat) :
    Option wifi_vap_info_t :=
  match P.wifi_getSSIDRadioIndex s (INT_of_UINT ssid_index) with
  | none => none
  | some radio_idx =>
    match P.wifi_getRadioVapInfoMap s radio_idx with
    | none => none
    | some vap_array => vap_array.find? (fun v => v.vap_index == ssid_index)

/-! ## Logged HAL calls -/

section
variable {σ : Type}

/-- Append an effect to the log. -/
def World.emit (w : World σ) (e : Effect) : World σ :=
  { w with log := w.log ++ [e] }

/-- Run a mutating HAL call: the external state is replaced by the one the
call returns and the call is logged; the HAL status is returned. -/
def World.hal_call (w : World σ) (c : HalCall) (r : σ × Int) : World σ × Int :=
  ({ w with hal := r.1, log := w.log ++ [Effect.hal c] }, r.2)

def call_delApAclDevice (P : Platform σ) (apIndex : Int) (mac : String) (w : World σ) :
    World σ × Int :=
  w.hal_call (HalCall.wifi_delApAclDevice apIndex mac) (P.wifi_delApAclDevice w.hal apIndex mac)

def call_addApAclDevice (P : Platform σ) (apIndex : Int) (mac : String) (w : World σ) :
    World σ × Int :=
  w.hal_call (HalCall.wifi_addApAclDevice apIndex mac) (P.wifi_addApAclDevice w.hal apIndex mac)

def call_delApAclDevices (P : Platform σ) (apIndex : Int) (w : World σ) : World σ × Int :=
  w.hal_call (HalCall.wifi_delApAclDevices apIndex) (P.wifi_delApAclDevices w.hal apIndex)

def call_addApAclDevice_v3 (P : Platform σ) (apIndex : Int) (mac : mac_address_t)
    (w : World σ) : World σ × Int :=
  w.hal_call (HalCall.wifi_addApAclDevice_v3 apIndex mac)
    (P.wifi_addApAclDevice_v3 w.hal apIndex mac)

def call_pushMultiPskKeys (P : Platform σ) (apIndex : Int) (keys : List wifi_key_multi_psk_t)
    (w : World σ) : World σ × Int :=
  w.hal_call (HalCall.wifi_pushMultiPskKeys apIndex keys)
    (P.wifi_pushMultiPskKeys w.hal apIndex keys)

def call_createVAP (P : Platform σ) (radio_index : Nat) (map : List wifi_vap_info_t)
    (w : World σ) : World σ × Int :=
  w.hal_call (HalCall.wifi_createVAP radio_index map) (P.wifi_createVAP w.hal radio_index map)

/-! ## ACL reconciler -/

/-- The tokens the `strtok_r` loop `for (p = strtok_r(buf, delim, &s); p != NULL;
p = strtok_r(NULL, delim, &s))` visits, in order: the maximal runs of
characters that are not in `delim`. `cur` is the token being read. -/
def strtok_r_tokens (delim : List Char) : List Char → List Char → List String
  | [], cur => if cur = [] then [] else [String.mk cur]
  | c :: cs, cur =>
    if c ∈ delim then
      if cur = [] then strtok_r_tokens delim cs []
      else String.mk cur :: strtok_r_tokens delim cs []
    else strtok_r_tokens delim cs (cur ++ [c])

/-- The separators `mac_list_separator` of an ACL buffer. -/
def mac_list_separator : List Char := [',', '\n']

/-- The body of the loop of `acl_buf_to_acl_list` over the remaining tokens;
`acl_list` holds the `i` entries copied so far. -/
def acl_buf_to_acl_list_loop (acl_list_size : Nat) : List String → List String → Option (List String)
  | [], acl_list => some acl_list
  | p :: rest, acl_list =>
    if p.length ≠ MAC_STR_LEN - 1 then none
    else if acl_list.length ≥ acl_list_size then none
    else acl_buf_to_acl_list_loop acl_list_size rest (acl_list ++ [p])

/-- `acl_buf_to_acl_list(vap_index, acl_buf, acl_list, &acl_list_size)`: on
success the entries copied and the value left in `*acl_list_size`. -/
def acl_buf_to_acl_list (acl_buf : String) (acl_list_size : Nat) : Option (List String × Nat) :=
  match acl_buf_to_acl_list_loop acl_list_size (strtok_r_tokens mac_list_separator acl_buf.data []) [] with
  | none => none
  | some acl_list =>
    some (acl_list, if acl_list.length < acl_list_size then acl_list.length else acl_list_size)

/-- `get_acl_list(vap_index, &acl_list, &acl_list_size)`: the current ACL of
the HAL and its size. -/
def get_acl_list (P : Platform σ) (s : σ) (vap_index : Int) : Option (List String × Nat) :=
  match P.wifi_getApAclDeviceNum s vap_index with
  | none => none
  | some acl_list_size =>
    if acl_list_size = 0 then some ([], 0)
    else
      match P.wifi_getApAclDevices s vap_index with
      | none => none
      | some acl_buf =>
        if min acl_buf.length ACL_BUF_SIZE = ACL_BUF_SIZE then none
        else acl_buf_to_acl_list acl_buf acl_list_size

/-- `remove_not_needed_acls(vap_index, current_acl_list, current_acl_list_num,
vconf)`; the list argument is the first `current_acl_list_num` entries. -/
def remove_not_needed_acls (P : Platform σ) (vap_index : Int) :
    List String → schema_Wifi_VIF_Config → World σ → World σ
  | [], _, w => w
  | cur :: rest, vconf, w =>
    if vconf.mac_list.any (fun m => m = cur) then
      remove_not_needed_acls P vap_index rest vconf w
    else
      remove_not_needed_acls P vap_index rest vconf (call_delApAclDevice P vap_index cur w).1

/-- The loop of `add_needed_acls` over the remaining desired entries. -/
def add_needed_acls_loop (P : Platform σ) (vap_index : Int) (current_acl_list : List String) :
    List String → World σ → World σ
  | [], w => w
  | m :: rest, w =>
    if current_acl_list.any (fun cur => m = cur) then
      add_needed_acls_loop P vap_index current_acl_list rest w
    else
      add_needed_acls_loop P vap_index current_acl_list rest (call_addApAclDevice P vap_index m w).1

/-- `add_needed_acls(vap_index, current_acl_list, current_acl_list_num, vconf)`. -/
def add_needed_acls (P : Platform σ) (vap_index : Int) (current_acl_list : List String)
    (vconf : schema_Wifi_VIF_Config) (w : World σ) : World σ :=
  add_needed_acls_loop P vap_index current_acl_list vconf.mac_list w

/-- The `WIFI_HAL_VERSION_3_PHASE2` loop of `acl_apply` that adds every desired
entry the MAC scan accepts. -/
def acl_apply_v3_loop (P : Platform σ) (ssid_index : Int) : List String → World σ → World σ
  | [], w => w
  | m :: rest, w =>
    match P.MAC_ADDR_FMT_scan m with
    | none => acl_apply_v3_loop P ssid_index rest w
    | some mac => acl_apply_v3_loop P ssid_index rest (call_addApAclDevice_v3 P ssid_index mac w).1

/-- The `if (changed->mac_list)` block of `acl_apply`. -/
def acl_apply_list (P : Platform σ) (cfg : BuildConfig) (ssid_index : Int)
    (vconf : schema_Wifi_VIF_Config) (w : World σ) : World σ :=
  if cfg.WIFI_HAL_VERSION_3_PHASE2 then
    acl_apply_v3_loop P ssid_index vconf.mac_list (call_delApAclDevices P ssid_index w).1
  else
    match get_acl_list P w.hal ssid_index with
    | none => w
    | some (acl_list, acl_list_num) =>
      add_needed_acls P ssid_index (acl_list.take acl_list_num) vconf
        (remove_not_needed_acls P ssid_index (acl_list.take acl_list_num) vconf w)

/-- `acl_apply(ssid_index, vconf, changed, &trigger_reconfigure, vap_info)`:
the accumulator and the descriptor as they are left, and the world. -/
def acl_apply (P : Platform σ) (cfg : BuildConfig) (ssid_index : Int)
    (vconf : schema_Wifi_VIF_Config) (changed : schema_Wifi_VIF_Config_flags)
    (trigger_reconfigure : Bool) (vap_info : wifi_vap_info_t) (w : World σ) :
    Bool × wifi_vap_info_t × World σ :=
  let citem := c_get_item_by_str map_acl_modes vconf.mac_list_type
  if !cfg.RDK_SYNC_EXT_HOME_ACLS && is_home_ap cfg vap_info.vap_name then
    (trigger_reconfigure, vap_info, w)
  else
    let list_step := fun (t : Bool) (v : wifi_vap_info_t) =>
      if changed.mac_list then (t, v, acl_apply_list P cfg ssid_index vconf w) else (t, v, w)
    if changed.mac_list_type && vconf.mac_list_type_exists then
      if vconf.mac_list_type = "none" then
        list_step true { vap_info with bss_info := { vap_info.bss_info with mac_filter_enable := false } }
      else
        match citem with
        | some item =>
          list_step true { vap_info with bss_info :=
            { vap_info.bss_info with mac_filter_enable := true, mac_filter_mode := item.1 } }
        | none => (trigger_reconfigure, vap_info, w)
    else
      list_step trigger_reconfigure vap_info

/-! ## State reader -/

/-- The `strtok_r` loop of `acl_to_state` (text-buffer HAL): tokens of the
wrong length are skipped, the others appended to `mac_list`. -/
def acl_to_state_loop : List String → List String → List String
  | [], mac_list => mac_list
  | p :: rest, mac_list =>
    if p.length = 0 then mac_list
    else if p.length ≠ 17 then acl_to_state_loop rest mac_list
    else acl_to_state_loop rest (mac_list ++ [p])

/-- The ACL mode part shared by both forms of `acl_to_state`: `false` when the
mode of an enabled filter has no cloud name. -/
def acl_mode_to_state (vap_info : wifi_vap_info_t) (vstate : schema_Wifi_VIF_State) :
    Bool × schema_Wifi_VIF_State :=
  if vap_info.bss_info.mac_filter_enable then
    let str := c_get_str_by_key map_acl_modes vap_info.bss_info.mac_filter_mode
    (decide (str.length ≠ 0), { vstate with mac_list_type := some str })
  else
    (true, { vstate with mac_list_type := some "none" })

/-- `acl_to_state(vap_info, vstate)`: the status and the state record as it is
left. -/
def acl_to_state (P : Platform σ) (cfg : BuildConfig) (s : σ) (vap_info : wifi_vap_info_t)
    (vstate : schema_Wifi_VIF_State) : Bool × schema_Wifi_VIF_State :=
  if cfg.WIFI_HAL_VERSION_3_PHASE2 then
    match acl_mode_to_state vap_info vstate with
    | (false, vstate1) => (false, vstate1)
    | (true, vstate1) =>
      match P.wifi_getApAclDevices_v3 s (INT_of_UINT vap_info.vap_index) with
      | none => (false, vstate1)
      | some acl_list =>
        (true, { vstate1 with
          mac_list_present := true
          mac_list := vstate1.mac_list ++ acl_list.map P.MAC_ADDR_FMT_print })
  else if !cfg.RDK_SYNC_EXT_HOME_ACLS && is_home_ap cfg vap_info.vap_name then
    (true, vstate)
  else
    match acl_mode_to_state vap_info vstate with
    | (false, vstate1) => (false, vstate1)
    | (true, vstate1) =>
      match P.wifi_getApAclDevices s (INT_of_UINT vap_info.vap_index) with
      | none => (false, vstate1)
      | some acl_buf =>
        if min acl_buf.length ACL_BUF_SIZE = ACL_BUF_SIZE then (false, vstate1)
        else
          (true, { vstate1 with
            mac_list_present := true
            mac_list := acl_to_state_loop
              (strtok_r_tokens mac_list_separator acl_buf.data []) vstate1.mac_list })

/-- `get_enterprise_credentials(radius, vstate)`. -/
def get_enterprise_credentials (radius : wifi_radius_settings_t)
    (vstate : schema_Wifi_VIF_State) : Bool × schema_Wifi_VIF_State :=
  (true, { vstate with
    radius_srv_addr := some radius.ip
    radius_srv_port := some radius.port
    radius_srv_secret := some radius.key })

/-- `get_psks(ssid_index, key, vstate)`; `key` is `key.key`. -/
def get_psks (P : Platform σ) (cfg : BuildConfig) (s : σ) (cached_key_ids : Int → String)
    (ssid_index : Int) (key : String) (vstate : schema_Wifi_VIF_State) :
    Bool × schema_Wifi_VIF_State :=
  let vstate1 := { vstate with wpa_psks := vstate.wpa_psks ++ [(cached_key_ids ssid_index, key)] }
  if cfg.RDK_MULTI_PSK_SUPPORT then
    match P.wifi_getMultiPskKeys s ssid_index with
    | none => (false, vstate1)
    | some keys =>
      let used := (keys.take MAX_MULTI_PSK_KEYS).filter
        (fun k => decide (k.wifi_keyId.length ≠ 0) && decide (k.wifi_psk.length ≠ 0))
      (true, { vstate1 with
        wpa_psks := vstate1.wpa_psks ++ used.map (fun k => (k.wifi_keyId, k.wifi_psk)) })
  else
    (true, vstate1)

/-- `get_security(ssidIndex, vap_info, vstate)`. -/
def get_security (P : Platform σ) (cfg : BuildConfig) (s : σ) (cached_key_ids : Int → String)
    (ssidIndex : Int) (vap_info : wifi_vap_info_t) (vstate : schema_Wifi_VIF_State) :
    Bool × schema_Wifi_VIF_State :=
  let mode := vap_info.bss_info.security_mode
  let vstate1 : schema_Wifi_VIF_State :=
    match vap_info.bss_info.security_mfp with
    | wifi_mfp_cfg_optional => { vstate with pmf := some OVSDB_SECURITY_PMF_OPTIONAL }
    | wifi_mfp_cfg_required => { vstate with pmf := some OVSDB_SECURITY_PMF_REQUIRED }
    | _ => { vstate with pmf := some OVSDB_SECURITY_PMF_DISABLED }
  if mode = wifi_security_mode_none then
    (true, { vstate1 with wpa := some false })
  else
    match security_key_mgmt_hal_to_ovsdb mode (some { vstate1 with wpa := some true }) none with
    | (true, some vstate2, _) =>
      if mode = wifi_security_mode_wpa2_enterprise then
        get_enterprise_credentials vap_info.bss_info.security_radius vstate2
      else
        get_psks P cfg s cached_key_ids ssidIndex vap_info.bss_info.security_key vstate2
    | (_, vstate2, _) => (false, vstate2.getD { vstate1 with wpa := some true })

/-- `get_channel(ssidIndex, vstate)`. -/
def get_channel (P : Platform σ) (s : σ) (ssidIndex : Int) (vstate : schema_Wifi_VIF_State) :
    Bool × schema_Wifi_VIF_State :=
  match P.wifi_getSSIDRadioIndex s ssidIndex with
  | none => (false, vstate)
  | some radio_idx =>
    match P.wifi_getRadioOperatingParameters_channel s radio_idx with
    | none => (false, vstate)
    | some channel =>
      if channel = 0 then (true, vstate)
      else (true, { vstate with channel := some channel })

/-- `vif_ap_state_get(vstate, vap_info)`: `none` when it returns `false`, which
it does when `get_channel` fails or `showSsid` has no name in
`map_enable_disable`. The results of `get_security` and `acl_to_state` are not
looked at by the source. -/
def vif_ap_state_get (P : Platform σ) (cfg : BuildConfig) (s : σ) (cached_key_ids : Int → String)
    (vstate : schema_Wifi_VIF_State) (vap_info : wifi_vap_info_t) :
    Option schema_Wifi_VIF_State :=
  match get_channel P s (INT_of_UINT vap_info.vap_index) vstate with
  | (false, _) => none
  | (true, vstate1) =>
    let vstate2 := { vstate1 with
      enabled := some vap_info.bss_info.enabled
      mode := some "ap"
      wds := some false
      ssid := some vap_info.bss_info.ssid
      ap_bridge := some (if vap_info.bss_info.isolation then false else true) }
    let str := c_get_str_by_key map_enable_disable vap_info.bss_info.showSsid
    if str.length = 0 then none
    else
      let vstate3 := { vstate2 with
        ssid_broadcast := some str
        mac := some (P.MAC_ADDRESS_FORMAT_print vap_info.bss_info.bssid)
        rrm := some vap_info.bss_info.nbrReportActivated
        btm := some vap_info.bss_info.bssTransitionActivated
        uapsd_enable := some vap_info.bss_info.UAPSDEnabled
        bridge := if vap_info.bridge_name.length > 0 then some vap_info.bridge_name else none }
      let vstate4 := (get_security P cfg s cached_key_ids (INT_of_UINT vap_info.vap_index)
        vap_info vstate3).2
      let vstate5 := (acl_to_state P cfg s vap_info vstate4).2
      some { vstate5 with mcast2ucast := some vap_info.bss_info.mcast2ucast }

/-- `vif_sta_state_get(vstate, vap_info)`. -/
def vif_sta_state_get (P : Platform σ) (vstate : schema_Wifi_VIF_State)
    (vap_info : wifi_vap_info_t) : Option schema_Wifi_VIF_State :=
  let sta := vap_info.sta_info
  let vstate1 := { vstate with
    enabled := some sta.enabled
    mode := some "sta"
    ssid := if sta.ssid.length ≠ 0 then some sta.ssid else vstate.ssid
    vif_radio_idx := some 0 }
  let bssid := P.MAC_ADDRESS_FORMAT_print sta.bssid
  let vstate2 := if bssid ≠ "00:00:00:00:00:00" then { vstate1 with parent := some bssid } else vstate1
  let mac := P.MAC_ADDRESS_FORMAT_print sta.mac
  let vstate3 := if mac ≠ "00:00:00:00:00:00" then { vstate2 with mac := some mac } else vstate2
  let vstate4 := if sta.scan_channel > 0 then { vstate3 with channel := some sta.scan_channel } else vstate3
  let vstate5 :=
    if (vstate4.ssid.getD "").length ≠ 0 then
      { vstate4 with security := vstate4.security ++
          [("encryption", "WPA-PSK"), ("key", sta.security_key)] ++
          (if sta.security_mode = wifi_security_mode_wpa_wpa2_personal then [("mode", "mixed")] else []) ++
          (if sta.security_mode = wifi_security_mode_wpa2_personal then [("mode", "2")] else []) ++
          (if sta.security_mode = wifi_security_mode_wpa_personal then [("mode", "1")] else []) }
    else vstate4
  some { vstate5 with wds := some false }

/-- `vif_state_get(ssidIndex, vstate)`: the state record, `none` when it
returns `false`. -/
def vif_state_get (P : Platform σ) (cfg : BuildConfig) (s : σ) (cached_key_ids : Int → String)
    (ssidIndex : Int) : Option schema_Wifi_VIF_State :=
  if ssidIndex < 0 then none
  else
    match ssid_index_to_vap_info P s (UINT_of_INT ssidIndex) with
    | none => none
    | some vap_info =>
      let vstate : schema_Wifi_VIF_State :=
        { if_name := some (P.target_unmap_ifname vap_info.vap_name) }
      if vap_info.vap_mode = wifi_vap_mode_ap then
        vif_ap_state_get P cfg s cached_key_ids vstate vap_info
      else if vap_info.vap_mode = wifi_vap_mode_sta then
        vif_sta_state_get P vstate vap_info
      else some vstate

/-- `vif_get_radio_ifname(ssidIndex, radio_ifname, sizeof(radio_ifname))` with a
non-empty output buffer: the unmapped radio name. -/
def vif_get_radio_ifname (P : Platform σ) (s : σ) (ssidIndex : Int) : Option String :=
  match P.wifi_getSSIDRadioIndex s ssidIndex with
  | none => none
  | some radio_idx =>
    match P.wifi_getRadioIfName s radio_idx with
    | none => none
    | some radio_ifname => some (P.target_unmap_ifname radio_ifname)

/-- `vif_state_update(ssidIndex)`: read the state and publish it. -/
def vif_state_update (P : Platform σ) (cfg : BuildConfig) (ssidIndex : Int) (w : World σ) :
    Bool × World σ :=
  let w1 := w.emit (Effect.vif_state_update ssidIndex)
  match vif_state_get P cfg w1.hal w1.cached_key_ids ssidIndex with
  | none => (false, w1)
  | some vstate =>
    match vif_get_radio_ifname P w1.hal ssidIndex with
    | none => (false, w1)
    | some radio_ifname =>
      (P.radio_rops_vstate w1.hal vstate radio_ifname,
        w1.emit (Effect.radio_rops_vstate vstate radio_ifname))

/-- `vif_copy_to_config(ssidIndex, vstate, vconf)`: the config record built from
a state record. The copies the source guards by `vconf->..._exists` right
after zeroing `vconf` never run. -/
def vif_copy_to_config (vstate : schema_Wifi_VIF_State) : schema_Wifi_VIF_Config :=
  let vconf : schema_Wifi_VIF_Config := {}
  { vconf with
    if_name := vstate.if_name.getD ""
    mode := vstate.mode.getD ""
    enabled := vstate.enabled.getD false
    bridge := if vstate.bridge.isSome then vstate.bridge.getD "" else vconf.bridge
    ap_bridge := vstate.ap_bridge.getD false
    wds := vstate.wds.getD false
    ssid_broadcast := vstate.ssid_broadcast.getD ""
    ssid := vstate.ssid.getD ""
    rrm := vstate.rrm.getD 0
    btm := vstate.btm.getD 0
    uapsd_enable := if vconf.uapsd_enable_exists then vstate.uapsd_enable.getD false
      else vconf.uapsd_enable
    wpa := vstate.wpa.getD false
    wpa_key_mgmt := vconf.wpa_key_mgmt ++ vstate.wpa_key_mgmt
    wpa_psks := vconf.wpa_psks ++ vstate.wpa_psks
    radius_srv_addr := vstate.radius_srv_addr.getD ""
    radius_srv_port := vstate.radius_srv_port.getD 0
    radius_srv_secret := vstate.radius_srv_secret.getD ""
    wpa_pairwise_tkip := vstate.wpa_pairwise_tkip.getD false
    wpa_pairwise_ccmp := vstate.wpa_pairwise_ccmp.getD false
    rsn_pairwise_tkip := vstate.rsn_pairwise_tkip.getD false
    rsn_pairwise_ccmp := vstate.rsn_pairwise_ccmp.getD false
    pmf := vstate.pmf.getD ""
    mac_list_type := vstate.mac_list_type.getD ""
    mac_list_present := vstate.mac_list_present
    mac_list := vconf.mac_list ++ vstate.mac_list }

/-! ## Deferred update scheduler -/

/-- Position of the first pending entry for `ssid_index` (the search loop of
`vif_state_update_deferred`). -/
def vif_update_queue_find (ssid_index : Int) : List vif_state_update_entry_t → Option Nat
  | [] => none
  | ptr :: rest =>
    if ssid_index = ptr.ssid_index then some 0
    else (vif_update_queue_find ssid_index rest).map (fun k => k + 1)

/-- Apply a timer operation to the entry at a position of the pending table. -/
def vif_update_queue_timer (op : ev_timer → ev_timer) :
    Nat → List vif_state_update_entry_t → List vif_state_update_entry_t
  | _, [] => []
  | 0, ptr :: rest => { ptr with defer_timer := op ptr.defer_timer } :: rest
  | k + 1, ptr :: rest => ptr :: vif_update_queue_timer op k rest

/-- `ev_timer_stop`. -/
def ev_timer_stop (t : ev_timer) : ev_timer := { t with active := false }

/-- `ev_timer_set(t, after, 0)` (or `ev_timer_init`) followed by `ev_timer_start`. -/
def ev_timer_set_start (after : Nat) (_t : ev_timer) : ev_timer :=
  { active := true, after := after }

/-- `vif_state_update_deferred(ssid_index)`. -/
def vif_state_update_deferred (P : Platform σ) (cfg : BuildConfig) (ssid_index : Int)
    (w : World σ) : World σ :=
  let w0 := if !w.vif_update_init_done then
      { w with vif_update_queue := [], vif_update_init_done := true }
    else w
  let start := ev_timer_set_start cfg.RDK_VIF_STATE_UPDATE_DELAY
  match vif_update_queue_find ssid_index w0.vif_update_queue with
  | some k =>
    let w1 := { w0 with
      vif_update_queue := vif_update_queue_timer ev_timer_stop k w0.vif_update_queue }
    let w2 := (vif_state_update P cfg ssid_index w1).2
    { w2 with vif_update_queue := vif_update_queue_timer start k w2.vif_update_queue }
  | none =>
    { w0 with
      vif_update_queue := w0.vif_update_queue ++
        [{ ssid_index := ssid_index, defer_timer := start {} }] }

/-- `vif_state_update_task(loop, defer_timer, revents)`: the timer of the entry
at position `k` of the pending table expires. -/
def vif_state_update_task (P : Platform σ) (cfg : BuildConfig) (k : Nat) (w : World σ) :
    World σ :=
  match w.vif_update_queue.get? k with
  | none => w
  | some ptr =>
    let w1 := (vif_state_update P cfg ptr.ssid_index w).2
    { w1 with vif_update_queue := w1.vif_update_queue.eraseIdx k }

/-! ## Async event bridge (`CONFIG_RDK_EXTENDER`) -/

/-- `vif_sta_update_cb(apIndex, state)`: the status returned to the HAL. -/
def vif_sta_update_cb (apIndex : Int) (state : String) (w : World σ) : Int × World σ :=
  if w.hal_cb_queue_len = HAL_CB_QUEUE_MAX then (RETURN_ERR, w)
  else
    let w1 := { w with
      hal_cb_queue := w.hal_cb_queue ++ [{ ssidIndex := apIndex, sta := state }]
      hal_cb_queue_len := w.hal_cb_queue_len + 1 }
    if w1.hal_cb_loop && !w1.hal_cb_async_pending then
      (RETURN_OK, { w1 with hal_cb_async_pending := true })
    else (RETURN_OK, w1)

/-- The `while (cbe)` loop of `vif_sta_update_async_cb` over the entries still
queued. -/
def vif_sta_update_async_cb_loop (P : Platform σ) (cfg : BuildConfig) :
    List hal_cb_entry_t → World σ → World σ
  | [], w => w
  | cbe :: rest, w =>
    let w1 := { w with hal_cb_queue := rest, hal_cb_queue_len := w.hal_cb_queue_len - 1 }
    match ssid_index_to_vap_info P w1.hal (UINT_of_INT cbe.ssidIndex) with
    | none => vif_sta_update_async_cb_loop P cfg rest w1
    | some _ =>
      vif_sta_update_async_cb_loop P cfg rest (vif_state_update P cfg cbe.ssidIndex w1).2

/-- `vif_sta_update_async_cb(loop, w, revents)`. -/
def vif_sta_update_async_cb (P : Platform σ) (cfg : BuildConfig) (w : World σ) : World σ :=
  vif_sta_update_async_cb_loop P cfg w.hal_cb_queue w

/-- `sta_hal_init()`. -/
def sta_hal_init (w : World σ) : World σ :=
  if w.hal_cb_loop then { w with hal_cb_async_active := true }
  else
    { w with
      hal_cb_queue := []
      hal_cb_queue_len := 0
      hal_cb_async_pending := false
      hal_cb_async_active := false
      hal_cb_registered := w.hal_cb_registered + 1 }

/-! ## Config writer -/

/-- `SCHEMA_KEY_VAL(map, key)`: the value stored for the key, the empty string
when there is none. -/
def SCHEMA_KEY_VAL (map : List (String × String)) (key : String) : String :=
  match map.find? (fun kv => kv.1 == key) with
  | some kv => kv.2
  | none => ""

/-- The credential record `struct schema_Wifi_Credential_Config` (the first
element of `cconfs`). -/
structure schema_Wifi_Credential_Config where
  ssid : String := ""
  security : List (String × String) := []
deriving DecidableEq, Repr

/-- `set_password(ssid_index, vconf, vap_info)`; `wpa_psks[0]` of an empty list
is the zeroed first array element. -/
def set_password (P : Platform σ) (cfg : BuildConfig) (ssid_index : Int)
    (vconf : schema_Wifi_VIF_Config) (vap_info : wifi_vap_info_t) (w : World σ) :
    Bool × wifi_vap_info_t × World σ :=
  let first := vconf.wpa_psks.headD ("", "")
  let vap1 := { vap_info with bss_info := { vap_info.bss_info with security_key := first.2 } }
  let w1 := { w with cached_key_ids := Function.update w.cached_key_ids ssid_index first.1 }
  if cfg.RDK_MULTI_PSK_SUPPORT then
    if vconf.wpa_psks.length > 1 then
      let keys : List wifi_key_multi_psk_t :=
        (vconf.wpa_psks.drop 1).map (fun kv => { wifi_keyId := kv.1, wifi_psk := kv.2 })
      let r := call_pushMultiPskKeys P ssid_index keys w1
      (decide (r.2 = RETURN_OK), vap1, r.1)
    else
      let r := call_pushMultiPskKeys P ssid_index [] w1
      (decide (r.2 = RETURN_OK), vap1, r.1)
  else
    (true, vap1, w1)

/-- `security_ovsdb_to_syncmsg(ssid_index, vconf, dest)`. -/
def security_ovsdb_to_syncmsg (ssid_index : Int) (vconf : schema_Wifi_VIF_Config)
    (dest : MeshWifiAPSecurity) : Bool × MeshWifiAPSecurity :=
  match security_key_mgmt_ovsdb_to_sync vconf with
  | none => (false, dest)
  | some mode =>
    (true, { dest with
      secMode := mode
      passphrase := (vconf.wpa_psks.headD ("", "")).2
      encryptMode := DEFAULT_ENC_MODE
      index := UINT_of_INT ssid_index })

/-- The `exit:` block of `set_security`. -/
def set_security_exit (cfg : BuildConfig) (ssid_index : Int) (vconf : schema_Wifi_VIF_Config)
    (changed : schema_Wifi_VIF_Config_flags) (send_sync : Bool) (w : World σ) : World σ :=
  if send_sync && !cfg.RDK_DISABLE_SYNC && !cfg.RDK_MULTI_PSK_SUPPORT then
    let m1 := (security_ovsdb_to_syncmsg ssid_index vconf {}).2
    let m2 := if changed.wpa && vconf.wpa == false then
        { m1 with secMode := RDK_SECURITY_KEY_MGMT_OPEN }
      else m1
    let m3 := { m2 with passphrase := (vconf.wpa_psks.headD ("", "")).2 }
    w.emit (Effect.sync_send_security_change ssid_index vconf.if_name m3)
  else w

/-- The pre-shared-key block of `set_security` (`if (changed->wpa_psks && ...)`)
followed by its `exit:` block. -/
def set_security_psks (P : Platform σ) (cfg : BuildConfig) (ssid_index : Int)
    (vconf : schema_Wifi_VIF_Config) (changed : schema_Wifi_VIF_Config_flags)
    (send_sync trigger_reconfig : Bool) (vap_info : wifi_vap_info_t) (w : World σ) :
    Bool × wifi_vap_info_t × World σ :=
  if changed.wpa_psks && decide (vconf.wpa_psks.length ≥ 1) then
    match set_password P cfg ssid_index vconf vap_info w with
    | (false, vap1, w1) =>
      (trigger_reconfig, vap1, set_security_exit cfg ssid_index vconf changed send_sync w1)
    | (true, vap1, w1) =>
      (true, vap1, set_security_exit cfg ssid_index vconf changed true w1)
  else
    (trigger_reconfig, vap_info, set_security_exit cfg ssid_index vconf changed send_sync w)

/-- The PMF decoding of `set_security`. -/
def pmf_to_mfp (pmf : String) : wifi_mfp_cfg_t :=
  if pmf = OVSDB_SECURITY_PMF_OPTIONAL then wifi_mfp_cfg_optional
  else if pmf = OVSDB_SECURITY_PMF_REQUIRED then wifi_mfp_cfg_required
  else wifi_mfp_cfg_disabled

/-- `set_security(ssid_index, vconf, changed, &trigger_reconfig, vap_info)`: the
accumulator and the descriptor as they are left, and the world. -/
def set_security (P : Platform σ) (cfg : BuildConfig) (ssid_index : Int)
    (vconf : schema_Wifi_VIF_Config) (changed : schema_Wifi_VIF_Config_flags)
    (trigger_reconfig : Bool) (vap_info : wifi_vap_info_t) (w : World σ) :
    Bool × wifi_vap_info_t × World σ :=
  if changed.wpa && vconf.wpa == false then
    (true,
      { vap_info with bss_info :=
        { vap_info.bss_info with security_mode := wifi_security_mode_none } },
      set_security_exit cfg ssid_index vconf changed true w)
  else if changed.wpa_key_mgmt || changed.wpa_pairwise_tkip || changed.wpa_pairwise_ccmp ||
      changed.rsn_pairwise_tkip || changed.rsn_pairwise_ccmp || changed.pmf then
    match security_key_mgmt_ovsdb_to_hal vconf with
    | none => (trigger_reconfig, vap_info, w)
    | some mode =>
      set_security_psks P cfg ssid_index vconf changed true true
        { vap_info with bss_info :=
          { vap_info.bss_info with security_mode := mode, security_mfp := pmf_to_mfp vconf.pmf } }
        w
  else
    set_security_psks P cfg ssid_index vconf changed false trigger_reconfig vap_info w

/-- `vif_ifname_to_idx(ifname, &outSsidIndex)`. -/
def vif_ifname_to_idx (P : Platform σ) (s : σ) (ifname : String) : Option Int :=
  match P.wifi_getHalCapability s with
  | none => none
  | some cap =>
    (cap.interface_map.find? (fun m => m.vap_name == ifname)).map (fun m => m.index)

/-- `get_mcast2ucast_supported(radioIndex, &mcast2ucast_supported)`; an index
past the end of `radiocap` reads as `false`. -/
def get_mcast2ucast_supported (P : Platform σ) (s : σ) (radioIndex : Int) : Option Bool :=
  match P.wifi_getHalCapability s with
  | none => none
  | some cap =>
    let capIndex := P.get_radio_cap_index cap radioIndex
    if capIndex < 0 then none
    else some (cap.radiocap.getD capIndex.toNat {}).mcast2ucastSupported

/-- The push at the end of both config writers: `if (trigger_reconfig)
wifi_createVAP(vap_info->radio_index, &vap_info_map_desired)` with the
one-element map holding the descriptor. -/
def vif_config_push (P : Platform σ) (trigger_reconfig : Bool) (vap_info : wifi_vap_info_t)
    (w : World σ) : World σ :=
  if trigger_reconfig then (call_createVAP P vap_info.radio_index [vap_info] w).1 else w

/-- The state refresh at the end of both config writers, deferred when
`CONFIG_RDK_VIF_STATE_UPDATE_DELAY > 0`: the result of the writer. -/
def vif_config_refresh (P : Platform σ) (cfg : BuildConfig) (ssid_index : Int) (w : World σ) :
    Bool × World σ :=
  if cfg.RDK_VIF_STATE_UPDATE_DELAY > 0 then
    (true, vif_state_update_deferred P cfg ssid_index w)
  else
    vif_state_update P cfg ssid_index w

/-- The field application of `vif_sta_config_set2` to the station descriptor:
the accumulator and the descriptor. -/
def vif_sta_config_apply (P : Platform σ) (vconf : schema_Wifi_VIF_Config)
    (cconfs : schema_Wifi_Credential_Config) (changed : schema_Wifi_VIF_Config_flags)
    (vap_info : wifi_vap_info_t) : Bool × wifi_vap_info_t :=
  let sta0 := vap_info.sta_info
  let sta1 := if changed.enabled then { sta0 with enabled := vconf.enabled } else sta0
  if changed.ssid || changed.security || changed.parent then
    if vconf.ssid.length = 0 then
      (true, { vap_info with sta_info := { sta1 with
        security_encr := wifi_encryption_aes
        security_mode := wifi_security_mode_wpa2_personal
        security_key_type_psk := true
        security_key := SCHEMA_KEY_VAL cconfs.security "key"
        ssid := cconfs.ssid } })
    else
      let sta2 := { sta1 with
        ssid := vconf.ssid
        bssid := if vconf.parent.length ≠ 0 then P.sscanf_hhx_mac vconf.parent sta1.bssid
          else sta1.bssid }
      let mode := SCHEMA_KEY_VAL vconf.security "mode"
      let sta3 :=
        if mode = "mixed" then
          { sta2 with security_encr := wifi_encryption_aes_tkip,
                      security_mode := wifi_security_mode_wpa_wpa2_personal }
        else if mode = "2" then
          { sta2 with security_encr := wifi_encryption_aes,
                      security_mode := wifi_security_mode_wpa2_personal }
        else if mode = "1" then
          { sta2 with security_encr := wifi_encryption_tkip,
                      security_mode := wifi_security_mode_wpa_personal }
        else
          { sta2 with security_encr := wifi_encryption_aes,
                      security_mode := wifi_security_mode_wpa2_personal }
      let sta4 := if (SCHEMA_KEY_VAL vconf.security "encryption").length ≠ 0 then
          { sta3 with security_key_type_psk := true }
        else sta3
      (true, { vap_info with sta_info :=
        { sta4 with security_key := SCHEMA_KEY_VAL vconf.security "key" } })
  else
    (changed.enabled, { vap_info with sta_info := sta1 })

/-- `vif_sta_config_set2(vconf, rconf, cconfs, changed, num_cconfs)`. -/
def vif_sta_config_set2 (P : Platform σ) (cfg : BuildConfig) (vconf : schema_Wifi_VIF_Config)
    (cconfs : schema_Wifi_Credential_Config) (changed : schema_Wifi_VIF_Config_flags)
    (w : World σ) : Bool × World σ :=
  match vif_ifname_to_idx P w.hal vconf.if_name with
  | none => (false, w)
  | some ssid_index =>
    match ssid_index_to_vap_info P w.hal (UINT_of_INT ssid_index) with
    | none => (false, w)
    | some vap_info =>
      let r := vif_sta_config_apply P vconf cconfs changed vap_info
      vif_config_refresh P cfg ssid_index (vif_config_push P r.1 r.2 w)

/-- Where the field application of `target_vif_config_set2` stands when it
ends: `aborted` when it left through the `return false` of the SSID broadcast
branch, the accumulator `trigger_reconfig`, the descriptor and the world. -/
structure ap_config_result (σ : Type) where
  aborted : Bool
  trigger_reconfig : Bool
  vap_info : wifi_vap_info_t
  world : World σ

/-- The fields `target_vif_config_set2` applies before the SSID broadcast
option: `enabled`, the security group, `ap_bridge`, `rrm`, `btm` and
`uapsd_enable`. -/
def vif_ap_config_head (P : Platform σ) (cfg : BuildConfig) (ssid_index : Int)
    (vconf : schema_Wifi_VIF_Config) (changed : schema_Wifi_VIF_Config_flags)
    (vap_info : wifi_vap_info_t) (w : World σ) : Bool × wifi_vap_info_t × World σ :=
  let t0 := false
  let t1 := if changed.enabled then true else t0
  let vap1 := if changed.enabled then
      { vap_info with bss_info := { vap_info.bss_info with enabled := vconf.enabled } }
    else vap_info
  let r := set_security P cfg ssid_index vconf changed t1 vap1 w
  let t2 := if changed.ap_bridge then true else r.1
  let vap2 := if changed.ap_bridge then
      { r.2.1 with bss_info := { r.2.1.bss_info with isolation := !vconf.ap_bridge } }
    else r.2.1
  let t3 := if changed.rrm then true else t2
  let vap3 := if changed.rrm then
      { vap2 with bss_info := { vap2.bss_info with nbrReportActivated := vconf.rrm } }
    else vap2
  let t4 := if changed.btm then true else t3
  let vap4 := if changed.btm then
      { vap3 with bss_info := { vap3.bss_info with bssTransitionActivated := vconf.btm } }
    else vap3
  let t5 := if changed.uapsd_enable then true else t4
  let vap5 := if changed.uapsd_enable then
      { vap4 with bss_info := { vap4.bss_info with UAPSDEnabled := vconf.uapsd_enable } }
    else vap4
  (t5, vap5, r.2.2)

/-- The fields `target_vif_config_set2` applies after the SSID broadcast
option: `ssid`, `bridge`, the ACL and `mcast2ucast`. -/
def vif_ap_config_tail (P : Platform σ) (cfg : BuildConfig) (ssid_index : Int)
    (vconf : schema_Wifi_VIF_Config) (changed : schema_Wifi_VIF_Config_flags)
    (trigger_reconfig : Bool) (vap_info : wifi_vap_info_t) (w : World σ) :
    Bool × wifi_vap_info_t × World σ :=
  let t1 := if changed.ssid then true else trigger_reconfig
  let vap1 := if changed.ssid then
      { vap_info with bss_info := { vap_info.bss_info with ssid := vconf.ssid } }
    else vap_info
  let w1 := if changed.ssid && !cfg.RDK_DISABLE_SYNC then
      w.emit (Effect.sync_send_ssid_change ssid_index vconf.if_name vconf.ssid)
    else w
  let t2 := if changed.bridge then true else t1
  let vap2 := if changed.bridge then { vap1 with bridge_name := vconf.bridge } else vap1
  let r := acl_apply P cfg ssid_index vconf changed t2 vap2 w1
  if changed.mcast2ucast then
    match get_mcast2ucast_supported P r.2.2.hal (INT_of_UINT r.2.1.radio_index) with
    | none => r
    | some mcast2ucast_supported =>
      if !mcast2ucast_supported && vconf.mcast2ucast then r
      else
        (true,
          { r.2.1 with bss_info := { r.2.1.bss_info with mcast2ucast := vconf.mcast2ucast } },
          r.2.2)
  else r

/-- The field application of `target_vif_config_set2` on the access-point
path, from `if (changed->enabled)` to the end of the `mcast2ucast` block. The
cast `(BOOL)citem->key` keeps the key, which is 0 or 1. -/
def vif_ap_config_apply (P : Platform σ) (cfg : BuildConfig) (ssid_index : Int)
    (vconf : schema_Wifi_VIF_Config) (changed : schema_Wifi_VIF_Config_flags)
    (vap_info : wifi_vap_info_t) (w : World σ) : ap_config_result σ :=
  let h := vif_ap_config_head P cfg ssid_index vconf changed vap_info w
  if changed.ssid_broadcast then
    match c_get_item_by_str map_enable_disable vconf.ssid_broadcast with
    | none => { aborted := true, trigger_reconfig := h.1, vap_info := h.2.1, world := h.2.2 }
    | some citem =>
      let vap1 := { h.2.1 with bss_info := { h.2.1.bss_info with showSsid := citem.1 } }
      let w1 := if !cfg.RDK_DISABLE_SYNC then
          h.2.2.emit (Effect.sync_send_ssid_broadcast_change ssid_index citem.1)
        else h.2.2
      let t := vif_ap_config_tail P cfg ssid_index vconf changed true vap1 w1
      { aborted := false, trigger_reconfig := t.1, vap_info := t.2.1, world := t.2.2 }
  else
    let t := vif_ap_config_tail P cfg ssid_index vconf changed h.1 h.2.1 h.2.2
    { aborted := false, trigger_reconfig := t.1, vap_info := t.2.1, world := t.2.2 }

/-- `target_vif_config_set2(vconf, rconf, cconfs, changed, num_cconfs)`: the
result and the world it leaves (`rconf` is read by the WPS hook only). -/
def target_vif_config_set2 (P : Platform σ) (cfg : BuildConfig)
    (vconf : schema_Wifi_VIF_Config) (cconfs : schema_Wifi_Credential_Config)
    (changed : schema_Wifi_VIF_Config_flags) (w : World σ) : Bool × World σ :=
  match vif_ifname_to_idx P w.hal vconf.if_name with
  | none => (false, w)
  | some ssid_index =>
    match ssid_index_to_vap_info P w.hal (UINT_of_INT ssid_index) with
    | none => (false, w)
    | some vap_info =>
      if vap_info.vap_mode = wifi_vap_mode_sta then
        vif_sta_config_set2 P cfg vconf cconfs changed w
      else
        let r := vif_ap_config_apply P cfg ssid_index vconf changed vap_info w
        if r.aborted then (false, r.world)
        else
          vif_config_refresh P cfg ssid_index
            (vif_config_push P r.trigger_reconfig r.vap_info r.world)

/-- The `wifi_createVAP` calls of a log, in order, with their arguments. -/
def createVAP_calls : List Effect → List (Nat × List wifi_vap_info_t)
  | [] => []
  | Effect.hal (HalCall.wifi_createVAP radio_index map) :: rest =>
    (radio_index, map) :: createVAP_calls rest
  | _ :: rest => createVAP_calls rest

/-- Repeated application of a state transformer. -/
def repeat_apply {α : Type} (f : α → α) : Nat → α → α
  | 0, a => a
  | n + 1, a => repeat_apply f n (f a)

/-- The precedence of the Cloud→HAL translation in the words of the
specification (first match wins): SAE and PSK → WPA3-transition; SAE →
WPA3-personal; enterprise → WPA2-enterprise; PSK → by the pairwise ciphers
(WPA and RSN → mixed, only WPA → WPA-personal, only RSN → WPA2-personal,
neither → none); otherwise (open) → none. -/
def cloud_to_hal_precedence (psk sae eap wpa_cipher rsn_cipher : Bool) : wifi_security_modes_t :=
  if sae && psk then wifi_security_mode_wpa3_transition
  else if sae then wifi_security_mode_wpa3_personal
  else if eap then wifi_security_mode_wpa2_enterprise
  else if psk then
    if wpa_cipher && rsn_cipher then wifi_security_mode_wpa_wpa2_personal
    else if wpa_cipher then wifi_security_mode_wpa_personal
    else if rsn_cipher then wifi_security_mode_wpa2_personal
    else wifi_security_mode_none
  else wifi_security_mode_none

/-- The remove calls for a current and a desired list: one for each current
entry that does not occur in the desired list, in current-list order. -/
def remove_calls (vap_index : Int) (current desired : List String) : List Effect :=
  (current.filter (fun c => decide (c ∉ desired))).map
    (fun c => Effect.hal (HalCall.wifi_delApAclDevice vap_index c))

/-- The add calls for a current and a desired list: one for each desired entry
that does not occur in the current list, in desired-list order. -/
def add_calls (vap_index : Int) (current desired : List String) : List Effect :=
  (desired.filter (fun m => decide (m ∉ current))).map
    (fun m => Effect.hal (HalCall.wifi_addApAclDevice vap_index m))

/-- The descriptor of the single VAP of `demo_platform`. -/
def demo_vap : wifi_vap_info_t :=
  { vap_index := 0, vap_name := "wl0", radio_index := 0, vap_mode := wifi_vap_mode_ap }

/-- A small platform for evaluating the code at concrete inputs: one radio
"wifi0" with one access-point VAP "wl0" (index 0); the external state is the
ACL programmed on that VAP, with set semantics for remove and add; every
mutating call succeeds and every sink accepts. -/
def demo_platform : Platform (List String) where
  wifi_getHalCapability := fun _ =>
    some { interface_map := [{ vap_name := "wl0", index := 0 }],
           radiocap := [{ mcast2ucastSupported := true }] }
  wifi_getSSIDRadioIndex := fun _ _ => some 0
  wifi_getRadioVapInfoMap := fun _ _ => some [demo_vap]
  wifi_getRadioIfName := fun _ _ => some "wifi0"
  wifi_getRadioOperatingParameters_channel := fun _ _ => some 6
  wifi_getApAclDeviceNum := fun s _ => some s.length
  wifi_getApAclDevices := fun s _ => some (String.intercalate "," s)
  wifi_getApAclDevices_v3 := fun _ _ => some []
  wifi_getMultiPskKeys := fun _ _ => some []
  wifi_delApAclDevice := fun s _ m => (s.filter (fun x => decide (x ≠ m)), RETURN_OK)
  wifi_addApAclDevice := fun s _ m => (if m ∈ s then s else s ++ [m], RETURN_OK)
  wifi_delApAclDevices := fun _ _ => ([], RETURN_OK)
  wifi_addApAclDevice_v3 := fun s _ _ => (s, RETURN_OK)
  wifi_pushMultiPskKeys := fun s _ _ => (s, RETURN_OK)
  wifi_createVAP := fun s _ _ => (s, RETURN_OK)
  sync_send_security_change := fun _ _ _ _ => true
  sync_send_ssid_change := fun _ _ _ _ => true
  sync_send_ssid_broadcast_change := fun _ _ _ => true
  radio_rops_vstate := fun _ _ _ => true
  target_unmap_ifname := fun n => n
  get_radio_cap_index := fun _ r => r
  MAC_ADDR_FMT_print := fun _ => "00:00:00:00:00:00"
  MAC_ADDR_FMT_scan := fun _ => none
  MAC_ADDRESS_FORMAT_print := fun _ => "00:00:00:00:00:00"
  sscanf_hhx_mac := fun _ old => old

/-- The second world has the log of the first one followed by effects that are
no descriptor push. -/
def no_push (w w' : World σ) : Prop :=
  ∃ es, w'.log = w.log ++ es ∧ createVAP_calls es = []

/-- The second world has the external state of the first one and its log
followed by effects that are no HAL call. -/
def no_hal_write (w w' : World σ) : Prop :=
  w'.hal = w.hal ∧ ∃ es, w'.log = w.log ++ es ∧ hal_calls es = []

/-! ## Step models of the scheduler and of the event bridge -/

/-- The refresh executions of a log, in order: the interface index of each
`vif_state_update` entered. -/
def refresh_calls : List Effect → List Int
  | [] => []
  | Effect.vif_state_update ssidIndex :: rest => ssidIndex :: refresh_calls rest
  | _ :: rest => refresh_calls rest

/-- The events of the deferred update scheduler: a refresh request for an
interface index, and the expiry of the timer of the entry pending for an
index. -/
inductive SchedEvent where
  | requestRefresh (i : Int)
  | timerExpiry (i : Int)
deriving DecidableEq, Repr

/-- The interface index an event is about. -/
def SchedEvent.index : SchedEvent → Int
  | SchedEvent.requestRefresh i => i
  | SchedEvent.timerExpiry i => i

/-- The indices of the pending table, in table order. -/
def sched_pending (w : World σ) : List Int :=
  w.vif_update_queue.map (fun ptr => ptr.ssid_index)

/-- One step of the scheduler: a request runs `vif_state_update_deferred`; an
expiry runs `vif_state_update_task` on the entry pending for the index (no
timer exists, and nothing happens, when the index is not pending). -/
def sched_step (P : Platform σ) (cfg : BuildConfig) : SchedEvent → World σ → World σ
  | SchedEvent.requestRefresh i, w => vif_state_update_deferred P cfg i w
  | SchedEvent.timerExpiry i, w =>
    match vif_update_queue_find i w.vif_update_queue with
    | some k => vif_state_update_task P cfg k w
    | none => w

/-- A sequence of scheduler steps, first event first. -/
def sched_run (P : Platform σ) (cfg : BuildConfig) : List SchedEvent → World σ → World σ
  | [], w => w
  | e :: rest, w => sched_run P cfg rest (sched_step P cfg e w)

/-- The indices requested by a sequence of events. -/
def sched_requested : List SchedEvent → List Int
  | [] => []
  | SchedEvent.requestRefresh i :: rest => i :: sched_requested rest
  | SchedEvent.timerExpiry _ :: rest => sched_requested rest

/-- The pending table after an event, as a function of the table before. -/
def sched_pending_after : SchedEvent → List Int → List Int
  | SchedEvent.requestRefresh i, l => if i ∈ l then l else l ++ [i]
  | SchedEvent.timerExpiry i, l => l.erase i

/-- The refresh executions of an event, as a function of the pending table. -/
def sched_refreshes_of : SchedEvent → List Int → List Int
  | SchedEvent.requestRefresh i, l => if i ∈ l then [i] else []
  | SchedEvent.timerExpiry i, l => if i ∈ l then [i] else []

/-- The pending table a request works on: `vif_state_update_deferred` empties
the table on its first call (`ds_dlist_init`). -/
def sched_pending_init (w : World σ) : List Int :=
  if w.vif_update_init_done then sched_pending w else []

/-- The operations on the event bridge: initialisation, an event from the HAL
callback thread, and one run of the consumer. -/
inductive BridgeOp where
  | init
  | enqueue (apIndex : Int) (state : String)
  | drain
deriving DecidableEq, Repr

/-- One operation on the event bridge. -/
def bridge_step (P : Platform σ) (cfg : BuildConfig) : BridgeOp → World σ → World σ
  | BridgeOp.init, w => sta_hal_init w
  | BridgeOp.enqueue apIndex state, w => (vif_sta_update_cb apIndex state w).2
  | BridgeOp.drain, w => vif_sta_update_async_cb P cfg w

/-- A sequence of operations on the event bridge, first one first. -/
def bridge_run (P : Platform σ) (cfg : BuildConfig) : List BridgeOp → World σ → World σ
  | [], w => w
  | op :: rest, w => bridge_run P cfg rest (bridge_step P cfg op w)

/-- The pending table after a sequence of events, as a function of the table
before. -/
def sched_pending_run : List SchedEvent → List Int → List Int
  | [], l => l
  | e :: rest, l => sched_pending_run rest (sched_pending_after e l)

/-- The refresh executions of a sequence of events, as a function of the
pending table before. -/
def sched_refreshes_run : List SchedEvent → List Int → List Int
  | [], _ => []
  | e :: rest, l => sched_refreshes_of e l ++ sched_refreshes_run rest (sched_pending_after e l)

/-- The states of the scheduler the code can be in: the pending table is empty
until the first request has initialised it. -/
def sched_wf (w : World σ) : Prop :=
  w.vif_update_init_done = true ∨ w.vif_update_queue = []

/-- The counter of the event queue equals the number of queued entries, and
that number is at most the capacity. -/
def hal_cb_queue_ok (w : World σ) : Prop :=
  w.hal_cb_queue_len = w.hal_cb_queue.length ∧ w.hal_cb_queue.length ≤ HAL_CB_QUEUE_MAX

/-- The platform `demo_platform` with another descriptor for its VAP. -/
def demo_platform_with (vap_info : wifi_vap_info_t) : Platform (List String) :=
  { demo_platform with wifi_getRadioVapInfoMap := fun _ _ => some [vap_info] }

/-- The VAP of `demo_platform` with the security mode code 2, which is outside
the table of `vif.c`. -/
def demo_vap_unknown_security : wifi_vap_info_t :=
  { demo_vap with bss_info := { security_mode := wifi_security_modes_t.other 2 } }

/-- The VAP of `demo_platform` with ACL filtering enabled in the unknown
mode 7. -/
def demo_vap_unknown_acl_mode : wifi_vap_info_t :=
  { demo_vap with bss_info :=
    { mac_filter_enable := true, mac_filter_mode := wifi_mac_filter_mode_t.other 7 } }

/-- The VAP of `demo_platform` with the `showSsid` value 2, which has no name
in `map_enable_disable`. -/
def demo_vap_unknown_showSsid : wifi_vap_info_t :=
  { demo_vap with bss_info := { showSsid := 2 } }

/-- The keys `set_password` copies for `wifi_pushMultiPskKeys`: entry `i` is
the pair `i + 1` of the desired list. -/
def multi_psk_keys (wpa_psks : List (String × String)) : List wifi_key_multi_psk_t :=
  (wpa_psks.drop 1).map (fun kv => { wifi_keyId := kv.1, wifi_psk := kv.2 })

/-- The platform that behaves like `P` except that `wifi_createVAP` returns the
given status; the external state the call leaves is that of `P`. -/
def with_createVAP_status (P : Platform σ) (status : Int) : Platform σ :=
  { P with
    wifi_createVAP := fun s radio_index map => ((P.wifi_createVAP s radio_index map).1, status) }

/-- The VAP of `demo_platform` with PMF required. -/
def demo_vap_pmf_required : wifi_vap_info_t :=
  { demo_vap with bss_info := { security_mfp := wifi_mfp_cfg_required } }

/-- The VAP of `demo_platform` with the PMF code 9, which is none of disabled,
optional and required. -/
def demo_vap_unknown_mfp : wifi_vap_info_t :=
  { demo_vap with bss_info := { security_mfp := wifi_mfp_cfg_t.other 9 } }

/-- The VAP of `demo_platform` with multicast-to-unicast switched on. -/
def demo_vap_mcast2ucast : wifi_vap_info_t :=
  { demo_vap with bss_info := { mcast2ucast := true } }

/-- The capability table of `demo_platform` with a radio that does not support
multicast-to-unicast. -/
def demo_cap_no_mcast2ucast : wifi_hal_capability_t :=
  { interface_map := [{ vap_name := "wl0", index := 0 }],
    radiocap := [{ mcast2ucastSupported := false }] }

/-- The platform `demo_platform` with a radio that does not support
multicast-to-unicast and a VAP that has it switched on. -/
def demo_platform_no_mcast2ucast : Platform (List String) :=
  { demo_platform_with demo_vap_mcast2ucast with
    wifi_getHalCapability := fun _ => some demo_cap_no_mcast2ucast }

/-- The platform `demo_platform` whose capability table has no entry for the
radio (`get_radio_cap_index` returns -1), so that the multicast-to-unicast
capability query fails. -/
def demo_platform_no_radio_cap : Platform (List String) :=
  { demo_platform with get_radio_cap_index := fun _ _ => -1 }

/-- The platform `demo_platform` whose radio operating-parameters query fails. -/
def demo_platform_no_channel : Platform (List String) :=
  { demo_platform with wifi_getRadioOperatingParameters_channel := fun _ _ => none }

/-- The platform `demo_platform` whose radio reports the channel 0. -/
def demo_platform_channel_zero : Platform (List String) :=
  { demo_platform with wifi_getRadioOperatingParameters_channel := fun _ _ => some 0 }

/-- The platform `demo_platform` whose descriptor push fails. -/
def demo_platform_push_fails : Platform (List String) :=
  with_createVAP_status demo_platform RETURN_ERR

end

/-! # Theorems -/

/-! ## Security mode translator -/

theorem starts_with_nil (h : List Char) : starts_with h [] = true := by
  cases h <;> rfl

theorem strstr_chars_nil (h : List Char) : strstr_chars h [] = true := by
  cases h with
  | nil => rfl
  | cons a as => simp [strstr_chars, starts_with_nil]

theorem strstr_empty (h : String) : strstr h "" = true := by
  simp [strstr, strstr_chars_nil]

/-- The empty key-management name matches every config. -/
theorem security_wpa_key_mgmt_match_none (vconf : schema_Wifi_VIF_Config) :
    security_wpa_key_mgmt_match vconf OVSDB_SECURITY_KEY_MGMT_NONE = true := by
  unfold security_wpa_key_mgmt_match
  cases hk : vconf.wpa_key_mgmt with
  | nil => simp
  | cons a l => simp [OVSDB_SECURITY_KEY_MGMT_NONE, strstr_empty]

/-- Among the three supported names, one occurs inside another only when they
are equal. -/
theorem strstr_supported (x k : String)
    (hx : x = "wpa-psk" ∨ x = "sae" ∨ x = "wpa-eap")
    (hk : k = "wpa-psk" ∨ k = "sae" ∨ k = "wpa-eap") :
    strstr x k = true ↔ x = k := by
  rcases hx with rfl | rfl | rfl <;> rcases hk with rfl | rfl | rfl <;> decide

theorem security_wpa_key_mgmt_match_supported (vconf : schema_Wifi_VIF_Config) (k : String)
    (h : ∀ x ∈ vconf.wpa_key_mgmt, x = "wpa-psk" ∨ x = "sae" ∨ x = "wpa-eap")
    (hk : k = "wpa-psk" ∨ k = "sae" ∨ k = "wpa-eap") :
    security_wpa_key_mgmt_match vconf k = decide (k ∈ vconf.wpa_key_mgmt) := by
  have hne : k ≠ OVSDB_SECURITY_KEY_MGMT_NONE := by
    rcases hk with rfl | rfl | rfl <;> decide
  unfold security_wpa_key_mgmt_match
  rw [if_neg (fun hc => hne hc.2)]
  rw [Bool.eq_iff_iff]
  simp only [List.any_eq_true, decide_eq_true_eq]
  constructor
  · rintro ⟨x, hx, hs⟩
    have := (strstr_supported x k (h x hx) hk).1 hs
    exact this ▸ hx
  · intro hmem
    exact ⟨k, hmem, (strstr_supported k k hk hk).2 rfl⟩

/-- C1: each of the six HAL security modes, translated into an initially empty
config record by `security_key_mgmt_hal_to_ovsdb` and back by
`security_key_mgmt_ovsdb_to_hal`, comes back as the same mode; and for mode
none the state reader leaves the key-management list empty, and the config
copied from that state translates back to none. -/
theorem security_round_trip :
    (∀ mode ∈ [wifi_security_mode_wpa_personal, wifi_security_mode_wpa_wpa2_personal,
        wifi_security_mode_wpa2_personal, wifi_security_mode_wpa2_enterprise,
        wifi_security_mode_wpa3_transition, wifi_security_mode_wpa3_personal],
      ∃ vconfig, security_key_mgmt_hal_to_ovsdb mode none (some {}) = (true, none, some vconfig)
        ∧ security_key_mgmt_ovsdb_to_hal vconfig = some mode)
    ∧ (∀ (σ : Type) (P : Platform σ) (cfg : BuildConfig) (s : σ) (ids : Int → String)
        (ssidIndex : Int) (vap_info : wifi_vap_info_t) (vstate : schema_Wifi_VIF_State),
        vap_info.bss_info.security_mode = wifi_security_mode_none →
        vstate.wpa_key_mgmt = [] →
        (get_security P cfg s ids ssidIndex vap_info vstate).1 = true
          ∧ (get_security P cfg s ids ssidIndex vap_info vstate).2.wpa_key_mgmt = []
          ∧ security_key_mgmt_ovsdb_to_hal
              (vif_copy_to_config (get_security P cfg s ids ssidIndex vap_info vstate).2)
            = some wifi_security_mode_none) := by
  constructor
  · intro mode hm
    simp only [List.mem_cons, List.mem_singleton, List.not_mem_nil, or_false] at hm
    rcases hm with rfl | rfl | rfl | rfl | rfl | rfl <;> exact ⟨_, rfl, by decide⟩
  · intro σ P cfg s ids ssidIndex vap_info vstate hmode hkm
    have hg : (get_security P cfg s ids ssidIndex vap_info vstate).1 = true
        ∧ (get_security P cfg s ids ssidIndex vap_info vstate).2.wpa_key_mgmt = [] := by
      unfold get_security
      simp only [hmode, if_true]
      cases vap_info.bss_info.security_mfp <;> simp [hkm]
    refine ⟨hg.1, hg.2, ?_⟩
    have hc : (vif_copy_to_config
        (get_security P cfg s ids ssidIndex vap_info vstate).2).wpa_key_mgmt = [] := by
      simp [vif_copy_to_config, hg.2]
    unfold security_key_mgmt_ovsdb_to_hal security_wpa_key_mgmt_match
    simp [hc, OVSDB_SECURITY_KEY_MGMT_NONE, OVSDB_SECURITY_KEY_MGMT_WPA_PSK,
      OVSDB_SECURITY_KEY_MGMT_SAE, OVSDB_SECURITY_KEY_MGMT_WPA_EAP]

/-- C2: for a key-management list drawn from "wpa-psk", "sae" and "wpa-eap",
`security_key_mgmt_ovsdb_to_hal` succeeds with the mode the precedence order
gives, presence being membership in the list; and when SAE or enterprise is
present the four pairwise-cipher booleans do not influence the result. -/
theorem cloud_to_hal_follows_precedence (vconf : schema_Wifi_VIF_Config)
    (h : ∀ x ∈ vconf.wpa_key_mgmt, x = "wpa-psk" ∨ x = "sae" ∨ x = "wpa-eap") :
    security_key_mgmt_ovsdb_to_hal vconf =
        some (cloud_to_hal_precedence
          (decide ("wpa-psk" ∈ vconf.wpa_key_mgmt)) (decide ("sae" ∈ vconf.wpa_key_mgmt))
          (decide ("wpa-eap" ∈ vconf.wpa_key_mgmt))
          (vconf.wpa_pairwise_tkip || vconf.wpa_pairwise_ccmp)
          (vconf.rsn_pairwise_tkip || vconf.rsn_pairwise_ccmp))
    ∧ ("sae" ∈ vconf.wpa_key_mgmt ∨ "wpa-eap" ∈ vconf.wpa_key_mgmt →
        ∀ a b c d : Bool,
          security_key_mgmt_ovsdb_to_hal
            { vconf with wpa_pairwise_tkip := a, wpa_pairwise_ccmp := b,
                         rsn_pairwise_tkip := c, rsn_pairwise_ccmp := d }
          = security_key_mgmt_ovsdb_to_hal vconf) := by
  have key : ∀ v : schema_Wifi_VIF_Config, v.wpa_key_mgmt = vconf.wpa_key_mgmt →
      security_key_mgmt_ovsdb_to_hal v =
        some (cloud_to_hal_precedence
          (decide ("wpa-psk" ∈ vconf.wpa_key_mgmt)) (decide ("sae" ∈ vconf.wpa_key_mgmt))
          (decide ("wpa-eap" ∈ vconf.wpa_key_mgmt))
          (v.wpa_pairwise_tkip || v.wpa_pairwise_ccmp)
          (v.rsn_pairwise_tkip || v.rsn_pairwise_ccmp)) := by
    intro v hv
    have hv' : ∀ x ∈ v.wpa_key_mgmt, x = "wpa-psk" ∨ x = "sae" ∨ x = "wpa-eap" := by
      rw [hv]; exact h
    unfold security_key_mgmt_ovsdb_to_hal
    rw [security_wpa_key_mgmt_match_supported v OVSDB_SECURITY_KEY_MGMT_WPA_PSK hv' (Or.inl rfl),
      security_wpa_key_mgmt_match_supported v OVSDB_SECURITY_KEY_MGMT_SAE hv' (Or.inr (Or.inl rfl)),
      security_wpa_key_mgmt_match_supported v OVSDB_SECURITY_KEY_MGMT_WPA_EAP hv'
        (Or.inr (Or.inr rfl)),
      security_wpa_key_mgmt_match_none v, hv]
    simp only [OVSDB_SECURITY_KEY_MGMT_WPA_PSK, OVSDB_SECURITY_KEY_MGMT_SAE,
      OVSDB_SECURITY_KEY_MGMT_WPA_EAP, cloud_to_hal_precedence]
    cases decide ("wpa-psk" ∈ vconf.wpa_key_mgmt) <;>
      cases decide ("sae" ∈ vconf.wpa_key_mgmt) <;>
      cases decide ("wpa-eap" ∈ vconf.wpa_key_mgmt) <;>
      cases (v.wpa_pairwise_tkip || v.wpa_pairwise_ccmp) <;>
      cases (v.rsn_pairwise_tkip || v.rsn_pairwise_ccmp) <;> rfl
  refine ⟨key vconf rfl, ?_⟩
  intro hpres a b c d
  have h2 := key { vconf with wpa_pairwise_tkip := a, wpa_pairwise_ccmp := b,
                              rsn_pairwise_tkip := c, rsn_pairwise_ccmp := d } rfl
  rw [h2, key vconf rfl]
  have hd : decide ("sae" ∈ vconf.wpa_key_mgmt) = true
      ∨ decide ("wpa-eap" ∈ vconf.wpa_key_mgmt) = true := by
    rcases hpres with hp | hp
    · exact Or.inl (decide_eq_true hp)
    · exact Or.inr (decide_eq_true hp)
  simp only [cloud_to_hal_precedence]
  rcases hd with hd | hd <;> rw [hd] <;>
    cases decide ("wpa-psk" ∈ vconf.wpa_key_mgmt) <;>
    cases decide ("sae" ∈ vconf.wpa_key_mgmt) <;> simp

/-- C2 at a concrete input: the list {"sae", "wpa-psk"} with both WPA and RSN
ciphers set resolves to WPA3-transition, not WPA/WPA2-mixed. -/
theorem cloud_to_hal_follows_precedence_witness :
    security_key_mgmt_ovsdb_to_hal
        { wpa_key_mgmt := ["sae", "wpa-psk"], wpa_pairwise_tkip := true,
          wpa_pairwise_ccmp := true, rsn_pairwise_tkip := true, rsn_pairwise_ccmp := true }
      = some wifi_security_mode_wpa3_transition
    ∧ security_key_mgmt_ovsdb_to_hal
        { wpa_key_mgmt := ["sae", "wpa-psk"], wpa_pairwise_tkip := true,
          wpa_pairwise_ccmp := true, rsn_pairwise_tkip := true, rsn_pairwise_ccmp := true }
      ≠ some wifi_security_mode_wpa_wpa2_personal := by
  have h := (cloud_to_hal_follows_precedence
    { wpa_key_mgmt := ["sae", "wpa-psk"], wpa_pairwise_tkip := true,
      wpa_pairwise_ccmp := true, rsn_pairwise_tkip := true, rsn_pairwise_ccmp := true }
    (by decide)).1
  have e : cloud_to_hal_precedence (decide ("wpa-psk" ∈ ["sae", "wpa-psk"]))
      (decide ("sae" ∈ ["sae", "wpa-psk"])) (decide ("wpa-eap" ∈ ["sae", "wpa-psk"]))
      (true || true) (true || true) = wifi_security_mode_wpa3_transition := by decide
  constructor
  · rw [h]; exact congrArg some e
  · rw [h]; intro hc
    have := Option.some.inj hc
    rw [e] at this
    exact absurd this (by decide)

/-- C3 (the code at the failing input): for the unsupported, non-empty list
{"dpp"} `security_key_mgmt_ovsdb_to_hal` does not fail; it returns `true`
with mode none, because the test for the empty key-management name matches
every entry. -/
theorem unsupported_key_mgmt_is_accepted :
    security_wpa_key_mgmt_match { wpa_key_mgmt := ["dpp"] } OVSDB_SECURITY_KEY_MGMT_WPA_PSK = false
    ∧ security_wpa_key_mgmt_match { wpa_key_mgmt := ["dpp"] } OVSDB_SECURITY_KEY_MGMT_SAE = false
    ∧ security_wpa_key_mgmt_match { wpa_key_mgmt := ["dpp"] } OVSDB_SECURITY_KEY_MGMT_WPA_EAP = false
    ∧ security_key_mgmt_ovsdb_to_hal { wpa_key_mgmt := ["dpp"] }
      = some wifi_security_mode_none := by
  decide

/-! ## ACL reconciler -/

section
variable {σ : Type}

@[simp] theorem call_delApAclDevice_log (P : Platform σ) (i : Int) (m : String) (w : World σ) :
    (call_delApAclDevice P i m w).1.log
      = w.log ++ [Effect.hal (HalCall.wifi_delApAclDevice i m)] := rfl

@[simp] theorem call_delApAclDevice_hal (P : Platform σ) (i : Int) (m : String) (w : World σ) :
    (call_delApAclDevice P i m w).1.hal = (P.wifi_delApAclDevice w.hal i m).1 := rfl

@[simp] theorem call_addApAclDevice_log (P : Platform σ) (i : Int) (m : String) (w : World σ) :
    (call_addApAclDevice P i m w).1.log
      = w.log ++ [Effect.hal (HalCall.wifi_addApAclDevice i m)] := rfl

@[simp] theorem call_addApAclDevice_hal (P : Platform σ) (i : Int) (m : String) (w : World σ) :
    (call_addApAclDevice P i m w).1.hal = (P.wifi_addApAclDevice w.hal i m).1 := rfl

theorem mac_list_any_eq (l : List String) (c : String) :
    l.any (fun m => decide (m = c)) = decide (c ∈ l) := by
  rw [Bool.eq_iff_iff]
  simp [List.any_eq_true]

theorem mac_list_any_eq' (l : List String) (c : String) :
    l.any (fun m => decide (c = m)) = decide (c ∈ l) := by
  rw [Bool.eq_iff_iff]
  simp [List.any_eq_true]

theorem remove_not_needed_acls_log (P : Platform σ) (vap_index : Int)
    (vconf : schema_Wifi_VIF_Config) :
    ∀ (current : List String) (w : World σ),
      (remove_not_needed_acls P vap_index current vconf w).log
        = w.log ++ remove_calls vap_index current vconf.mac_list := by
  intro current
  induction current with
  | nil => intro w; simp [remove_not_needed_acls, remove_calls]
  | cons cur rest ih =>
    intro w
    unfold remove_not_needed_acls
    rw [mac_list_any_eq]
    by_cases h : cur ∈ vconf.mac_list
    · simp only [h, decide_True, if_true]
      rw [ih]
      simp [remove_calls, h]
    · simp only [h, decide_False, Bool.false_eq_true, if_false]
      rw [ih]
      simp [remove_calls, h]

theorem add_needed_acls_loop_log (P : Platform σ) (vap_index : Int) (current : List String) :
    ∀ (desired : List String) (w : World σ),
      (add_needed_acls_loop P vap_index current desired w).log
        = w.log ++ add_calls vap_index current desired := by
  intro desired
  induction desired with
  | nil => intro w; simp [add_needed_acls_loop, add_calls]
  | cons m rest ih =>
    intro w
    unfold add_needed_acls_loop
    rw [mac_list_any_eq']
    by_cases h : m ∈ current
    · simp only [h, decide_True, if_true]
      rw [ih]
      simp [add_calls, h]
    · simp only [h, decide_False, Bool.false_eq_true, if_false]
      rw [ih]
      simp [add_calls, h]

theorem add_needed_acls_log (P : Platform σ) (vap_index : Int) (current : List String)
    (vconf : schema_Wifi_VIF_Config) (w : World σ) :
    (add_needed_acls P vap_index current vconf w).log
      = w.log ++ add_calls vap_index current vconf.mac_list :=
  add_needed_acls_loop_log P vap_index current vconf.mac_list w

/-- C4: `remove_not_needed_acls` issues exactly one remove call for each
current entry that does not occur in the desired list, in current-list order,
and nothing else; for current {A,B,C} and desired {B,C,D} (A different from B,
C and D) that is the single remove of A, and for current {A} and desired {}
the single remove of A. -/
theorem remove_not_needed_acls_calls (P : Platform σ) (vap_index : Int)
    (current : List String) (vconf : schema_Wifi_VIF_Config) (w : World σ) :
    (remove_not_needed_acls P vap_index current vconf w).log
        = w.log ++ (current.filter (fun c => decide (c ∉ vconf.mac_list))).map
            (fun c => Effect.hal (HalCall.wifi_delApAclDevice vap_index c))
    ∧ (∀ A B C D : String, A ≠ B → A ≠ C → A ≠ D →
        (remove_not_needed_acls P vap_index [A, B, C] { vconf with mac_list := [B, C, D] } w).log
          = w.log ++ [Effect.hal (HalCall.wifi_delApAclDevice vap_index A)])
    ∧ (∀ A : String,
        (remove_not_needed_acls P vap_index [A] { vconf with mac_list := [] } w).log
          = w.log ++ [Effect.hal (HalCall.wifi_delApAclDevice vap_index A)]) := by
  refine ⟨remove_not_needed_acls_log P vap_index vconf current w, ?_, ?_⟩
  · intro A B C D hab hac had
    rw [remove_not_needed_acls_log]
    simp [remove_calls, hab, hac, had]
  · intro A
    rw [remove_not_needed_acls_log]
    simp [remove_calls]

/-- C5: `add_needed_acls` issues exactly one add call for each desired entry
that does not occur in the current list, in desired-list order, and nothing
else; for current {} and desired {A} that is the single add of A (and the
remove side issues nothing), and for current {A,B,C} and desired {B,C,D} (D
different from A, B and C) the single add of D. -/
theorem add_needed_acls_calls (P : Platform σ) (vap_index : Int)
    (current : List String) (vconf : schema_Wifi_VIF_Config) (w : World σ) :
    (add_needed_acls P vap_index current vconf w).log
        = w.log ++ (vconf.mac_list.filter (fun m => decide (m ∉ current))).map
            (fun m => Effect.hal (HalCall.wifi_addApAclDevice vap_index m))
    ∧ (∀ A : String,
        (add_needed_acls P vap_index [] { vconf with mac_list := [A] } w).log
          = w.log ++ [Effect.hal (HalCall.wifi_addApAclDevice vap_index A)]
        ∧ (remove_not_needed_acls P vap_index [] { vconf with mac_list := [A] } w).log = w.log)
    ∧ (∀ A B C D : String, D ≠ A → D ≠ B → D ≠ C →
        (add_needed_acls P vap_index [A, B, C] { vconf with mac_list := [B, C, D] } w).log
          = w.log ++ [Effect.hal (HalCall.wifi_addApAclDevice vap_index D)]) := by
  refine ⟨add_needed_acls_log P vap_index current vconf w, ?_, ?_⟩
  · intro A
    rw [add_needed_acls_log, remove_not_needed_acls_log]
    simp [add_calls, remove_calls]
  · intro A B C D hda hdb hdc
    rw [add_needed_acls_log]
    simp [add_calls, hda, hdb, hdc]

end

section
variable {σ : Type}

theorem remove_not_needed_acls_hal (P : Platform σ) (vap_index : Int)
    (acl : σ → String → Prop)
    (hdel : ∀ s m x, acl (P.wifi_delApAclDevice s vap_index m).1 x ↔ (acl s x ∧ x ≠ m))
    (vconf : schema_Wifi_VIF_Config) :
    ∀ (l : List String) (w : World σ) (x : String),
      acl (remove_not_needed_acls P vap_index l vconf w).hal x
        ↔ (acl w.hal x ∧ ¬ (x ∈ l ∧ x ∉ vconf.mac_list)) := by
  intro l
  induction l with
  | nil => intro w x; simp [remove_not_needed_acls]
  | cons cur rest ih =>
    intro w x
    unfold remove_not_needed_acls
    rw [mac_list_any_eq]
    by_cases h : cur ∈ vconf.mac_list
    · simp only [h, decide_True, if_true]
      rw [ih]
      constructor
      · rintro ⟨ha, hn⟩
        refine ⟨ha, ?_⟩
        rintro ⟨hx, hxd⟩
        rcases List.mem_cons.1 hx with rfl | hx
        · exact hxd h
        · exact hn ⟨hx, hxd⟩
      · rintro ⟨ha, hn⟩
        exact ⟨ha, fun hc => hn ⟨List.mem_cons_of_mem _ hc.1, hc.2⟩⟩
    · simp only [h, decide_False, Bool.false_eq_true, if_false]
      rw [ih, call_delApAclDevice_hal, hdel]
      constructor
      · rintro ⟨⟨ha, hne⟩, hn⟩
        refine ⟨ha, ?_⟩
        rintro ⟨hx, hxd⟩
        rcases List.mem_cons.1 hx with rfl | hx
        · exact hne rfl
        · exact hn ⟨hx, hxd⟩
      · rintro ⟨ha, hn⟩
        refine ⟨⟨ha, ?_⟩, fun hc => hn ⟨List.mem_cons_of_mem _ hc.1, hc.2⟩⟩
        rintro rfl
        exact hn ⟨List.mem_cons_self _ _, h⟩

theorem add_needed_acls_loop_hal (P : Platform σ) (vap_index : Int)
    (acl : σ → String → Prop)
    (hadd : ∀ s m x, acl (P.wifi_addApAclDevice s vap_index m).1 x ↔ (acl s x ∨ x = m))
    (current : List String) :
    ∀ (l : List String) (w : World σ) (x : String),
      acl (add_needed_acls_loop P vap_index current l w).hal x
        ↔ (acl w.hal x ∨ (x ∈ l ∧ x ∉ current)) := by
  intro l
  induction l with
  | nil => intro w x; simp [add_needed_acls_loop]
  | cons m rest ih =>
    intro w x
    unfold add_needed_acls_loop
    rw [mac_list_any_eq']
    by_cases h : m ∈ current
    · simp only [h, decide_True, if_true]
      rw [ih]
      constructor
      · rintro (ha | ⟨hx, hxc⟩)
        · exact Or.inl ha
        · exact Or.inr ⟨List.mem_cons_of_mem _ hx, hxc⟩
      · rintro (ha | ⟨hx, hxc⟩)
        · exact Or.inl ha
        · rcases List.mem_cons.1 hx with rfl | hx
          · exact absurd h hxc
          · exact Or.inr ⟨hx, hxc⟩
    · simp only [h, decide_False, Bool.false_eq_true, if_false]
      rw [ih, call_addApAclDevice_hal, hadd]
      constructor
      · rintro ((ha | rfl) | ⟨hx, hxc⟩)
        · exact Or.inl ha
        · exact Or.inr ⟨List.mem_cons_self _ _, h⟩
        · exact Or.inr ⟨List.mem_cons_of_mem _ hx, hxc⟩
      · rintro (ha | ⟨hx, hxc⟩)
        · exact Or.inl (Or.inl ha)
        · rcases List.mem_cons.1 hx with rfl | hx
          · exact Or.inl (Or.inr rfl)
          · exact Or.inr ⟨hx, hxc⟩

theorem acl_buf_to_acl_list_loop_eq (n : Nat) :
    ∀ (tokens acc : List String), acc.length ≤ n →
      acl_buf_to_acl_list_loop n tokens acc
        = if (∀ t ∈ tokens, t.length = 17) ∧ acc.length + tokens.length ≤ n
          then some (acc ++ tokens) else none := by
  intro tokens
  induction tokens with
  | nil => intro acc hacc; simp [acl_buf_to_acl_list_loop, hacc]
  | cons p rest ih =>
    intro acc hacc
    unfold acl_buf_to_acl_list_loop
    have h17 : MAC_STR_LEN - 1 = 17 := rfl
    rw [h17]
    by_cases hp : p.length = 17
    · by_cases hn : acc.length ≥ n
      · have : ¬ (acc.length + (rest.length + 1) ≤ n) := by omega
        simp [hp, hn, this]
      · have hacc' : (acc ++ [p]).length ≤ n := by
          simp only [List.length_append, List.length_singleton]; omega
        rw [if_neg (by simpa using hp), if_neg hn, ih (acc ++ [p]) hacc']
        have e1 : (acc ++ [p]).length + rest.length = acc.length + (p :: rest).length := by
          simp only [List.length_append, List.length_cons, List.length_nil]; omega
        have e2 : (∀ t ∈ p :: rest, t.length = 17) ↔ (∀ t ∈ rest, t.length = 17) := by
          simp [hp]
        rw [e1, List.append_assoc, List.singleton_append]
        by_cases hc : (∀ t ∈ rest, t.length = 17) ∧ acc.length + (p :: rest).length ≤ n
        · rw [if_pos hc, if_pos ⟨e2.2 hc.1, hc.2⟩]
        · rw [if_neg hc, if_neg (fun hc' => hc ⟨e2.1 hc'.1, hc'.2⟩)]
    · have : ¬ (∀ t ∈ p :: rest, t.length = 17) := fun hall => hp (hall p (List.mem_cons_self _ _))
      simp [hp, this]

theorem acl_buf_to_acl_list_eq (acl_buf : String) (n : Nat) :
    acl_buf_to_acl_list acl_buf n
      = if (∀ t ∈ strtok_r_tokens mac_list_separator acl_buf.data [], t.length = 17)
            ∧ (strtok_r_tokens mac_list_separator acl_buf.data []).length ≤ n
        then some (strtok_r_tokens mac_list_separator acl_buf.data [],
          (strtok_r_tokens mac_list_separator acl_buf.data []).length)
        else none := by
  unfold acl_buf_to_acl_list
  rw [acl_buf_to_acl_list_loop_eq n _ [] (Nat.zero_le _)]
  simp only [List.length_nil, Nat.zero_add, List.nil_append]
  split_ifs with hc
  · simp only [Option.some.injEq, Prod.mk.injEq, true_and]
    split_ifs with hlt
    · rfl
    · omega
  · rfl

theorem get_acl_list_length (P : Platform σ) (s : σ) (vap_index : Int)
    (l : List String) (n : Nat) (h : get_acl_list P s vap_index = some (l, n)) :
    l.length = n := by
  unfold get_acl_list at h
  split at h
  · exact absurd h (by simp)
  · split_ifs at h with h0
    · simp only [Option.some.injEq, Prod.mk.injEq] at h
      rw [← h.1, ← h.2]; rfl
    · split at h
      · exact absurd h (by simp)
      · split_ifs at h with hlen
        rw [acl_buf_to_acl_list_eq] at h
        split_ifs at h with hc
        simp only [Option.some.injEq, Prod.mk.injEq] at h
        rw [← h.1, ← h.2]

theorem strtok_r_tokens_eq_go (delim : List Char) :
    ∀ (l cur : List Char),
      strtok_r_tokens delim l cur
        = ((List.splitOnP.go (fun c => decide (c ∈ delim)) l cur.reverse).filter
            (fun t => decide (t ≠ []))).map String.mk := by
  intro l
  induction l with
  | nil =>
    intro cur
    by_cases hc : cur = []
    · simp [strtok_r_tokens, List.splitOnP.go, hc]
    · simp [strtok_r_tokens, List.splitOnP.go, hc]
  | cons c cs ih =>
    intro cur
    unfold strtok_r_tokens
    by_cases hd : c ∈ delim
    · have ih0 := ih []
      simp only [List.reverse_nil] at ih0
      by_cases hc : cur = []
      · simp [List.splitOnP.go, hd, hc, ih0]
      · simp [List.splitOnP.go, hd, hc, ih0]
    · have ih1 := ih (cur ++ [c])
      simp only [List.reverse_append, List.reverse_cons, List.reverse_nil, List.nil_append,
        List.singleton_append] at ih1
      simp [List.splitOnP.go, hd, ih1]

/-- C6: when the HAL's remove and add have set semantics for the programmed
ACL and the list read from the HAL is that programmed set, then after the
incremental reconciliation of `acl_apply` (all removes, then all adds) the
programmed set is the set of entries of the desired list; and when the two
lists are already equal as sets, nothing is logged. -/
theorem acl_reconciliation_converges (P : Platform σ) (cfg : BuildConfig) (ssid_index : Int)
    (acl : σ → String → Prop)
    (hdel : ∀ s m x, acl (P.wifi_delApAclDevice s ssid_index m).1 x ↔ (acl s x ∧ x ≠ m))
    (hadd : ∀ s m x, acl (P.wifi_addApAclDevice s ssid_index m).1 x ↔ (acl s x ∨ x = m))
    (vconf : schema_Wifi_VIF_Config) (w : World σ) (current : List String) (n : Nat)
    (hcfg : cfg.WIFI_HAL_VERSION_3_PHASE2 = false)
    (hget : get_acl_list P w.hal ssid_index = some (current, n))
    (hcur : ∀ x, acl w.hal x ↔ x ∈ current) :
    acl_apply_list P cfg ssid_index vconf w
        = add_needed_acls P ssid_index current vconf
            (remove_not_needed_acls P ssid_index current vconf w)
    ∧ (∀ x, acl (acl_apply_list P cfg ssid_index vconf w).hal x ↔ x ∈ vconf.mac_list)
    ∧ ((∀ x, x ∈ current ↔ x ∈ vconf.mac_list) →
        (acl_apply_list P cfg ssid_index vconf w).log = w.log) := by
  have hlen := get_acl_list_length P w.hal ssid_index current n hget
  have htake : current.take n = current := by rw [← hlen]; exact List.take_length _
  have heq : acl_apply_list P cfg ssid_index vconf w
      = add_needed_acls P ssid_index current vconf
          (remove_not_needed_acls P ssid_index current vconf w) := by
    unfold acl_apply_list
    simp [hcfg, hget, htake]
  refine ⟨heq, ?_, ?_⟩
  · intro x
    rw [heq]
    unfold add_needed_acls
    rw [add_needed_acls_loop_hal P ssid_index acl hadd,
      remove_not_needed_acls_hal P ssid_index acl hdel, hcur]
    by_cases hx : x ∈ current <;> by_cases hd : x ∈ vconf.mac_list <;> simp [hx, hd]
  · intro hsame
    rw [heq, add_needed_acls_log, remove_not_needed_acls_log]
    have h1 : remove_calls ssid_index current vconf.mac_list = [] := by
      simp only [remove_calls, List.map_eq_nil_iff, List.filter_eq_nil_iff]
      intro a ha
      simpa using (hsame a).1 ha
    have h2 : add_calls ssid_index current vconf.mac_list = [] := by
      simp only [add_calls, List.map_eq_nil_iff, List.filter_eq_nil_iff]
      intro a ha
      simpa using (hsame a).2 ha
    rw [h1, h2]
    simp

end

/-- C6 at a concrete input: on `demo_platform` with the programmed ACL
{..:01, ..:02} and the desired list {..:02, ..:03} the reconciliation leaves
exactly the desired entries programmed. -/
theorem acl_reconciliation_converges_witness :
    acl_apply_list demo_platform {} 0
        { mac_list := ["aa:bb:cc:dd:ee:02", "aa:bb:cc:dd:ee:03"] }
        { hal := ["aa:bb:cc:dd:ee:01", "aa:bb:cc:dd:ee:02"] }
      = add_needed_acls demo_platform 0 ["aa:bb:cc:dd:ee:01", "aa:bb:cc:dd:ee:02"]
          { mac_list := ["aa:bb:cc:dd:ee:02", "aa:bb:cc:dd:ee:03"] }
          (remove_not_needed_acls demo_platform 0 ["aa:bb:cc:dd:ee:01", "aa:bb:cc:dd:ee:02"]
            { mac_list := ["aa:bb:cc:dd:ee:02", "aa:bb:cc:dd:ee:03"] }
            { hal := ["aa:bb:cc:dd:ee:01", "aa:bb:cc:dd:ee:02"] })
    ∧ (∀ x, x ∈ (acl_apply_list demo_platform {} 0
          { mac_list := ["aa:bb:cc:dd:ee:02", "aa:bb:cc:dd:ee:03"] }
          { hal := ["aa:bb:cc:dd:ee:01", "aa:bb:cc:dd:ee:02"] }).hal
        ↔ x ∈ ["aa:bb:cc:dd:ee:02", "aa:bb:cc:dd:ee:03"])
    ∧ ((∀ x, x ∈ ["aa:bb:cc:dd:ee:01", "aa:bb:cc:dd:ee:02"]
          ↔ x ∈ ["aa:bb:cc:dd:ee:02", "aa:bb:cc:dd:ee:03"]) →
        (acl_apply_list demo_platform {} 0
          { mac_list := ["aa:bb:cc:dd:ee:02", "aa:bb:cc:dd:ee:03"] }
          { hal := ["aa:bb:cc:dd:ee:01", "aa:bb:cc:dd:ee:02"] }).log = []) :=
  acl_reconciliation_converges demo_platform {} 0 (fun s x => x ∈ s)
    (by intro s m x; simp [demo_platform])
    (by
      intro s m x
      by_cases hm : m ∈ s
      · simp only [demo_platform, hm, if_true]
        constructor
        · exact Or.inl
        · rintro (h | rfl)
          · exact h
          · exact hm
      · simp [demo_platform, hm])
    { mac_list := ["aa:bb:cc:dd:ee:02", "aa:bb:cc:dd:ee:03"] }
    { hal := ["aa:bb:cc:dd:ee:01", "aa:bb:cc:dd:ee:02"] }
    ["aa:bb:cc:dd:ee:01", "aa:bb:cc:dd:ee:02"] 2 rfl (by decide) (fun _ => Iff.rfl)

/-- C7: the remove and add calls the incremental reconciliation issues are
the same list, in the same order, on any two platforms and from any two
worlds, so they do not depend on what the individual HAL calls return: the
removes for the current entries missing from the desired list followed by the
adds for the desired entries missing from the current list. -/
theorem acl_calls_independent_of_hal_status {σ₁ σ₂ : Type}
    (P₁ : Platform σ₁) (P₂ : Platform σ₂) (vap_index : Int) (current : List String)
    (vconf : schema_Wifi_VIF_Config) (w₁ : World σ₁) (w₂ : World σ₂) :
    (add_needed_acls P₁ vap_index current vconf
        (remove_not_needed_acls P₁ vap_index current vconf w₁)).log
      = w₁.log ++ (remove_calls vap_index current vconf.mac_list
          ++ add_calls vap_index current vconf.mac_list)
    ∧ (add_needed_acls P₂ vap_index current vconf
        (remove_not_needed_acls P₂ vap_index current vconf w₂)).log
      = w₂.log ++ (remove_calls vap_index current vconf.mac_list
          ++ add_calls vap_index current vconf.mac_list) := by
  constructor <;>
    rw [add_needed_acls_log, remove_not_needed_acls_log, List.append_assoc]

section
variable {σ : Type}

theorem acl_apply_world_of_get_acl_list_none (P : Platform σ) (cfg : BuildConfig)
    (ssid_index : Int) (vconf : schema_Wifi_VIF_Config) (changed : schema_Wifi_VIF_Config_flags)
    (t : Bool) (vap_info : wifi_vap_info_t) (w : World σ)
    (hcfg : cfg.WIFI_HAL_VERSION_3_PHASE2 = false)
    (hget : get_acl_list P w.hal ssid_index = none) :
    (acl_apply P cfg ssid_index vconf changed t vap_info w).2.2 = w := by
  have hl : acl_apply_list P cfg ssid_index vconf w = w := by
    unfold acl_apply_list
    simp [hcfg, hget]
  unfold acl_apply
  simp only [hl]
  split_ifs <;> first | rfl | (split <;> rfl)

end

/-- C8: with `tokens` the maximal runs of characters of the buffer other than
',' and newline (the non-empty pieces between separators, in buffer order),
`acl_buf_to_acl_list` succeeds exactly when every token has 17 characters and
there are at most `n` tokens, and then yields the tokens and their number as
the count; a failure makes `acl_apply` leave the world as it is (no add or
remove call), and on success the reconciliation runs on the parsed tokens. -/
theorem acl_buf_to_acl_list_checks_count (acl_buf : String) (n : Nat) :
    strtok_r_tokens mac_list_separator acl_buf.data []
        = ((acl_buf.data.splitOnP (fun c => decide (c = ',' ∨ c = '\n'))).filter
            (fun t => decide (t ≠ []))).map String.mk
    ∧ acl_buf_to_acl_list acl_buf n
        = (if (∀ t ∈ strtok_r_tokens mac_list_separator acl_buf.data [], t.length = 17)
              ∧ (strtok_r_tokens mac_list_separator acl_buf.data []).length ≤ n
          then some (strtok_r_tokens mac_list_separator acl_buf.data [],
            (strtok_r_tokens mac_list_separator acl_buf.data []).length)
          else none)
    ∧ (∀ (σ : Type) (P : Platform σ) (cfg : BuildConfig) (ssid_index : Int)
        (vconf : schema_Wifi_VIF_Config) (changed : schema_Wifi_VIF_Config_flags) (t : Bool)
        (vap_info : wifi_vap_info_t) (w : World σ),
        cfg.WIFI_HAL_VERSION_3_PHASE2 = false →
        P.wifi_getApAclDeviceNum w.hal ssid_index = some n → n ≠ 0 →
        P.wifi_getApAclDevices w.hal ssid_index = some acl_buf →
        acl_buf.length < ACL_BUF_SIZE →
        (acl_buf_to_acl_list acl_buf n = none →
          (acl_apply P cfg ssid_index vconf changed t vap_info w).2.2 = w)
        ∧ (acl_buf_to_acl_list acl_buf n ≠ none →
          acl_apply_list P cfg ssid_index vconf w
            = add_needed_acls P ssid_index
                (strtok_r_tokens mac_list_separator acl_buf.data []) vconf
                (remove_not_needed_acls P ssid_index
                  (strtok_r_tokens mac_list_separator acl_buf.data []) vconf w))) := by
  refine ⟨?_, acl_buf_to_acl_list_eq acl_buf n, ?_⟩
  · rw [strtok_r_tokens_eq_go]
    simp [List.splitOnP, mac_list_separator]
  · intro σ P cfg ssid_index vconf changed t vap_info w hcfg hnum hn hbuf hlen
    have hmin : ¬ (min acl_buf.length ACL_BUF_SIZE = ACL_BUF_SIZE) := by
      rw [Nat.min_def]; split_ifs <;> omega
    have hget : get_acl_list P w.hal ssid_index = acl_buf_to_acl_list acl_buf n := by
      unfold get_acl_list
      simp only [hnum, hbuf, if_neg hn, if_neg hmin]
    constructor
    · intro hfail
      exact acl_apply_world_of_get_acl_list_none P cfg ssid_index vconf changed t vap_info w
        hcfg (hget.trans hfail)
    · intro hok
      rw [acl_buf_to_acl_list_eq] at hok hget
      split_ifs at hok hget with hc
      · unfold acl_apply_list
        simp [hcfg, hget]
      · exact absurd rfl hok

/-- C8 at concrete inputs: a buffer with two well-formed entries parses to
both with count 2 when 5 were reported, fails when 1 was reported, and fails
when one entry is one character short. -/
theorem acl_buf_to_acl_list_checks_count_witness :
    acl_buf_to_acl_list "aa:bb:cc:dd:ee:01,aa:bb:cc:dd:ee:02\n" 5
        = some (["aa:bb:cc:dd:ee:01", "aa:bb:cc:dd:ee:02"], 2)
    ∧ acl_buf_to_acl_list "aa:bb:cc:dd:ee:01,aa:bb:cc:dd:ee:02\n" 1 = none
    ∧ acl_buf_to_acl_list "aa:bb:cc:dd:ee:01,aa:bb:cc:dd:ee:2\n" 5 = none := by
  refine ⟨?_, ?_, ?_⟩
  · rw [(acl_buf_to_acl_list_checks_count "aa:bb:cc:dd:ee:01,aa:bb:cc:dd:ee:02\n" 5).2.1]
    decide
  · rw [(acl_buf_to_acl_list_checks_count "aa:bb:cc:dd:ee:01,aa:bb:cc:dd:ee:02\n" 1).2.1]
    decide
  · rw [(acl_buf_to_acl_list_checks_count "aa:bb:cc:dd:ee:01,aa:bb:cc:dd:ee:2\n" 5).2.1]
    decide

/-! ## Config writer -/

theorem hal_calls_append (a b : List Effect) :
    hal_calls (a ++ b) = hal_calls a ++ hal_calls b := by
  induction a with
  | nil => rfl
  | cons e rest ih => cases e <;> simp [hal_calls, ih]

theorem createVAP_calls_append (a b : List Effect) :
    createVAP_calls (a ++ b) = createVAP_calls a ++ createVAP_calls b := by
  induction a with
  | nil => rfl
  | cons e rest ih =>
    cases e with
    | hal c => cases c <;> simp [createVAP_calls, ih]
    | _ => simp [createVAP_calls, ih]

theorem createVAP_calls_of_hal_calls_nil (es : List Effect) (h : hal_calls es = []) :
    createVAP_calls es = [] := by
  induction es with
  | nil => rfl
  | cons e rest ih =>
    cases e with
    | hal c => simp [hal_calls] at h
    | _ => simpa [createVAP_calls, hal_calls] using ih (by simpa [hal_calls] using h)

section
variable {σ : Type}

theorem no_push_of_log_eq {w w' : World σ} (h : w'.log = w.log) : no_push w w' :=
  ⟨[], by simp [h], rfl⟩

theorem no_push_refl (w : World σ) : no_push w w := no_push_of_log_eq rfl

theorem no_push_trans {a b c : World σ} (h1 : no_push a b) (h2 : no_push b c) : no_push a c := by
  obtain ⟨e1, hl1, hc1⟩ := h1
  obtain ⟨e2, hl2, hc2⟩ := h2
  exact ⟨e1 ++ e2, by rw [hl2, hl1, List.append_assoc], by
    rw [createVAP_calls_append, hc1, hc2]; rfl⟩

theorem no_push_log {w w' : World σ} (h : no_push w w') :
    createVAP_calls w'.log = createVAP_calls w.log := by
  obtain ⟨es, hl, hc⟩ := h
  rw [hl, createVAP_calls_append, hc, List.append_nil]

theorem no_push_append {w w' : World σ} (es : List Effect) (hl : w'.log = w.log ++ es)
    (hc : createVAP_calls es = []) : no_push w w' := ⟨es, hl, hc⟩

theorem no_hal_write_of_eq {w w' : World σ} (hh : w'.hal = w.hal) (hl : w'.log = w.log) :
    no_hal_write w w' :=
  ⟨hh, [], by simp [hl], rfl⟩

theorem no_hal_write_refl (w : World σ) : no_hal_write w w := no_hal_write_of_eq rfl rfl

theorem no_hal_write_trans {a b c : World σ} (h1 : no_hal_write a b) (h2 : no_hal_write b c) :
    no_hal_write a c := by
  obtain ⟨hh1, e1, hl1, hc1⟩ := h1
  obtain ⟨hh2, e2, hl2, hc2⟩ := h2
  exact ⟨hh2.trans hh1, e1 ++ e2, by rw [hl2, hl1, List.append_assoc], by
    rw [hal_calls_append, hc1, hc2]; rfl⟩

theorem no_hal_write_log {w w' : World σ} (h : no_hal_write w w') :
    hal_calls w'.log = hal_calls w.log := by
  obtain ⟨_, es, hl, hc⟩ := h
  rw [hl, hal_calls_append, hc, List.append_nil]

theorem no_hal_write_no_push {w w' : World σ} (h : no_hal_write w w') : no_push w w' := by
  obtain ⟨_, es, hl, hc⟩ := h
  exact ⟨es, hl, createVAP_calls_of_hal_calls_nil es hc⟩

theorem vif_state_update_no_hal_write (P : Platform σ) (cfg : BuildConfig) (ssidIndex : Int)
    (w : World σ) : no_hal_write w (vif_state_update P cfg ssidIndex w).2 := by
  unfold vif_state_update
  have h1 : no_hal_write w (w.emit (Effect.vif_state_update ssidIndex)) :=
    ⟨rfl, [Effect.vif_state_update ssidIndex], rfl, rfl⟩
  dsimp only
  split
  · exact h1
  · split
    · exact h1
    · exact no_hal_write_trans h1 ⟨rfl, [Effect.radio_rops_vstate _ _], rfl, rfl⟩

theorem vif_state_update_deferred_no_hal_write (P : Platform σ) (cfg : BuildConfig)
    (ssid_index : Int) (w : World σ) :
    no_hal_write w (vif_state_update_deferred P cfg ssid_index w) := by
  unfold vif_state_update_deferred
  have h0 : no_hal_write w (if (!w.vif_update_init_done) = true then
      { w with vif_update_queue := [], vif_update_init_done := true } else w) := by
    split_ifs
    · exact no_hal_write_of_eq rfl rfl
    · exact no_hal_write_refl w
  dsimp only
  split
  · refine no_hal_write_trans h0 ?_
    refine no_hal_write_trans (b := (vif_state_update P cfg ssid_index _).2) ?_
      (no_hal_write_of_eq rfl rfl)
    exact no_hal_write_trans (no_hal_write_of_eq rfl rfl)
      (vif_state_update_no_hal_write P cfg ssid_index _)
  · exact no_hal_write_trans h0 (no_hal_write_of_eq rfl rfl)

theorem vif_config_refresh_no_hal_write (P : Platform σ) (cfg : BuildConfig)
    (ssid_index : Int) (w : World σ) :
    no_hal_write w (vif_config_refresh P cfg ssid_index w).2 := by
  unfold vif_config_refresh
  split_ifs
  · exact vif_state_update_deferred_no_hal_write P cfg ssid_index w
  · exact vif_state_update_no_hal_write P cfg ssid_index w

end

section
variable {σ : Type}

theorem set_security_exit_no_push (cfg : BuildConfig) (ssid_index : Int)
    (vconf : schema_Wifi_VIF_Config) (changed : schema_Wifi_VIF_Config_flags)
    (send_sync : Bool) (w : World σ) :
    no_push w (set_security_exit cfg ssid_index vconf changed send_sync w) := by
  unfold set_security_exit
  by_cases hc : (send_sync && !cfg.RDK_DISABLE_SYNC && !cfg.RDK_MULTI_PSK_SUPPORT) = true
  · rw [if_pos hc]
    exact ⟨[Effect.sync_send_security_change ssid_index vconf.if_name _], rfl, rfl⟩
  · rw [if_neg hc]
    exact no_push_refl w

theorem call_delApAclDevices_no_push (P : Platform σ) (i : Int) (w : World σ) :
    no_push w (call_delApAclDevices P i w).1 :=
  ⟨[Effect.hal (HalCall.wifi_delApAclDevices i)], rfl, rfl⟩

theorem call_addApAclDevice_v3_no_push (P : Platform σ) (i : Int) (mac : mac_address_t)
    (w : World σ) : no_push w (call_addApAclDevice_v3 P i mac w).1 :=
  ⟨[Effect.hal (HalCall.wifi_addApAclDevice_v3 i mac)], rfl, rfl⟩

theorem call_pushMultiPskKeys_no_push (P : Platform σ) (i : Int)
    (keys : List wifi_key_multi_psk_t) (w : World σ) :
    no_push w (call_pushMultiPskKeys P i keys w).1 :=
  ⟨[Effect.hal (HalCall.wifi_pushMultiPskKeys i keys)], rfl, rfl⟩

theorem set_password_no_push (P : Platform σ) (cfg : BuildConfig) (ssid_index : Int)
    (vconf : schema_Wifi_VIF_Config) (vap_info : wifi_vap_info_t) (w : World σ) :
    no_push w (set_password P cfg ssid_index vconf vap_info w).2.2 := by
  unfold set_password
  dsimp only
  split_ifs
  · exact no_push_trans (no_push_of_log_eq rfl) (call_pushMultiPskKeys_no_push P _ _ _)
  · exact no_push_trans (no_push_of_log_eq rfl) (call_pushMultiPskKeys_no_push P _ _ _)
  · exact no_push_of_log_eq rfl

theorem set_security_psks_no_push (P : Platform σ) (cfg : BuildConfig) (ssid_index : Int)
    (vconf : schema_Wifi_VIF_Config) (changed : schema_Wifi_VIF_Config_flags)
    (send_sync t : Bool) (vap_info : wifi_vap_info_t) (w : World σ) :
    no_push w (set_security_psks P cfg ssid_index vconf changed send_sync t vap_info w).2.2 := by
  unfold set_security_psks
  have hp := set_password_no_push P cfg ssid_index vconf vap_info w
  split_ifs
  · split
    · next h =>
      rw [h] at hp
      exact no_push_trans hp (set_security_exit_no_push cfg ssid_index vconf changed _ _)
    · next h =>
      rw [h] at hp
      exact no_push_trans hp (set_security_exit_no_push cfg ssid_index vconf changed _ _)
  · exact set_security_exit_no_push cfg ssid_index vconf changed _ _

theorem set_security_no_push (P : Platform σ) (cfg : BuildConfig) (ssid_index : Int)
    (vconf : schema_Wifi_VIF_Config) (changed : schema_Wifi_VIF_Config_flags)
    (t : Bool) (vap_info : wifi_vap_info_t) (w : World σ) :
    no_push w (set_security P cfg ssid_index vconf changed t vap_info w).2.2 := by
  unfold set_security
  split_ifs
  · exact set_security_exit_no_push cfg ssid_index vconf changed _ _
  · split
    · exact no_push_refl w
    · exact set_security_psks_no_push P cfg ssid_index vconf changed _ _ _ _
  · exact set_security_psks_no_push P cfg ssid_index vconf changed _ _ _ _

theorem createVAP_calls_remove_calls (vap_index : Int) (current desired : List String) :
    createVAP_calls (remove_calls vap_index current desired) = [] := by
  unfold remove_calls
  induction current.filter (fun c => decide (c ∉ desired)) with
  | nil => rfl
  | cons a l ih => simpa [createVAP_calls] using ih

theorem createVAP_calls_add_calls (vap_index : Int) (current desired : List String) :
    createVAP_calls (add_calls vap_index current desired) = [] := by
  unfold add_calls
  induction desired.filter (fun m => decide (m ∉ current)) with
  | nil => rfl
  | cons a l ih => simpa [createVAP_calls] using ih

theorem acl_apply_v3_loop_no_push (P : Platform σ) (ssid_index : Int) :
    ∀ (l : List String) (w : World σ), no_push w (acl_apply_v3_loop P ssid_index l w) := by
  intro l
  induction l with
  | nil => intro w; exact no_push_refl w
  | cons m rest ih =>
    intro w
    unfold acl_apply_v3_loop
    split
    · exact ih w
    · exact no_push_trans (call_addApAclDevice_v3_no_push P _ _ _) (ih _)

theorem acl_apply_list_no_push (P : Platform σ) (cfg : BuildConfig) (ssid_index : Int)
    (vconf : schema_Wifi_VIF_Config) (w : World σ) :
    no_push w (acl_apply_list P cfg ssid_index vconf w) := by
  unfold acl_apply_list
  split_ifs
  · exact no_push_trans (call_delApAclDevices_no_push P _ _)
      (acl_apply_v3_loop_no_push P ssid_index _ _)
  · split
    · exact no_push_refl w
    · exact no_push_trans
        (no_push_append _ (remove_not_needed_acls_log P ssid_index vconf _ w)
          (createVAP_calls_remove_calls _ _ _))
        (no_push_append _ (add_needed_acls_log P ssid_index _ vconf _)
          (createVAP_calls_add_calls _ _ _))

theorem acl_apply_no_push (P : Platform σ) (cfg : BuildConfig) (ssid_index : Int)
    (vconf : schema_Wifi_VIF_Config) (changed : schema_Wifi_VIF_Config_flags)
    (t : Bool) (vap_info : wifi_vap_info_t) (w : World σ) :
    no_push w (acl_apply P cfg ssid_index vconf changed t vap_info w).2.2 := by
  have hl := acl_apply_list_no_push P cfg ssid_index vconf w
  unfold acl_apply
  dsimp only
  split_ifs <;> (try split) <;> first | exact no_push_refl w | exact hl

theorem vif_ap_config_head_no_push (P : Platform σ) (cfg : BuildConfig) (ssid_index : Int)
    (vconf : schema_Wifi_VIF_Config) (changed : schema_Wifi_VIF_Config_flags)
    (vap_info : wifi_vap_info_t) (w : World σ) :
    no_push w (vif_ap_config_head P cfg ssid_index vconf changed vap_info w).2.2 :=
  set_security_no_push P cfg ssid_index vconf changed _ _ w

theorem vif_ap_config_tail_no_push (P : Platform σ) (cfg : BuildConfig) (ssid_index : Int)
    (vconf : schema_Wifi_VIF_Config) (changed : schema_Wifi_VIF_Config_flags)
    (t : Bool) (vap_info : wifi_vap_info_t) (w : World σ) :
    no_push w (vif_ap_config_tail P cfg ssid_index vconf changed t vap_info w).2.2 := by
  have h1 : no_push w (if (changed.ssid && !cfg.RDK_DISABLE_SYNC) = true then
      w.emit (Effect.sync_send_ssid_change ssid_index vconf.if_name vconf.ssid) else w) := by
    split_ifs
    · exact ⟨[Effect.sync_send_ssid_change ssid_index vconf.if_name vconf.ssid], rfl, rfl⟩
    · exact no_push_refl w
  have hw : ∃ t' vap', (vif_ap_config_tail P cfg ssid_index vconf changed t vap_info w).2.2
      = (acl_apply P cfg ssid_index vconf changed t' vap'
          (if (changed.ssid && !cfg.RDK_DISABLE_SYNC) = true then
            w.emit (Effect.sync_send_ssid_change ssid_index vconf.if_name vconf.ssid)
          else w)).2.2 := by
    refine ⟨(if changed.bridge = true then true else if changed.ssid = true then true else t),
      (if changed.bridge = true then
        { (if changed.ssid = true then
            { vap_info with bss_info := { vap_info.bss_info with ssid := vconf.ssid } }
          else vap_info) with bridge_name := vconf.bridge }
      else if changed.ssid = true then
        { vap_info with bss_info := { vap_info.bss_info with ssid := vconf.ssid } }
      else vap_info), ?_⟩
    unfold vif_ap_config_tail
    dsimp only
    split
    · split
      · rfl
      · split <;> rfl
    · rfl
  obtain ⟨t', vap', hw⟩ := hw
  rw [hw]
  exact no_push_trans h1 (acl_apply_no_push P cfg ssid_index vconf changed t' vap' _)

theorem vif_ap_config_apply_no_push (P : Platform σ) (cfg : BuildConfig) (ssid_index : Int)
    (vconf : schema_Wifi_VIF_Config) (changed : schema_Wifi_VIF_Config_flags)
    (vap_info : wifi_vap_info_t) (w : World σ) :
    no_push w (vif_ap_config_apply P cfg ssid_index vconf changed vap_info w).world := by
  have hh := vif_ap_config_head_no_push P cfg ssid_index vconf changed vap_info w
  unfold vif_ap_config_apply
  dsimp only
  by_cases hb : changed.ssid_broadcast = true
  · rw [if_pos hb]
    split
    · exact hh
    · refine no_push_trans hh (no_push_trans ?_
        (vif_ap_config_tail_no_push P cfg ssid_index vconf changed _ _ _))
      by_cases hs : (!cfg.RDK_DISABLE_SYNC) = true
      · rw [if_pos hs]
        exact ⟨[Effect.sync_send_ssid_broadcast_change ssid_index _], rfl, rfl⟩
      · rw [if_neg hs]
        exact no_push_refl _
  · rw [if_neg hb]
    exact no_push_trans hh (vif_ap_config_tail_no_push P cfg ssid_index vconf changed _ _ _)

end

section
variable {σ : Type}

theorem vif_ap_config_apply_empty_mask (P : Platform σ) (cfg : BuildConfig) (ssid_index : Int)
    (vconf : schema_Wifi_VIF_Config) (vap_info : wifi_vap_info_t) (w : World σ) :
    vif_ap_config_apply P cfg ssid_index vconf {} vap_info w
      = { aborted := false, trigger_reconfig := false, vap_info := vap_info, world := w } := by
  simp [vif_ap_config_apply, vif_ap_config_head, vif_ap_config_tail, set_security,
    set_security_psks, set_security_exit, acl_apply]

theorem c_get_item_by_str_enable_disable (s : String) :
    c_get_item_by_str map_enable_disable s
      = if s = "enabled" then some (1, "enabled")
        else if s = "disabled" then some (0, "disabled") else none := by
  simp only [c_get_item_by_str, map_enable_disable, List.find?]
  by_cases he : s = "enabled"
  · subst he; rfl
  · have h1 : ("enabled" == s) = false := by
      rw [beq_eq_false_iff_ne]; exact fun h => he h.symm
    rw [h1, if_neg he]
    by_cases hd : s = "disabled"
    · subst hd; rfl
    · have h2 : ("disabled" == s) = false := by
        rw [beq_eq_false_iff_ne]; exact fun h => hd h.symm
      rw [h2, if_neg hd]

theorem target_vif_config_set2_ap (P : Platform σ) (cfg : BuildConfig)
    (vconf : schema_Wifi_VIF_Config) (cconfs : schema_Wifi_Credential_Config)
    (changed : schema_Wifi_VIF_Config_flags) (w : World σ)
    (ssid_index : Int) (vap_info : wifi_vap_info_t)
    (hidx : vif_ifname_to_idx P w.hal vconf.if_name = some ssid_index)
    (hvap : ssid_index_to_vap_info P w.hal (UINT_of_INT ssid_index) = some vap_info)
    (hmode : vap_info.vap_mode = wifi_vap_mode_ap) :
    target_vif_config_set2 P cfg vconf cconfs changed w
      = if (vif_ap_config_apply P cfg ssid_index vconf changed vap_info w).aborted = true then
          (false, (vif_ap_config_apply P cfg ssid_index vconf changed vap_info w).world)
        else
          vif_config_refresh P cfg ssid_index
            (vif_config_push P
              (vif_ap_config_apply P cfg ssid_index vconf changed vap_info w).trigger_reconfig
              (vif_ap_config_apply P cfg ssid_index vconf changed vap_info w).vap_info
              (vif_ap_config_apply P cfg ssid_index vconf changed vap_info w).world) := by
  unfold target_vif_config_set2
  simp only [hidx, hvap, hmode]
  rw [if_neg (by decide)]

/-- C9: on a resolvable access-point interface, applying any desired record
with the all-false change mask leaves the descriptor as it was read, leaves
the accumulator false and changes nothing in the world during the field
application; and after any number of such calls of `target_vif_config_set2`
the external (HAL) state is the initial one and no HAL call was logged. -/
theorem empty_change_mask_writes_nothing (P : Platform σ) (cfg : BuildConfig)
    (vconf : schema_Wifi_VIF_Config) (cconfs : schema_Wifi_Credential_Config) (w : World σ)
    (ssid_index : Int) (vap_info : wifi_vap_info_t)
    (hidx : vif_ifname_to_idx P w.hal vconf.if_name = some ssid_index)
    (hvap : ssid_index_to_vap_info P w.hal (UINT_of_INT ssid_index) = some vap_info)
    (hmode : vap_info.vap_mode = wifi_vap_mode_ap) :
    vif_ap_config_apply P cfg ssid_index vconf {} vap_info w
        = { aborted := false, trigger_reconfig := false, vap_info := vap_info, world := w }
    ∧ ∀ n : Nat,
        (repeat_apply (fun w' => (target_vif_config_set2 P cfg vconf cconfs {} w').2) n w).hal
          = w.hal
        ∧ hal_calls
            (repeat_apply (fun w' => (target_vif_config_set2 P cfg vconf cconfs {} w').2) n w).log
          = hal_calls w.log := by
  refine ⟨vif_ap_config_apply_empty_mask P cfg ssid_index vconf vap_info w, ?_⟩
  have step : ∀ w' : World σ, w'.hal = w.hal →
      no_hal_write w' (target_vif_config_set2 P cfg vconf cconfs {} w').2 := by
    intro w' hw'
    rw [target_vif_config_set2_ap P cfg vconf cconfs {} w' ssid_index vap_info
      (by rw [hw']; exact hidx) (by rw [hw']; exact hvap) hmode,
      vif_ap_config_apply_empty_mask]
    simp only [Bool.false_eq_true, if_false, vif_config_push]
    exact vif_config_refresh_no_hal_write P cfg ssid_index w'
  have all : ∀ (n : Nat) (w' : World σ), w'.hal = w.hal →
      no_hal_write w'
        (repeat_apply (fun w' => (target_vif_config_set2 P cfg vconf cconfs {} w').2) n w') := by
    intro n
    induction n with
    | zero => intro w' _; exact no_hal_write_refl w'
    | succ k ih =>
      intro w' hw'
      have h1 := step w' hw'
      exact no_hal_write_trans h1 (ih _ (h1.1.trans hw'))
  intro n
  exact ⟨(all n w rfl).1, no_hal_write_log (all n w rfl)⟩

/-- C10 (amended): on a resolvable access-point interface the field
application never pushes the descriptor; it stops early exactly when the SSID
broadcast option is flagged and is neither "enabled" nor "disabled", and then
the call fails without any push; otherwise the call pushes the descriptor
exactly once if the accumulator is set and not at all if it is not, the push
carries the descriptor as all fields left it and comes after every effect of
the field application, and only effects that are no HAL call follow it. -/
theorem push_is_batched (P : Platform σ) (cfg : BuildConfig)
    (vconf : schema_Wifi_VIF_Config) (cconfs : schema_Wifi_Credential_Config)
    (changed : schema_Wifi_VIF_Config_flags) (w : World σ)
    (ssid_index : Int) (vap_info : wifi_vap_info_t)
    (hidx : vif_ifname_to_idx P w.hal vconf.if_name = some ssid_index)
    (hvap : ssid_index_to_vap_info P w.hal (UINT_of_INT ssid_index) = some vap_info)
    (hmode : vap_info.vap_mode = wifi_vap_mode_ap) :
    ((vif_ap_config_apply P cfg ssid_index vconf changed vap_info w).aborted = true
        ↔ (changed.ssid_broadcast = true ∧ vconf.ssid_broadcast ≠ "enabled"
            ∧ vconf.ssid_broadcast ≠ "disabled"))
    ∧ createVAP_calls (vif_ap_config_apply P cfg ssid_index vconf changed vap_info w).world.log
        = createVAP_calls w.log
    ∧ createVAP_calls (target_vif_config_set2 P cfg vconf cconfs changed w).2.log
        = createVAP_calls w.log ++
          (if (vif_ap_config_apply P cfg ssid_index vconf changed vap_info w).aborted = false
              ∧ (vif_ap_config_apply P cfg ssid_index vconf changed vap_info w).trigger_reconfig
                = true
            then [((vif_ap_config_apply P cfg ssid_index vconf changed vap_info w).vap_info.radio_index,
              [(vif_ap_config_apply P cfg ssid_index vconf changed vap_info w).vap_info])]
            else [])
    ∧ ((vif_ap_config_apply P cfg ssid_index vconf changed vap_info w).aborted = true →
        target_vif_config_set2 P cfg vconf cconfs changed w
          = (false, (vif_ap_config_apply P cfg ssid_index vconf changed vap_info w).world))
    ∧ ((vif_ap_config_apply P cfg ssid_index vconf changed vap_info w).aborted = false →
        ∃ tail, hal_calls tail = [] ∧
          (target_vif_config_set2 P cfg vconf cconfs changed w).2.log
            = (vif_ap_config_apply P cfg ssid_index vconf changed vap_info w).world.log ++
              (if (vif_ap_config_apply P cfg ssid_index vconf changed vap_info w).trigger_reconfig
                  = true
                then [Effect.hal (HalCall.wifi_createVAP
                  (vif_ap_config_apply P cfg ssid_index vconf changed vap_info w).vap_info.radio_index
                  [(vif_ap_config_apply P cfg ssid_index vconf changed vap_info w).vap_info])]
                else []) ++ tail) := by
  have htarget := target_vif_config_set2_ap P cfg vconf cconfs changed w ssid_index vap_info
    hidx hvap hmode
  have hnp := no_push_log (vif_ap_config_apply_no_push P cfg ssid_index vconf changed vap_info w)
  generalize hr : vif_ap_config_apply P cfg ssid_index vconf changed vap_info w = r at *
  have hab : r.aborted = true
      ↔ (changed.ssid_broadcast = true ∧ vconf.ssid_broadcast ≠ "enabled"
          ∧ vconf.ssid_broadcast ≠ "disabled") := by
    rw [← hr]
    unfold vif_ap_config_apply
    dsimp only
    by_cases hb : changed.ssid_broadcast = true
    · rw [if_pos hb, c_get_item_by_str_enable_disable]
      by_cases he : vconf.ssid_broadcast = "enabled"
      · simp [he]
      · by_cases hd : vconf.ssid_broadcast = "disabled"
        · simp [hd]
        · simp [he, hd, hb]
    · rw [if_neg hb]
      simp [hb]
  have hpush : ∀ w0 : World σ,
      (vif_config_push P r.trigger_reconfig r.vap_info w0).log
        = w0.log ++ (if r.trigger_reconfig = true then
            [Effect.hal (HalCall.wifi_createVAP r.vap_info.radio_index [r.vap_info])] else []) := by
    intro w0
    unfold vif_config_push
    split_ifs
    · rfl
    · simp
  refine ⟨hab, hnp, ?_, ?_, ?_⟩
  · rw [htarget]
    by_cases ha : r.aborted = true
    · simp [ha, hnp]
    · have ha' : r.aborted = false := by simpa using ha
      rw [if_neg ha,
        no_push_log (no_hal_write_no_push (vif_config_refresh_no_hal_write P cfg ssid_index _)),
        hpush, createVAP_calls_append, hnp]
      by_cases ht : r.trigger_reconfig = true
      · simp [ha', ht, createVAP_calls]
      · simp [ha', ht, createVAP_calls]
  · intro ha
    rw [htarget, if_pos ha]
  · intro ha
    rw [htarget, if_neg (by simp [ha])]
    obtain ⟨_, tail, hl, hc⟩ := vif_config_refresh_no_hal_write P cfg ssid_index
      (vif_config_push P r.trigger_reconfig r.vap_info r.world)
    exact ⟨tail, hc, by rw [hl, hpush]⟩

end

/-- C9 at a concrete input: on `demo_platform`, a desired record for "wl0"
applied with the all-false change mask. -/
theorem empty_change_mask_writes_nothing_witness :
    vif_ap_config_apply demo_platform {} 0
        { if_name := "wl0", enabled := true, ssid := "home", wpa_key_mgmt := ["sae"] } {}
        demo_vap { hal := [] }
      = { aborted := false, trigger_reconfig := false, vap_info := demo_vap,
          world := { hal := [] } }
    ∧ ∀ n : Nat,
        (repeat_apply (fun w' => (target_vif_config_set2 demo_platform {}
            { if_name := "wl0", enabled := true, ssid := "home", wpa_key_mgmt := ["sae"] }
            {} {} w').2) n { hal := [] }).hal = []
        ∧ hal_calls
            (repeat_apply (fun w' => (target_vif_config_set2 demo_platform {}
              { if_name := "wl0", enabled := true, ssid := "home", wpa_key_mgmt := ["sae"] }
              {} {} w').2) n { hal := [] }).log = [] :=
  empty_change_mask_writes_nothing demo_platform {}
    { if_name := "wl0", enabled := true, ssid := "home", wpa_key_mgmt := ["sae"] } {}
    { hal := [] } 0 demo_vap (by decide) (by decide) rfl

/-- C10 as stated fails: on `demo_platform`, with `enabled` and the SSID
broadcast option flagged and the unknown broadcast value "sometimes", the
accumulator is set by the `enabled` field, yet the call fails and pushes
nothing. -/
theorem push_skipped_on_unknown_ssid_broadcast :
    (vif_ap_config_apply demo_platform {} 0
        { if_name := "wl0", enabled := true, ssid_broadcast := "sometimes" }
        { enabled := true, ssid_broadcast := true } demo_vap { hal := [] }).trigger_reconfig
      = true
    ∧ (target_vif_config_set2 demo_platform {}
        { if_name := "wl0", enabled := true, ssid_broadcast := "sometimes" } {}
        { enabled := true, ssid_broadcast := true } { hal := [] }).1 = false
    ∧ createVAP_calls (target_vif_config_set2 demo_platform {}
        { if_name := "wl0", enabled := true, ssid_broadcast := "sometimes" } {}
        { enabled := true, ssid_broadcast := true } { hal := [] }).2.log = []
    ∧ ¬ ((vif_ap_config_apply demo_platform {} 0
            { if_name := "wl0", enabled := true, ssid_broadcast := "sometimes" }
            { enabled := true, ssid_broadcast := true } demo_vap { hal := [] }).trigger_reconfig
          = true →
        (createVAP_calls (target_vif_config_set2 demo_platform {}
          { if_name := "wl0", enabled := true, ssid_broadcast := "sometimes" } {}
          { enabled := true, ssid_broadcast := true } { hal := [] }).2.log).length = 1) := by
  decide

/-- C10 (amended) at a concrete input: on `demo_platform`, with `enabled`,
`ssid` and `rrm` flagged, the call pushes once, and the pushed descriptor
carries all three fields. -/
theorem push_is_batched_witness :
    createVAP_calls (target_vif_config_set2 demo_platform {}
        { if_name := "wl0", enabled := true, ssid := "home", rrm := 1 } {}
        { enabled := true, ssid := true, rrm := true } { hal := [] }).2.log
      = [(0, [{ demo_vap with bss_info :=
          { demo_vap.bss_info with enabled := true, ssid := "home", nbrReportActivated := 1 } }])] := by
  have h := (push_is_batched demo_platform {}
    { if_name := "wl0", enabled := true, ssid := "home", rrm := 1 } {}
    { enabled := true, ssid := true, rrm := true } { hal := [] } 0 demo_vap
    (by decide) (by decide) rfl).2.2.1
  rw [h]
  decide

/-! ## Deferred update scheduler -/

theorem refresh_calls_append (a b : List Effect) :
    refresh_calls (a ++ b) = refresh_calls a ++ refresh_calls b := by
  induction a with
  | nil => rfl
  | cons e rest ih => cases e <;> simp [refresh_calls, ih]

section
variable {σ : Type}

/-- A refresh only appends to the log: its own entry, then possibly the
published state. -/
theorem vif_state_update_world (P : Platform σ) (cfg : BuildConfig) (ssidIndex : Int)
    (w : World σ) :
    ∃ es, (vif_state_update P cfg ssidIndex w).2 = { w with log := w.log ++ es }
      ∧ refresh_calls es = [ssidIndex] ∧ hal_calls es = [] := by
  unfold vif_state_update
  dsimp only
  split
  · exact ⟨[Effect.vif_state_update ssidIndex], rfl, rfl, rfl⟩
  · split
    · exact ⟨[Effect.vif_state_update ssidIndex], rfl, rfl, rfl⟩
    · rename_i _ vstate _ _ radio_ifname _
      refine ⟨[Effect.vif_state_update ssidIndex, Effect.radio_rops_vstate vstate radio_ifname],
        ?_, rfl, rfl⟩
      simp [World.emit]

end

section
variable {σ : Type}

@[simp] theorem vif_state_update_queue (P : Platform σ) (cfg : BuildConfig) (i : Int)
    (w : World σ) :
    (vif_state_update P cfg i w).2.vif_update_queue = w.vif_update_queue := by
  obtain ⟨es, h, _, _⟩ := vif_state_update_world P cfg i w
  rw [h]

@[simp] theorem vif_state_update_init_done (P : Platform σ) (cfg : BuildConfig) (i : Int)
    (w : World σ) :
    (vif_state_update P cfg i w).2.vif_update_init_done = w.vif_update_init_done := by
  obtain ⟨es, h, _, _⟩ := vif_state_update_world P cfg i w
  rw [h]

@[simp] theorem vif_state_update_hal (P : Platform σ) (cfg : BuildConfig) (i : Int)
    (w : World σ) :
    (vif_state_update P cfg i w).2.hal = w.hal := by
  obtain ⟨es, h, _, _⟩ := vif_state_update_world P cfg i w
  rw [h]

@[simp] theorem vif_state_update_cb_queue (P : Platform σ) (cfg : BuildConfig) (i : Int)
    (w : World σ) :
    (vif_state_update P cfg i w).2.hal_cb_queue = w.hal_cb_queue := by
  obtain ⟨es, h, _, _⟩ := vif_state_update_world P cfg i w
  rw [h]

@[simp] theorem vif_state_update_cb_queue_len (P : Platform σ) (cfg : BuildConfig) (i : Int)
    (w : World σ) :
    (vif_state_update P cfg i w).2.hal_cb_queue_len = w.hal_cb_queue_len := by
  obtain ⟨es, h, _, _⟩ := vif_state_update_world P cfg i w
  rw [h]

@[simp] theorem vif_state_update_cb_loop (P : Platform σ) (cfg : BuildConfig) (i : Int)
    (w : World σ) :
    (vif_state_update P cfg i w).2.hal_cb_loop = w.hal_cb_loop := by
  obtain ⟨es, h, _, _⟩ := vif_state_update_world P cfg i w
  rw [h]

@[simp] theorem vif_state_update_cb_registered (P : Platform σ) (cfg : BuildConfig) (i : Int)
    (w : World σ) :
    (vif_state_update P cfg i w).2.hal_cb_registered = w.hal_cb_registered := by
  obtain ⟨es, h, _, _⟩ := vif_state_update_world P cfg i w
  rw [h]

@[simp] theorem vif_state_update_refresh_calls (P : Platform σ) (cfg : BuildConfig) (i : Int)
    (w : World σ) :
    refresh_calls (vif_state_update P cfg i w).2.log = refresh_calls w.log ++ [i] := by
  obtain ⟨es, h, hr, _⟩ := vif_state_update_world P cfg i w
  rw [h]
  simp only [refresh_calls_append, hr]

theorem vif_update_queue_find_eq_none (i : Int) (q : List vif_state_update_entry_t) :
    vif_update_queue_find i q = none ↔ i ∉ q.map (fun ptr => ptr.ssid_index) := by
  induction q with
  | nil => simp [vif_update_queue_find]
  | cons ptr rest ih =>
    unfold vif_update_queue_find
    by_cases h : i = ptr.ssid_index
    · simp [h]
    · simp only [if_neg h, Option.map_eq_none', ih, List.map_cons, List.mem_cons, not_or]
      exact ⟨fun hr => ⟨h, hr⟩, fun hr => hr.2⟩

@[simp] theorem vif_update_queue_timer_map (op : ev_timer → ev_timer) :
    ∀ (k : Nat) (q : List vif_state_update_entry_t),
      (vif_update_queue_timer op k q).map (fun ptr => ptr.ssid_index)
        = q.map (fun ptr => ptr.ssid_index) := by
  intro k q
  induction q generalizing k with
  | nil => cases k <;> rfl
  | cons ptr rest ih =>
    cases k with
    | zero => rfl
    | succ k => simp [vif_update_queue_timer, ih]

theorem vif_update_queue_find_some (i : Int) :
    ∀ (q : List vif_state_update_entry_t) (k : Nat), vif_update_queue_find i q = some k →
      (∃ ptr, q.get? k = some ptr ∧ ptr.ssid_index = i)
      ∧ (q.eraseIdx k).map (fun ptr => ptr.ssid_index)
          = (q.map (fun ptr => ptr.ssid_index)).erase i
      ∧ i ∈ q.map (fun ptr => ptr.ssid_index) := by
  intro q
  induction q with
  | nil => intro k h; simp [vif_update_queue_find] at h
  | cons ptr rest ih =>
    intro k h
    unfold vif_update_queue_find at h
    by_cases hi : i = ptr.ssid_index
    · rw [if_pos hi] at h
      cases h
      refine ⟨⟨ptr, rfl, hi.symm⟩, ?_, ?_⟩
      · simp [hi]
      · simp [hi]
    · rw [if_neg hi] at h
      cases hr : vif_update_queue_find i rest with
      | none => rw [hr] at h; simp at h
      | some k' =>
        rw [hr] at h
        simp only [Option.map_some', Option.some.injEq] at h
        subst h
        obtain ⟨⟨p, hp, hpi⟩, he, hm⟩ := ih k' hr
        refine ⟨⟨p, by simpa using hp, hpi⟩, ?_, ?_⟩
        · have hne : ¬ (ptr.ssid_index = i) := fun hc => hi hc.symm
          simp [List.eraseIdx, he, List.erase_cons, hne]
        · simp only [List.map_cons, List.mem_cons]
          exact Or.inr hm

end

section
variable {σ : Type}

/-- What a request does to the pending table and to the refresh log. -/
theorem sched_step_request (P : Platform σ) (cfg : BuildConfig) (i : Int) (w : World σ) :
    sched_pending (vif_state_update_deferred P cfg i w)
        = sched_pending_after (SchedEvent.requestRefresh i) (sched_pending_init w)
    ∧ refresh_calls (vif_state_update_deferred P cfg i w).log
        = refresh_calls w.log ++ sched_refreshes_of (SchedEvent.requestRefresh i)
            (sched_pending_init w)
    ∧ (vif_state_update_deferred P cfg i w).vif_update_init_done = true := by
  have core : ∀ w0 : World σ, w0.vif_update_init_done = true →
      sched_pending (vif_state_update_deferred P cfg i w0)
          = sched_pending_after (SchedEvent.requestRefresh i) (sched_pending w0)
      ∧ refresh_calls (vif_state_update_deferred P cfg i w0).log
          = refresh_calls w0.log ++ sched_refreshes_of (SchedEvent.requestRefresh i)
              (sched_pending w0)
      ∧ (vif_state_update_deferred P cfg i w0).vif_update_init_done = true := by
    intro w0 h0
    unfold vif_state_update_deferred
    simp only [h0, Bool.not_true, Bool.false_eq_true, if_false]
    cases hf : vif_update_queue_find i w0.vif_update_queue with
    | none =>
      have hn := (vif_update_queue_find_eq_none i _).1 hf
      have hn' : i ∉ sched_pending w0 := hn
      simp [sched_pending, sched_pending_after, sched_refreshes_of, hn, h0, ev_timer_set_start]
    | some k =>
      have hm := (vif_update_queue_find_some i _ k hf).2.2
      have hm' : i ∈ sched_pending w0 := hm
      simp only [sched_pending_after, sched_refreshes_of, hm', if_true]
      simp [sched_pending, h0]
  by_cases hinit : w.vif_update_init_done = true
  · have hpi : sched_pending_init w = sched_pending w := by simp [sched_pending_init, hinit]
    rw [hpi]
    exact core w hinit
  · have hpi : sched_pending_init w = [] := by simp [sched_pending_init, hinit]
    have hc := core { w with vif_update_queue := [], vif_update_init_done := true } rfl
    have he : vif_state_update_deferred P cfg i w
        = vif_state_update_deferred P cfg i
            { w with vif_update_queue := [], vif_update_init_done := true } := by
      unfold vif_state_update_deferred
      simp [hinit]
    rw [he, hpi]
    exact hc

/-- What a timer expiry does to the pending table and to the refresh log. -/
theorem sched_step_expiry (P : Platform σ) (cfg : BuildConfig) (i : Int) (w : World σ) :
    sched_pending (sched_step P cfg (SchedEvent.timerExpiry i) w)
        = sched_pending_after (SchedEvent.timerExpiry i) (sched_pending w)
    ∧ refresh_calls (sched_step P cfg (SchedEvent.timerExpiry i) w).log
        = refresh_calls w.log ++ sched_refreshes_of (SchedEvent.timerExpiry i) (sched_pending w)
    ∧ (sched_step P cfg (SchedEvent.timerExpiry i) w).vif_update_init_done
        = w.vif_update_init_done := by
  unfold sched_step
  cases hf : vif_update_queue_find i w.vif_update_queue with
  | none =>
    have hn : i ∉ sched_pending w := (vif_update_queue_find_eq_none i _).1 hf
    simp [hf, sched_pending_after, sched_refreshes_of, hn, List.erase_of_not_mem]
  | some k =>
    obtain ⟨⟨ptr, hget, hpi⟩, he, hm⟩ := vif_update_queue_find_some i _ k hf
    have hm' : i ∈ sched_pending w := hm
    simp only [hf, vif_state_update_task, hget, sched_pending_after, sched_refreshes_of, hm',
      if_true, hpi]
    simp [sched_pending, he]

end

section
variable {σ : Type}

theorem sched_pending_after_nodup (e : SchedEvent) (l : List Int) (h : l.Nodup) :
    (sched_pending_after e l).Nodup := by
  cases e with
  | requestRefresh i =>
    simp only [sched_pending_after]
    split_ifs with hi
    · exact h
    · exact List.Nodup.append h (List.nodup_singleton i) (by simpa using hi)
  | timerExpiry i => exact h.erase i

theorem sched_pending_init_eq (w : World σ)
    (h : w.vif_update_init_done = true ∨ w.vif_update_queue = []) :
    sched_pending_init w = sched_pending w := by
  unfold sched_pending_init
  rcases h with h | h
  · simp [h]
  · simp [sched_pending, h]

/-- One step of the scheduler from a well-formed state. -/
theorem sched_step_spec (P : Platform σ) (cfg : BuildConfig) (e : SchedEvent) (w : World σ)
    (hwf : sched_wf w) :
    sched_pending (sched_step P cfg e w) = sched_pending_after e (sched_pending w)
    ∧ refresh_calls (sched_step P cfg e w).log
        = refresh_calls w.log ++ sched_refreshes_of e (sched_pending w)
    ∧ sched_wf (sched_step P cfg e w) := by
  cases e with
  | requestRefresh i =>
    obtain ⟨h1, h2, h3⟩ := sched_step_request P cfg i w
    rw [sched_pending_init_eq w hwf] at h1 h2
    exact ⟨h1, h2, Or.inl h3⟩
  | timerExpiry i =>
    obtain ⟨h1, h2, h3⟩ := sched_step_expiry P cfg i w
    refine ⟨h1, h2, ?_⟩
    rcases hwf with h | h
    · exact Or.inl (h3.trans h)
    · right
      have hp : sched_pending w = [] := by simp [sched_pending, h]
      rw [hp] at h1
      have : sched_pending (sched_step P cfg (SchedEvent.timerExpiry i) w) = [] := by
        rw [h1]; rfl
      simpa [sched_pending] using this

/-- A sequence of scheduler steps from a well-formed state. -/
theorem sched_run_spec (P : Platform σ) (cfg : BuildConfig) :
    ∀ (events : List SchedEvent) (w : World σ), sched_wf w →
      sched_pending (sched_run P cfg events w) = sched_pending_run events (sched_pending w)
      ∧ refresh_calls (sched_run P cfg events w).log
          = refresh_calls w.log ++ sched_refreshes_run events (sched_pending w)
      ∧ sched_wf (sched_run P cfg events w) := by
  intro events
  induction events with
  | nil => intro w hwf; simp [sched_run, sched_pending_run, sched_refreshes_run, hwf]
  | cons e rest ih =>
    intro w hwf
    obtain ⟨h1, h2, h3⟩ := sched_step_spec P cfg e w hwf
    obtain ⟨i1, i2, i3⟩ := ih (sched_step P cfg e w) h3
    refine ⟨?_, ?_, i3⟩
    · simp only [sched_run, sched_pending_run, i1, h1]
    · simp only [sched_run, sched_refreshes_run, i2, h2, h1, List.append_assoc]

theorem sched_run_append (P : Platform σ) (cfg : BuildConfig) :
    ∀ (a b : List SchedEvent) (w : World σ),
      sched_run P cfg (a ++ b) w = sched_run P cfg b (sched_run P cfg a w) := by
  intro a
  induction a with
  | nil => intro b w; rfl
  | cons e rest ih => intro b w; exact ih b (sched_step P cfg e w)

theorem sched_pending_run_nodup :
    ∀ (events : List SchedEvent) (l : List Int), l.Nodup → (sched_pending_run events l).Nodup := by
  intro events
  induction events with
  | nil => intro l h; exact h
  | cons e rest ih => intro l h; exact ih _ (sched_pending_after_nodup e l h)

/-- The first request for an absent index: it creates the entry and refreshes
nothing, and leaves a well-formed state whose other entries are those the
request found. -/
theorem sched_first_request (P : Platform σ) (cfg : BuildConfig) (i : Int) (w : World σ)
    (habs : i ∉ sched_pending w) :
    i ∉ sched_pending_init w
    ∧ sched_pending (vif_state_update_deferred P cfg i w) = sched_pending_init w ++ [i]
    ∧ refresh_calls (vif_state_update_deferred P cfg i w).log = refresh_calls w.log
    ∧ sched_wf (vif_state_update_deferred P cfg i w) := by
  have hni : i ∉ sched_pending_init w := by
    unfold sched_pending_init
    split_ifs
    · exact habs
    · simp
  obtain ⟨h1, h2, h3⟩ := sched_step_request P cfg i w
  simp only [sched_pending_after, sched_refreshes_of, hni, if_false, List.append_nil] at h1 h2
  exact ⟨hni, h1, h2, Or.inl h3⟩

end

theorem sched_pending_run_append :
    ∀ (a b : List SchedEvent) (l : List Int),
      sched_pending_run (a ++ b) l = sched_pending_run b (sched_pending_run a l) := by
  intro a
  induction a with
  | nil => intro b l; rfl
  | cons e rest ih => intro b l; exact ih b _

theorem sched_refreshes_run_append :
    ∀ (a b : List SchedEvent) (l : List Int),
      sched_refreshes_run (a ++ b) l
        = sched_refreshes_run a l ++ sched_refreshes_run b (sched_pending_run a l) := by
  intro a
  induction a with
  | nil => intro b l; rfl
  | cons e rest ih =>
    intro b l
    show sched_refreshes_of e l ++ sched_refreshes_run (rest ++ b) (sched_pending_after e l) = _
    rw [ih]
    simp [sched_refreshes_run, sched_pending_run]

/-- Requests for an index that is pending: the table stays as it is and every
request refreshes. -/
theorem sched_burst_pending (i : Int) (l : List Int) (h : i ∈ l) :
    ∀ n : Nat,
      sched_pending_run (List.replicate n (SchedEvent.requestRefresh i)) l = l
      ∧ sched_refreshes_run (List.replicate n (SchedEvent.requestRefresh i)) l
          = List.replicate n i := by
  intro n
  induction n with
  | zero => exact ⟨rfl, rfl⟩
  | succ n ih =>
    simp only [List.replicate_succ, sched_pending_run, sched_refreshes_run, sched_pending_after,
      sched_refreshes_of, h, if_true, ih.1, ih.2, List.singleton_append]
    exact ⟨trivial, trivial⟩

section
variable {σ : Type}

/-- A request for an absent index followed by further events. -/
theorem sched_run_after_first (P : Platform σ) (cfg : BuildConfig) (i : Int) (w : World σ)
    (habs : i ∉ sched_pending w) (events : List SchedEvent) :
    i ∉ sched_pending_init w
    ∧ sched_pending (sched_run P cfg (SchedEvent.requestRefresh i :: events) w)
        = sched_pending_run events (sched_pending_init w ++ [i])
    ∧ refresh_calls (sched_run P cfg (SchedEvent.requestRefresh i :: events) w).log
        = refresh_calls w.log ++ sched_refreshes_run events (sched_pending_init w ++ [i]) := by
  obtain ⟨hni, h1, h2, h3⟩ := sched_first_request P cfg i w habs
  obtain ⟨r1, r2, _⟩ := sched_run_spec P cfg events (vif_state_update_deferred P cfg i w) h3
  refine ⟨hni, ?_, ?_⟩
  · show sched_pending (sched_run P cfg events (vif_state_update_deferred P cfg i w)) = _
    rw [r1, h1]
  · show refresh_calls (sched_run P cfg events (vif_state_update_deferred P cfg i w)).log = _
    rw [r2, h1, h2]

/-- C11: starting with no pending entry for `i`, a request refreshes nothing
and leaves `i` pending; a request followed by the expiry refreshes `i` exactly
once, at expiry; two requests followed by the expiry refresh `i` exactly
twice, once at the second request and once at expiry; and `i` is absent after
the expiry. -/
theorem sched_single_and_double_request (P : Platform σ) (cfg : BuildConfig) (i : Int)
    (w : World σ) (habs : i ∉ sched_pending w) :
    (refresh_calls (sched_run P cfg [SchedEvent.requestRefresh i] w).log = refresh_calls w.log
      ∧ i ∈ sched_pending (sched_run P cfg [SchedEvent.requestRefresh i] w))
    ∧ (refresh_calls
          (sched_run P cfg [SchedEvent.requestRefresh i, SchedEvent.timerExpiry i] w).log
        = refresh_calls w.log ++ [i]
      ∧ i ∉ sched_pending
          (sched_run P cfg [SchedEvent.requestRefresh i, SchedEvent.timerExpiry i] w))
    ∧ (refresh_calls
          (sched_run P cfg [SchedEvent.requestRefresh i, SchedEvent.requestRefresh i] w).log
        = refresh_calls w.log ++ [i]
      ∧ i ∈ sched_pending
          (sched_run P cfg [SchedEvent.requestRefresh i, SchedEvent.requestRefresh i] w))
    ∧ (refresh_calls
          (sched_run P cfg [SchedEvent.requestRefresh i, SchedEvent.requestRefresh i,
            SchedEvent.timerExpiry i] w).log
        = refresh_calls w.log ++ [i, i]
      ∧ i ∉ sched_pending
          (sched_run P cfg [SchedEvent.requestRefresh i, SchedEvent.requestRefresh i,
            SchedEvent.timerExpiry i] w)) := by
  obtain ⟨hni, a1, a2⟩ := sched_run_after_first P cfg i w habs []
  obtain ⟨_, b1, b2⟩ := sched_run_after_first P cfg i w habs [SchedEvent.timerExpiry i]
  obtain ⟨_, c1, c2⟩ := sched_run_after_first P cfg i w habs [SchedEvent.requestRefresh i]
  obtain ⟨_, d1, d2⟩ := sched_run_after_first P cfg i w habs
    [SchedEvent.requestRefresh i, SchedEvent.timerExpiry i]
  have herase : (sched_pending_init w ++ [i]).erase i = sched_pending_init w := by
    rw [List.erase_append_right _ hni]
    simp
  refine ⟨⟨?_, ?_⟩, ⟨?_, ?_⟩, ⟨?_, ?_⟩, ⟨?_, ?_⟩⟩
  · rw [a2]; simp [sched_refreshes_run]
  · rw [a1]; simp [sched_pending_run]
  · rw [b2]; simp [sched_refreshes_run, sched_refreshes_of]
  · rw [b1]; simpa [sched_pending_run, sched_pending_after, herase] using hni
  · rw [c2]; simp [sched_refreshes_run, sched_refreshes_of]
  · rw [c1]; simp [sched_pending_run, sched_pending_after]
  · rw [d2]; simp [sched_refreshes_run, sched_refreshes_of, sched_pending_after]
  · rw [d1]; simpa [sched_pending_run, sched_pending_after, herase] using hni

/-- C11 at a concrete input: on `demo_platform` with an empty pending table and
index 0. -/
theorem sched_single_and_double_request_witness :
    refresh_calls (sched_run demo_platform { RDK_VIF_STATE_UPDATE_DELAY := 5 }
        [SchedEvent.requestRefresh 0, SchedEvent.timerExpiry 0] { hal := [] }).log = [0]
    ∧ refresh_calls (sched_run demo_platform { RDK_VIF_STATE_UPDATE_DELAY := 5 }
        [SchedEvent.requestRefresh 0, SchedEvent.requestRefresh 0, SchedEvent.timerExpiry 0]
        { hal := [] }).log = [0, 0] :=
  ⟨(sched_single_and_double_request demo_platform { RDK_VIF_STATE_UPDATE_DELAY := 5 } 0
      { hal := [] } (by decide)).2.1.1,
    (sched_single_and_double_request demo_platform { RDK_VIF_STATE_UPDATE_DELAY := 5 } 0
      { hal := [] } (by decide)).2.2.2.1⟩

/-- C12 (amended): a burst of `k ≥ 2` requests for an absent index `i`, with no
expiry in between, executes exactly `k - 1` refreshes of `i` synchronously
(one on each request after the first) and leaves `i` pending; the expiry after
the burst executes exactly one more and leaves `i` absent. -/
theorem sched_burst_refreshes (P : Platform σ) (cfg : BuildConfig) (i : Int) (w : World σ)
    (habs : i ∉ sched_pending w) (k : Nat) (hk : 2 ≤ k) :
    refresh_calls (sched_run P cfg (List.replicate k (SchedEvent.requestRefresh i)) w).log
        = refresh_calls w.log ++ List.replicate (k - 1) i
    ∧ i ∈ sched_pending (sched_run P cfg (List.replicate k (SchedEvent.requestRefresh i)) w)
    ∧ refresh_calls
          (sched_run P cfg
            (List.replicate k (SchedEvent.requestRefresh i) ++ [SchedEvent.timerExpiry i]) w).log
        = refresh_calls w.log ++ List.replicate (k - 1) i ++ [i]
    ∧ i ∉ sched_pending
          (sched_run P cfg
            (List.replicate k (SchedEvent.requestRefresh i) ++ [SchedEvent.timerExpiry i]) w) := by
  obtain ⟨n, rfl⟩ : ∃ n, k = n + 1 := ⟨k - 1, by omega⟩
  simp only [List.replicate_succ, List.cons_append, Nat.add_sub_cancel]
  obtain ⟨hni, a1, a2⟩ := sched_run_after_first P cfg i w habs
    (List.replicate n (SchedEvent.requestRefresh i))
  obtain ⟨_, b1, b2⟩ := sched_run_after_first P cfg i w habs
    (List.replicate n (SchedEvent.requestRefresh i) ++ [SchedEvent.timerExpiry i])
  have hmem : i ∈ sched_pending_init w ++ [i] := by simp
  obtain ⟨p1, p2⟩ := sched_burst_pending i _ hmem n
  have herase : (sched_pending_init w ++ [i]).erase i = sched_pending_init w := by
    rw [List.erase_append_right _ hni]
    simp
  refine ⟨?_, ?_, ?_, ?_⟩
  · rw [a2, p2]
  · rw [a1, p1]; exact hmem
  · rw [b2, sched_refreshes_run_append, p1, p2]
    simp [sched_refreshes_run, sched_refreshes_of]
  · rw [b1, sched_pending_run_append, p1]
    simpa [sched_pending_run, sched_pending_after, herase] using hni

/-- C12 (amended) at a concrete input: on `demo_platform`, a burst of three
requests for index 0 followed by the expiry. -/
theorem sched_burst_refreshes_witness :
    refresh_calls (sched_run demo_platform { RDK_VIF_STATE_UPDATE_DELAY := 5 }
        (List.replicate 3 (SchedEvent.requestRefresh 0) ++ [SchedEvent.timerExpiry 0])
        { hal := [] }).log = [0, 0, 0] :=
  (sched_burst_refreshes demo_platform { RDK_VIF_STATE_UPDATE_DELAY := 5 } 0 { hal := [] }
    (by decide) 3 (by decide)).2.2.1

/-- C12 as stated fails: on `demo_platform`, a burst of three requests for
index 0 from the empty pending table executes two refreshes of 0 during the
burst, not at most one. -/
theorem sched_burst_of_three_refreshes_twice :
    refresh_calls (sched_run demo_platform { RDK_VIF_STATE_UPDATE_DELAY := 5 }
        [SchedEvent.requestRefresh 0, SchedEvent.requestRefresh 0, SchedEvent.requestRefresh 0]
        { hal := [] }).log = [0, 0]
    ∧ ¬ ((refresh_calls (sched_run demo_platform { RDK_VIF_STATE_UPDATE_DELAY := 5 }
        [SchedEvent.requestRefresh 0, SchedEvent.requestRefresh 0, SchedEvent.requestRefresh 0]
        { hal := [] }).log).length ≤ 1) := by
  decide

end

/-- An event about another index neither changes whether `i` is pending nor
refreshes `i`. -/
theorem sched_after_other (i : Int) (e : SchedEvent) (he : e.index ≠ i) (l : List Int) :
    (i ∈ sched_pending_after e l ↔ i ∈ l)
    ∧ (sched_refreshes_of e l).filter (fun x => decide (x = i)) = [] := by
  cases e with
  | requestRefresh j =>
    have hji : j ≠ i := he
    have hij : i ≠ j := fun h => hji h.symm
    simp only [sched_pending_after, sched_refreshes_of]
    split_ifs with hj
    · simp [hji]
    · simp [hij]
  | timerExpiry j =>
    have hji : j ≠ i := he
    have hij : i ≠ j := fun h => hji h.symm
    simp only [sched_pending_after, sched_refreshes_of]
    refine ⟨List.mem_erase_of_ne hij, ?_⟩
    split_ifs <;> simp [hji]

/-- An event about `i` acts on two duplicate-free tables that agree on whether
`i` is pending in the same way. -/
theorem sched_after_same (i : Int) (e : SchedEvent) (he : e.index = i) (l1 l2 : List Int)
    (h1 : l1.Nodup) (h2 : l2.Nodup) (h : i ∈ l1 ↔ i ∈ l2) :
    (i ∈ sched_pending_after e l1 ↔ i ∈ sched_pending_after e l2)
    ∧ sched_refreshes_of e l1 = sched_refreshes_of e l2 := by
  cases e with
  | requestRefresh j =>
    have hji : j = i := he
    subst hji
    simp only [sched_pending_after, sched_refreshes_of]
    by_cases hm : j ∈ l1
    · simp [hm, h.1 hm]
    · have hm2 : j ∉ l2 := fun hc => hm (h.2 hc)
      simp [hm, hm2]
  | timerExpiry j =>
    have hji : j = i := he
    subst hji
    simp only [sched_pending_after, sched_refreshes_of]
    refine ⟨?_, ?_⟩
    · rw [h1.mem_erase_iff, h2.mem_erase_iff]
      simp
    · by_cases hm : j ∈ l1
      · simp [hm, h.1 hm]
      · have hm2 : j ∉ l2 := fun hc => hm (h.2 hc)
        simp [hm, hm2]

theorem sched_independent_run (i : Int) :
    ∀ (events : List SchedEvent) (l1 l2 : List Int), l1.Nodup → l2.Nodup → (i ∈ l1 ↔ i ∈ l2) →
      (sched_refreshes_run events l1).filter (fun x => decide (x = i))
          = (sched_refreshes_run (events.filter (fun e => decide (e.index = i))) l2).filter
              (fun x => decide (x = i))
      ∧ (i ∈ sched_pending_run events l1
          ↔ i ∈ sched_pending_run (events.filter (fun e => decide (e.index = i))) l2) := by
  intro events
  induction events with
  | nil => intro l1 l2 _ _ h; exact ⟨rfl, h⟩
  | cons e rest ih =>
    intro l1 l2 h1 h2 h
    by_cases he : e.index = i
    · obtain ⟨s1, s2⟩ := sched_after_same i e he l1 l2 h1 h2 h
      obtain ⟨r1, r2⟩ := ih _ _ (sched_pending_after_nodup e l1 h1)
        (sched_pending_after_nodup e l2 h2) s1
      simp only [List.filter_cons, he, decide_True, if_true, sched_refreshes_run,
        sched_pending_run, List.filter_append, r1, s2]
      exact ⟨trivial, r2⟩
    · obtain ⟨s1, s2⟩ := sched_after_other i e he l1
      obtain ⟨r1, r2⟩ := ih _ _ (sched_pending_after_nodup e l1 h1) h2 (s1.trans h)
      simp only [List.filter_cons, he, decide_False, Bool.false_eq_true, if_false,
        sched_refreshes_run, sched_pending_run, List.filter_append, s2, List.nil_append, r1]
      exact ⟨trivial, r2⟩

theorem sched_pending_run_subset :
    ∀ (events : List SchedEvent) (l : List Int) (x : Int),
      x ∈ sched_pending_run events l → x ∈ l ∨ x ∈ sched_requested events := by
  intro events
  induction events with
  | nil => intro l x h; exact Or.inl h
  | cons e rest ih =>
    intro l x h
    rcases ih _ x h with h' | h'
    · cases e with
      | requestRefresh i =>
        simp only [sched_pending_after] at h'
        split_ifs at h' with hi
        · exact Or.inl h'
        · rcases List.mem_append.1 h' with h'' | h''
          · exact Or.inl h''
          · right
            simp only [List.mem_singleton] at h''
            simp [sched_requested, h'']
      | timerExpiry i =>
        exact Or.inl (List.mem_of_mem_erase h')
    · right
      cases e with
      | requestRefresh i => simp [sched_requested, h']
      | timerExpiry i => simpa [sched_requested] using h'

section
variable {σ : Type}

/-- C13: in a state of the scheduler (table initialised or empty, no index
pending twice), an event about another index neither changes whether `i` is
pending nor adds a refresh of `i`; and for any interleaved event sequence the
refreshes of `i`, and whether `i` is pending at the end, are those of the
events about `i` alone. -/
theorem sched_indices_independent (P : Platform σ) (cfg : BuildConfig) (w : World σ)
    (hwf : sched_wf w) (hnd : (sched_pending w).Nodup) (i : Int) (events : List SchedEvent) :
    (∀ e : SchedEvent, e.index ≠ i →
        (i ∈ sched_pending (sched_step P cfg e w) ↔ i ∈ sched_pending w)
        ∧ (refresh_calls (sched_step P cfg e w).log).filter (fun x => decide (x = i))
            = (refresh_calls w.log).filter (fun x => decide (x = i)))
    ∧ (refresh_calls (sched_run P cfg events w).log).filter (fun x => decide (x = i))
        = (refresh_calls
            (sched_run P cfg (events.filter (fun e => decide (e.index = i))) w).log).filter
              (fun x => decide (x = i))
    ∧ (i ∈ sched_pending (sched_run P cfg events w)
        ↔ i ∈ sched_pending
            (sched_run P cfg (events.filter (fun e => decide (e.index = i))) w)) := by
  refine ⟨?_, ?_, ?_⟩
  · intro e he
    obtain ⟨h1, h2, _⟩ := sched_step_spec P cfg e w hwf
    obtain ⟨s1, s2⟩ := sched_after_other i e he (sched_pending w)
    rw [h1, h2, List.filter_append, s2, List.append_nil]
    exact ⟨s1, rfl⟩
  · obtain ⟨_, a2, _⟩ := sched_run_spec P cfg events w hwf
    obtain ⟨_, b2, _⟩ := sched_run_spec P cfg (events.filter (fun e => decide (e.index = i))) w hwf
    rw [a2, b2, List.filter_append, List.filter_append,
      (sched_independent_run i events _ _ hnd hnd Iff.rfl).1]
  · obtain ⟨a1, _, _⟩ := sched_run_spec P cfg events w hwf
    obtain ⟨b1, _, _⟩ := sched_run_spec P cfg (events.filter (fun e => decide (e.index = i))) w hwf
    rw [a1, b1]
    exact (sched_independent_run i events _ _ hnd hnd Iff.rfl).2

/-- C13 at a concrete input: on `demo_platform`, requests for 5 and 7
interleaved. -/
theorem sched_indices_independent_witness :
    (refresh_calls (sched_run demo_platform { RDK_VIF_STATE_UPDATE_DELAY := 5 }
        [SchedEvent.requestRefresh 5, SchedEvent.requestRefresh 7, SchedEvent.requestRefresh 5,
          SchedEvent.timerExpiry 7, SchedEvent.timerExpiry 5] { hal := [] }).log).filter
        (fun x => decide (x = 5))
      = (refresh_calls (sched_run demo_platform { RDK_VIF_STATE_UPDATE_DELAY := 5 }
          ([SchedEvent.requestRefresh 5, SchedEvent.requestRefresh 7, SchedEvent.requestRefresh 5,
            SchedEvent.timerExpiry 7, SchedEvent.timerExpiry 5].filter
              (fun e => decide (e.index = 5))) { hal := [] }).log).filter
          (fun x => decide (x = 5)) :=
  (sched_indices_independent demo_platform { RDK_VIF_STATE_UPDATE_DELAY := 5 } { hal := [] }
    (Or.inr rfl) List.nodup_nil 5
    [SchedEvent.requestRefresh 5, SchedEvent.requestRefresh 7, SchedEvent.requestRefresh 5,
      SchedEvent.timerExpiry 7, SchedEvent.timerExpiry 5]).2.1

/-- C14: in every state reached from an empty pending table by requests and
timer expiries, no interface index is pending twice, so the table has at most
one entry per index and at most as many entries as distinct indices were
requested; and the state is again one the scheduler starts from. -/
theorem sched_pending_table_invariant (P : Platform σ) (cfg : BuildConfig) (w : World σ)
    (hempty : w.vif_update_queue = []) (events : List SchedEvent) :
    (sched_pending (sched_run P cfg events w)).Nodup
    ∧ (∀ i : Int, (sched_pending (sched_run P cfg events w)).count i ≤ 1)
    ∧ (sched_run P cfg events w).vif_update_queue.length
        ≤ (sched_requested events).dedup.length
    ∧ sched_wf (sched_run P cfg events w) := by
  have hp : sched_pending w = [] := by simp [sched_pending, hempty]
  obtain ⟨h1, _, h3⟩ := sched_run_spec P cfg events w (Or.inr hempty)
  have hnd : (sched_pending (sched_run P cfg events w)).Nodup := by
    rw [h1, hp]
    exact sched_pending_run_nodup events [] List.nodup_nil
  refine ⟨hnd, fun i => List.nodup_iff_count_le_one.1 hnd i, ?_, h3⟩
  have hsub : sched_pending (sched_run P cfg events w) ⊆ (sched_requested events).dedup := by
    intro x hx
    rw [h1, hp] at hx
    rcases sched_pending_run_subset events [] x hx with h | h
    · simp at h
    · exact List.mem_dedup.2 h
  have hlen := (hnd.subperm hsub).length_le
  simpa [sched_pending] using hlen

/-- C14 at a concrete input: on `demo_platform`, four requests for two
indices leave two entries. -/
theorem sched_pending_table_invariant_witness :
    (sched_run demo_platform { RDK_VIF_STATE_UPDATE_DELAY := 5 }
        [SchedEvent.requestRefresh 5, SchedEvent.requestRefresh 7, SchedEvent.requestRefresh 5,
          SchedEvent.requestRefresh 7] { hal := [] }).vif_update_queue.length
      ≤ (sched_requested [SchedEvent.requestRefresh 5, SchedEvent.requestRefresh 7,
          SchedEvent.requestRefresh 5, SchedEvent.requestRefresh 7]).dedup.length :=
  (sched_pending_table_invariant demo_platform { RDK_VIF_STATE_UPDATE_DELAY := 5 } { hal := [] }
    rfl [SchedEvent.requestRefresh 5, SchedEvent.requestRefresh 7, SchedEvent.requestRefresh 5,
      SchedEvent.requestRefresh 7]).2.2.1

end

/-! ## Async event bridge -/

section
variable {σ : Type}

/-- The consumer loop: it empties the queue, counts the length down by the
number of entries, leaves the external state alone, and refreshes the entries
whose index resolves, in queue order. -/
theorem vif_sta_update_async_cb_loop_spec (P : Platform σ) (cfg : BuildConfig) :
    ∀ (q : List hal_cb_entry_t) (w : World σ), w.hal_cb_queue = q →
      (vif_sta_update_async_cb_loop P cfg q w).hal_cb_queue = []
      ∧ (vif_sta_update_async_cb_loop P cfg q w).hal_cb_queue_len
          = w.hal_cb_queue_len - q.length
      ∧ (vif_sta_update_async_cb_loop P cfg q w).hal = w.hal
      ∧ (vif_sta_update_async_cb_loop P cfg q w).hal_cb_loop = w.hal_cb_loop
      ∧ (vif_sta_update_async_cb_loop P cfg q w).hal_cb_registered = w.hal_cb_registered
      ∧ refresh_calls (vif_sta_update_async_cb_loop P cfg q w).log
          = refresh_calls w.log ++
            (q.filter (fun cbe =>
              (ssid_index_to_vap_info P w.hal (UINT_of_INT cbe.ssidIndex)).isSome)).map
              (fun cbe => cbe.ssidIndex) := by
  intro q
  induction q with
  | nil =>
    intro w hq
    simp [vif_sta_update_async_cb_loop, hq]
  | cons cbe rest ih =>
    intro w _
    unfold vif_sta_update_async_cb_loop
    dsimp only
    cases hres : ssid_index_to_vap_info P w.hal (UINT_of_INT cbe.ssidIndex) with
    | none =>
      obtain ⟨h1, h2, h3, h4, h5, h6⟩ := ih
        { w with hal_cb_queue := rest, hal_cb_queue_len := w.hal_cb_queue_len - 1 } rfl
      refine ⟨h1, ?_, h3, h4, h5, ?_⟩
      · rw [h2]; simp only [List.length_cons, Nat.cast_add, Nat.cast_one]; omega
      · rw [h6]; simp [hres]
    | some vap =>
      obtain ⟨h1, h2, h3, h4, h5, h6⟩ := ih
        (vif_state_update P cfg cbe.ssidIndex
          { w with hal_cb_queue := rest, hal_cb_queue_len := w.hal_cb_queue_len - 1 }).2
        (by simp)
      simp only [vif_state_update_hal, vif_state_update_cb_queue_len, vif_state_update_cb_loop,
        vif_state_update_cb_registered, vif_state_update_refresh_calls] at h2 h3 h4 h5 h6
      refine ⟨h1, ?_, h3, h4, h5, ?_⟩
      · rw [h2]; simp only [List.length_cons, Nat.cast_add, Nat.cast_one]; omega
      · rw [h6]; simp [hres]

end

section
variable {σ : Type}

theorem vif_sta_update_cb_full (apIndex : Int) (state : String) (w : World σ)
    (hinv : hal_cb_queue_ok w) (hfull : w.hal_cb_queue.length = HAL_CB_QUEUE_MAX) :
    vif_sta_update_cb apIndex state w = (RETURN_ERR, w) := by
  unfold vif_sta_update_cb
  rw [if_pos (by rw [hinv.1, hfull])]

theorem vif_sta_update_cb_room (apIndex : Int) (state : String) (w : World σ)
    (hinv : hal_cb_queue_ok w) (hroom : w.hal_cb_queue.length < HAL_CB_QUEUE_MAX) :
    (vif_sta_update_cb apIndex state w).1 = RETURN_OK
    ∧ (vif_sta_update_cb apIndex state w).2.hal_cb_queue
        = w.hal_cb_queue ++ [{ ssidIndex := apIndex, sta := state }]
    ∧ (vif_sta_update_cb apIndex state w).2.hal_cb_queue_len = w.hal_cb_queue_len + 1
    ∧ (vif_sta_update_cb apIndex state w).2.hal_cb_loop = w.hal_cb_loop
    ∧ (vif_sta_update_cb apIndex state w).2.hal_cb_registered = w.hal_cb_registered := by
  unfold vif_sta_update_cb
  have hne : ¬ (w.hal_cb_queue_len = (HAL_CB_QUEUE_MAX : Int)) := by
    rw [hinv.1]
    intro hc
    have : w.hal_cb_queue.length = HAL_CB_QUEUE_MAX := by exact_mod_cast hc
    omega
  rw [if_neg hne]
  dsimp only
  split_ifs <;> exact ⟨rfl, rfl, rfl, rfl, rfl⟩

theorem vif_sta_update_cb_ok (apIndex : Int) (state : String) (w : World σ)
    (hinv : hal_cb_queue_ok w) : hal_cb_queue_ok (vif_sta_update_cb apIndex state w).2 := by
  by_cases hfull : w.hal_cb_queue.length = HAL_CB_QUEUE_MAX
  · rw [vif_sta_update_cb_full apIndex state w hinv hfull]
    exact hinv
  · have hroom : w.hal_cb_queue.length < HAL_CB_QUEUE_MAX :=
      Nat.lt_of_le_of_ne hinv.2 hfull
    obtain ⟨_, h2, h3, _, _⟩ := vif_sta_update_cb_room apIndex state w hinv hroom
    refine ⟨?_, ?_⟩
    · rw [h3, h2, hinv.1]; simp
    · rw [h2]; simp only [List.length_append, List.length_singleton]; omega

theorem bridge_step_ok (P : Platform σ) (cfg : BuildConfig) (op : BridgeOp) (w : World σ)
    (hinv : hal_cb_queue_ok w) : hal_cb_queue_ok (bridge_step P cfg op w) := by
  cases op with
  | init =>
    simp only [bridge_step, sta_hal_init]
    split_ifs
    · exact hinv
    · exact ⟨rfl, Nat.zero_le _⟩
  | enqueue apIndex state => exact vif_sta_update_cb_ok apIndex state w hinv
  | drain =>
    obtain ⟨h1, h2, _⟩ := vif_sta_update_async_cb_loop_spec P cfg w.hal_cb_queue w rfl
    have e : bridge_step P cfg BridgeOp.drain w
        = vif_sta_update_async_cb_loop P cfg w.hal_cb_queue w := rfl
    rw [e]
    refine ⟨?_, ?_⟩
    · rw [h2, h1, hinv.1]; simp
    · rw [h1]; exact Nat.zero_le _

theorem bridge_run_ok (P : Platform σ) (cfg : BuildConfig) :
    ∀ (ops : List BridgeOp) (w : World σ), hal_cb_queue_ok w →
      hal_cb_queue_ok (bridge_run P cfg ops w) := by
  intro ops
  induction ops with
  | nil => intro w h; exact h
  | cons op rest ih => intro w h; exact ih _ (bridge_step_ok P cfg op w h)

/-- C15: when the counter equals the number of queued entries and that number
is at most 20, an enqueue on a queue of 20 entries returns an error and leaves
the world as it is; an enqueue on a shorter queue succeeds, appends the event
at the tail and adds one to the counter; and after any sequence of
initialisations, enqueues and consumer runs the counter still equals the
number of queued entries, which is at most 20. -/
theorem event_queue_drops_newest (apIndex : Int) (state : String) (w : World σ)
    (hinv : w.hal_cb_queue_len = w.hal_cb_queue.length)
    (hcap : w.hal_cb_queue.length ≤ HAL_CB_QUEUE_MAX) :
    (w.hal_cb_queue.length = 20 → vif_sta_update_cb apIndex state w = (RETURN_ERR, w))
    ∧ (w.hal_cb_queue.length < 20 →
        (vif_sta_update_cb apIndex state w).1 = RETURN_OK
        ∧ (vif_sta_update_cb apIndex state w).2.hal_cb_queue
            = w.hal_cb_queue ++ [{ ssidIndex := apIndex, sta := state }]
        ∧ (vif_sta_update_cb apIndex state w).2.hal_cb_queue_len = w.hal_cb_queue_len + 1)
    ∧ (∀ (P : Platform σ) (cfg : BuildConfig) (ops : List BridgeOp),
        (bridge_run P cfg ops w).hal_cb_queue_len = (bridge_run P cfg ops w).hal_cb_queue.length
        ∧ (bridge_run P cfg ops w).hal_cb_queue.length ≤ 20) := by
  have hok : hal_cb_queue_ok w := ⟨hinv, hcap⟩
  refine ⟨?_, ?_, ?_⟩
  · intro hfull
    exact vif_sta_update_cb_full apIndex state w hok hfull
  · intro hroom
    obtain ⟨h1, h2, h3, _, _⟩ := vif_sta_update_cb_room apIndex state w hok hroom
    exact ⟨h1, h2, h3⟩
  · intro P cfg ops
    exact bridge_run_ok P cfg ops w hok

/-- C15 at a concrete input: an enqueue on a queue of 20 entries is refused,
and 21 enqueues from the empty queue leave 20 entries. -/
theorem event_queue_drops_newest_witness :
    (vif_sta_update_cb 3 "assoc"
        ({ hal := (), hal_cb_queue := List.replicate 20 { ssidIndex := 1, sta := "e" },
           hal_cb_queue_len := 20 } : World Unit)).1 = RETURN_ERR
    ∧ (bridge_run demo_platform {} (List.replicate 21 (BridgeOp.enqueue 1 "e"))
        { hal := [] }).hal_cb_queue.length ≤ 20 := by
  have h := event_queue_drops_newest 3 "assoc"
    ({ hal := (), hal_cb_queue := List.replicate 20 { ssidIndex := 1, sta := "e" },
       hal_cb_queue_len := 20 } : World Unit) (by decide) (by decide)
  have h2 := event_queue_drops_newest 3 "assoc" ({ hal := [] } : World (List String))
    (by decide) (by decide)
  refine ⟨?_, (h2.2.2 demo_platform {} _).2⟩
  rw [h.1 (by decide)]

/-- C16: one run of the consumer leaves the queue empty and the counter lowered
by the number of entries drained (0 when it counted the entries), does not
touch the external state, and refreshes the entries whose index resolves in
the order they were queued; entries whose index does not resolve are removed
without a refresh. -/
theorem event_queue_drains_fifo (P : Platform σ) (cfg : BuildConfig) (w : World σ) :
    (vif_sta_update_async_cb P cfg w).hal_cb_queue = []
    ∧ (vif_sta_update_async_cb P cfg w).hal_cb_queue_len
        = w.hal_cb_queue_len - w.hal_cb_queue.length
    ∧ (w.hal_cb_queue_len = w.hal_cb_queue.length →
        (vif_sta_update_async_cb P cfg w).hal_cb_queue_len = 0)
    ∧ refresh_calls (vif_sta_update_async_cb P cfg w).log
        = refresh_calls w.log ++
          (w.hal_cb_queue.filter (fun cbe =>
            (ssid_index_to_vap_info P w.hal (UINT_of_INT cbe.ssidIndex)).isSome)).map
            (fun cbe => cbe.ssidIndex) := by
  obtain ⟨h1, h2, _, _, _, h6⟩ := vif_sta_update_async_cb_loop_spec P cfg w.hal_cb_queue w rfl
  refine ⟨h1, h2, ?_, h6⟩
  intro hinv
  show (vif_sta_update_async_cb_loop P cfg w.hal_cb_queue w).hal_cb_queue_len = 0
  rw [h2, hinv]
  simp

/-- C16 at a concrete input: on `demo_platform`, where only index 0 resolves,
the queue of events for 0, 9 and 0 is drained to two refreshes of 0 and an
empty queue. -/
theorem event_queue_drains_fifo_witness :
    (vif_sta_update_async_cb demo_platform {}
        { hal := [], hal_cb_queue_len := 3,
          hal_cb_queue := [{ ssidIndex := 0, sta := "a" }, { ssidIndex := 9, sta := "b" },
            { ssidIndex := 0, sta := "c" }] }).hal_cb_queue = []
    ∧ (vif_sta_update_async_cb demo_platform {}
        { hal := [], hal_cb_queue_len := 3,
          hal_cb_queue := [{ ssidIndex := 0, sta := "a" }, { ssidIndex := 9, sta := "b" },
            { ssidIndex := 0, sta := "c" }] }).hal_cb_queue_len = 0
    ∧ refresh_calls (vif_sta_update_async_cb demo_platform {}
        { hal := [], hal_cb_queue_len := 3,
          hal_cb_queue := [{ ssidIndex := 0, sta := "a" }, { ssidIndex := 9, sta := "b" },
            { ssidIndex := 0, sta := "c" }] }).log = [0, 0] := by
  have h := event_queue_drains_fifo demo_platform {}
    { hal := [], hal_cb_queue_len := 3,
      hal_cb_queue := [{ ssidIndex := 0, sta := "a" }, { ssidIndex := 9, sta := "b" },
        { ssidIndex := 0, sta := "c" }] }
  refine ⟨h.1, h.2.2.1 (by decide), ?_⟩
  rw [h.2.2.2]
  decide

/-- C17 (the code at the failing input): `sta_hal_init`, an enqueue, and
`sta_hal_init` again. The loop pointer is still `NULL` at the second call, so
the second call empties the queue, resets the counter and registers the HAL
callback a second time; and no operation on the bridge ever sets the loop
pointer, so every call of `sta_hal_init` re-initialises. -/
theorem sta_hal_init_reinitialises :
    (vif_sta_update_cb 3 "assoc" (sta_hal_init ({ hal := () } : World Unit))).2.hal_cb_queue
        = [{ ssidIndex := 3, sta := "assoc" }]
    ∧ (sta_hal_init
        (vif_sta_update_cb 3 "assoc" (sta_hal_init ({ hal := () } : World Unit))).2).hal_cb_queue
        = []
    ∧ (sta_hal_init
        (vif_sta_update_cb 3 "assoc"
          (sta_hal_init ({ hal := () } : World Unit))).2).hal_cb_queue_len = 0
    ∧ (sta_hal_init
        (vif_sta_update_cb 3 "assoc"
          (sta_hal_init ({ hal := () } : World Unit))).2).hal_cb_registered = 2
    ∧ (∀ (τ : Type) (P : Platform τ) (cfg : BuildConfig) (ops : List BridgeOp) (w : World τ),
        w.hal_cb_loop = false →
        (bridge_run P cfg ops w).hal_cb_loop = false
        ∧ (sta_hal_init (bridge_run P cfg ops w)).hal_cb_queue = []
        ∧ (sta_hal_init (bridge_run P cfg ops w)).hal_cb_registered
            = (bridge_run P cfg ops w).hal_cb_registered + 1) := by
  refine ⟨by decide, by decide, by decide, by decide, ?_⟩
  intro τ P cfg ops w hw
  have hloop : ∀ (ops : List BridgeOp) (w : World τ), w.hal_cb_loop = false →
      (bridge_run P cfg ops w).hal_cb_loop = false := by
    intro ops
    induction ops with
    | nil => intro w h; exact h
    | cons op rest ih =>
      intro w h
      refine ih _ ?_
      cases op with
      | init => simp [bridge_step, sta_hal_init, h]
      | enqueue apIndex state =>
        simp only [bridge_step, vif_sta_update_cb]
        split_ifs <;> exact h
      | drain =>
        obtain ⟨_, _, _, h4, _⟩ := vif_sta_update_async_cb_loop_spec P cfg w.hal_cb_queue w rfl
        exact h4.trans h
  have h := hloop ops w hw
  refine ⟨h, ?_, ?_⟩ <;> simp [sta_hal_init, h]

end

/-! ## State reader and HAL→Cloud translation -/

section
variable {σ : Type}

/-- The names of `map_enable_disable` by key. -/
theorem c_get_str_by_key_enable_disable (k : Int) :
    c_get_str_by_key map_enable_disable k
      = if k = 1 then "enabled" else if k = 0 then "disabled" else "" := by
  simp only [c_get_str_by_key, map_enable_disable, List.find?]
  by_cases h1 : k = 1
  · subst h1; rfl
  · have e1 : ((1 : Int) == k) = false := by
      rw [beq_eq_false_iff_ne]; exact fun h => h1 h.symm
    rw [e1, if_neg h1]
    by_cases h0 : k = 0
    · subst h0; rfl
    · have e0 : ((0 : Int) == k) = false := by
        rw [beq_eq_false_iff_ne]; exact fun h => h0 h.symm
      rw [e0, if_neg h0]

/-- A `showSsid` value has a name in `map_enable_disable` exactly when it is 0
or 1. -/
theorem showSsid_decodes (k : Int) :
    (c_get_str_by_key map_enable_disable k).length ≠ 0 ↔ (k = 0 ∨ k = 1) := by
  rw [c_get_str_by_key_enable_disable]
  by_cases h1 : k = 1
  · subst h1; decide
  · by_cases h0 : k = 0
    · subst h0; decide
    · simp [h1, h0]

/-- The access-point state read fails only with `get_channel` or with the
decode of `showSsid`: the results of `get_security` and `acl_to_state` do not
count. -/
theorem vif_ap_state_get_isSome (P : Platform σ) (cfg : BuildConfig) (s : σ)
    (ids : Int → String) (vstate : schema_Wifi_VIF_State) (vap_info : wifi_vap_info_t) :
    (vif_ap_state_get P cfg s ids vstate vap_info).isSome
      = ((get_channel P s (INT_of_UINT vap_info.vap_index) vstate).1
          && decide (vap_info.bss_info.showSsid = 0 ∨ vap_info.bss_info.showSsid = 1)) := by
  unfold vif_ap_state_get
  split
  · next h => rw [h]; rfl
  · next h =>
    rw [h]
    dsimp only
    by_cases hs : vap_info.bss_info.showSsid = 0 ∨ vap_info.bss_info.showSsid = 1
    · rw [if_neg ((showSsid_decodes _).2 hs)]
      simp [hs]
    · have hlen : (c_get_str_by_key map_enable_disable vap_info.bss_info.showSsid).length = 0 := by
        by_contra hc
        exact hs ((showSsid_decodes _).1 hc)
      rw [if_pos hlen]
      simp [hs]

end

/-- C18 (the code at the failing inputs): on `demo_platform`, for a VAP whose
security mode is a code outside the table (2) `get_security` fails, and for a
VAP whose enabled ACL filter has an unknown mode (7) `acl_to_state` fails, yet
`vif_ap_state_get` and `vif_state_get` return a state record in both cases;
in general `vif_ap_state_get` returns a record whenever `get_channel`
succeeds and `showSsid` is 0 or 1, whatever `get_security` and `acl_to_state`
return. -/
theorem state_read_ignores_translation_errors :
    (get_security demo_platform {} [] (fun _ => "") 0 demo_vap_unknown_security {}).1 = false
    ∧ (vif_ap_state_get demo_platform {} [] (fun _ => "") {}
        demo_vap_unknown_security).isSome = true
    ∧ (vif_state_get (demo_platform_with demo_vap_unknown_security) {} [] (fun _ => "")
        0).isSome = true
    ∧ (acl_to_state demo_platform {} [] demo_vap_unknown_acl_mode {}).1 = false
    ∧ (vif_ap_state_get demo_platform {} [] (fun _ => "") {}
        demo_vap_unknown_acl_mode).isSome = true
    ∧ (vif_state_get (demo_platform_with demo_vap_unknown_acl_mode) {} [] (fun _ => "")
        0).isSome = true
    ∧ (∀ (τ : Type) (P : Platform τ) (cfg : BuildConfig) (s : τ) (ids : Int → String)
        (vstate : schema_Wifi_VIF_State) (vap_info : wifi_vap_info_t),
        (get_channel P s (INT_of_UINT vap_info.vap_index) vstate).1 = true →
        (vap_info.bss_info.showSsid = 0 ∨ vap_info.bss_info.showSsid = 1) →
        (vif_ap_state_get P cfg s ids vstate vap_info).isSome = true) := by
  refine ⟨by decide, by decide, by decide, by decide, by decide, by decide, ?_⟩
  intro τ P cfg s ids vstate vap_info h hs
  rw [vif_ap_state_get_isSome, h]
  simp [hs]

/-- C19: `security_key_mgmt_hal_to_ovsdb` returns `true` for each of the six
modes WPA-personal, WPA/WPA2-mixed, WPA2-personal, WPA2-enterprise,
WPA3-transition and WPA3-personal, and for every other mode code (none
included) it returns `false` and leaves both records as they were. -/
theorem hal_to_ovsdb_succeeds_exactly_for_six (mode : wifi_security_modes_t)
    (vstate : Option schema_Wifi_VIF_State) (vconfig : Option schema_Wifi_VIF_Config) :
    (mode ∈ [wifi_security_mode_wpa_personal, wifi_security_mode_wpa_wpa2_personal,
        wifi_security_mode_wpa2_personal, wifi_security_mode_wpa2_enterprise,
        wifi_security_mode_wpa3_transition, wifi_security_mode_wpa3_personal] →
      (security_key_mgmt_hal_to_ovsdb mode vstate vconfig).1 = true)
    ∧ (mode ∉ [wifi_security_mode_wpa_personal, wifi_security_mode_wpa_wpa2_personal,
        wifi_security_mode_wpa2_personal, wifi_security_mode_wpa2_enterprise,
        wifi_security_mode_wpa3_transition, wifi_security_mode_wpa3_personal] →
      security_key_mgmt_hal_to_ovsdb mode vstate vconfig = (false, vstate, vconfig)) := by
  cases mode <;>
    simp [security_key_mgmt_hal_to_ovsdb, security_mode_map_scan, security_mode_map,
      key_mgmt_of_mode]

/-- C20: into non-absent records, the HAL→Cloud translation of WPA3-transition
appends exactly the two entries "wpa-psk" and "sae", in this order; that of
WPA-personal, WPA2-personal and WPA/WPA2-mixed appends exactly "wpa-psk", that
of WPA2-enterprise exactly "wpa-eap" and that of WPA3-personal exactly "sae";
and for mode none the state reader leaves the key-management list as it was. -/
theorem hal_to_ovsdb_key_mgmt_entries (vstate : schema_Wifi_VIF_State)
    (vconfig : schema_Wifi_VIF_Config) :
    (∀ (mode : wifi_security_modes_t) (entries : List String),
        (mode, entries) ∈
          [(wifi_security_mode_wpa3_transition, ["wpa-psk", "sae"]),
           (wifi_security_mode_wpa_personal, ["wpa-psk"]),
           (wifi_security_mode_wpa2_personal, ["wpa-psk"]),
           (wifi_security_mode_wpa_wpa2_personal, ["wpa-psk"]),
           (wifi_security_mode_wpa2_enterprise, ["wpa-eap"]),
           (wifi_security_mode_wpa3_personal, ["sae"])] →
        (security_key_mgmt_hal_to_ovsdb mode (some vstate) (some vconfig)).1 = true
        ∧ (security_key_mgmt_hal_to_ovsdb mode (some vstate) (some vconfig)).2.1.map
            (fun r => r.wpa_key_mgmt) = some (vstate.wpa_key_mgmt ++ entries)
        ∧ (security_key_mgmt_hal_to_ovsdb mode (some vstate) (some vconfig)).2.2.map
            (fun r => r.wpa_key_mgmt) = some (vconfig.wpa_key_mgmt ++ entries))
    ∧ (∀ (τ : Type) (P : Platform τ) (cfg : BuildConfig) (s : τ) (ids : Int → String)
        (ssidIndex : Int) (vap_info : wifi_vap_info_t),
        vap_info.bss_info.security_mode = wifi_security_mode_none →
        (get_security P cfg s ids ssidIndex vap_info vstate).1 = true
        ∧ (get_security P cfg s ids ssidIndex vap_info vstate).2.wpa_key_mgmt
            = vstate.wpa_key_mgmt) := by
  constructor
  · intro mode entries hm
    simp only [List.mem_cons, Prod.mk.injEq, List.mem_singleton, List.not_mem_nil, or_false] at hm
    rcases hm with ⟨rfl, rfl⟩ | ⟨rfl, rfl⟩ | ⟨rfl, rfl⟩ | ⟨rfl, rfl⟩ | ⟨rfl, rfl⟩ | ⟨rfl, rfl⟩ <;>
      exact ⟨rfl, rfl, rfl⟩
  · intro τ P cfg s ids ssidIndex vap_info hmode
    unfold get_security
    simp only [hmode, if_true]
    cases vap_info.bss_info.security_mfp <;> simp

/-! ## Key-management matching and the legacy sync string -/

theorem starts_with_iff : ∀ (h n : List Char), starts_with h n = true ↔ n <+: h := by
  intro h n
  induction n generalizing h with
  | nil => simp [starts_with]
  | cons b bs ih =>
    cases h with
    | nil => simp [starts_with]
    | cons a as =>
      simp only [starts_with, Bool.and_eq_true, beq_iff_eq, ih, List.cons_prefix_cons]
      exact ⟨fun h => ⟨h.1.symm, h.2⟩, fun h => ⟨h.1.symm, h.2⟩⟩

/-- The search of `strstr` finds the needle exactly when the needle is a
contiguous part of the haystack. -/
theorem strstr_chars_iff : ∀ (h n : List Char), strstr_chars h n = true ↔ n <:+: h := by
  intro h n
  induction h with
  | nil =>
    simp only [strstr_chars, starts_with_iff, List.prefix_nil, List.infix_nil]
  | cons a as ih =>
    simp only [strstr_chars, Bool.or_eq_true, starts_with_iff, ih, List.infix_cons_iff]

/-- The Cloud→HAL translation never fails: the empty name matches every
config, so its last branch is not reached. -/
theorem security_key_mgmt_ovsdb_to_hal_isSome (vconf : schema_Wifi_VIF_Config) :
    ∃ mode, security_key_mgmt_ovsdb_to_hal vconf = some mode := by
  unfold security_key_mgmt_ovsdb_to_hal
  rw [security_wpa_key_mgmt_match_none]
  split_ifs <;> first | exact ⟨_, rfl⟩ | contradiction

theorem security_key_mgmt_ovsdb_to_hal_psk_sae (vconf : schema_Wifi_VIF_Config)
    (hp : security_wpa_key_mgmt_match vconf "wpa-psk" = true)
    (hs : security_wpa_key_mgmt_match vconf "sae" = true) :
    security_key_mgmt_ovsdb_to_hal vconf = some wifi_security_mode_wpa3_transition := by
  unfold security_key_mgmt_ovsdb_to_hal
  simp [OVSDB_SECURITY_KEY_MGMT_WPA_PSK, OVSDB_SECURITY_KEY_MGMT_SAE, hp, hs]

theorem security_key_mgmt_ovsdb_to_hal_sae_only (vconf : schema_Wifi_VIF_Config)
    (hs : security_wpa_key_mgmt_match vconf "sae" = true)
    (hp : security_wpa_key_mgmt_match vconf "wpa-psk" = false) :
    security_key_mgmt_ovsdb_to_hal vconf = some wifi_security_mode_wpa3_personal := by
  unfold security_key_mgmt_ovsdb_to_hal
  simp [OVSDB_SECURITY_KEY_MGMT_WPA_PSK, OVSDB_SECURITY_KEY_MGMT_SAE, hp, hs]

theorem security_key_mgmt_ovsdb_to_hal_no_sae (vconf : schema_Wifi_VIF_Config)
    (hs : security_wpa_key_mgmt_match vconf "sae" = false) :
    security_key_mgmt_ovsdb_to_hal vconf ≠ some wifi_security_mode_wpa3_personal := by
  unfold security_key_mgmt_ovsdb_to_hal
  simp only [OVSDB_SECURITY_KEY_MGMT_SAE, hs, Bool.and_false, Bool.false_eq_true, if_false]
  split_ifs <;> simp

theorem security_key_mgmt_ovsdb_to_sync_no_psk (vconf : schema_Wifi_VIF_Config)
    (hp : security_wpa_key_mgmt_match vconf "wpa-psk" = false) :
    security_key_mgmt_ovsdb_to_sync vconf = none := by
  unfold security_key_mgmt_ovsdb_to_sync
  simp [OVSDB_SECURITY_KEY_MGMT_WPA_PSK, hp]

/-- C29: for every desired config `security_key_mgmt_ovsdb_to_sync` does not
return "WPA3-Sae"; it returns a mode string only when the key-management list
matches "wpa-psk"; a list matching both "wpa-psk" and "sae" translates to
WPA3-transition, with the sync string "WPA3-Personal-Transition"; and a list
matching "sae" but not "wpa-psk" (such as the SAE-only list) is accepted by
the Cloud→HAL translation as WPA3-personal and has no sync string. -/
theorem sync_string_never_wpa3_sae (vconf : schema_Wifi_VIF_Config) :
    security_key_mgmt_ovsdb_to_sync vconf ≠ some "WPA3-Sae"
    ∧ ((security_key_mgmt_ovsdb_to_sync vconf).isSome = true →
        security_wpa_key_mgmt_match vconf "wpa-psk" = true)
    ∧ (security_wpa_key_mgmt_match vconf "wpa-psk" = true →
        security_wpa_key_mgmt_match vconf "sae" = true →
        security_key_mgmt_ovsdb_to_hal vconf = some wifi_security_mode_wpa3_transition
        ∧ security_key_mgmt_ovsdb_to_sync vconf = some "WPA3-Personal-Transition")
    ∧ (security_wpa_key_mgmt_match vconf "sae" = true →
        security_wpa_key_mgmt_match vconf "wpa-psk" = false →
        security_key_mgmt_ovsdb_to_hal vconf = some wifi_security_mode_wpa3_personal
        ∧ security_key_mgmt_ovsdb_to_sync vconf = none)
    ∧ security_key_mgmt_ovsdb_to_hal { wpa_key_mgmt := ["sae"] }
        = some wifi_security_mode_wpa3_personal
    ∧ security_key_mgmt_ovsdb_to_sync { wpa_key_mgmt := ["sae"] } = none := by
  have htrans : security_wpa_key_mgmt_match vconf "wpa-psk" = true →
      security_wpa_key_mgmt_match vconf "sae" = true →
      security_key_mgmt_ovsdb_to_sync vconf = some "WPA3-Personal-Transition" := by
    intro hp hs
    unfold security_key_mgmt_ovsdb_to_sync
    rw [security_key_mgmt_ovsdb_to_hal_psk_sae vconf hp hs]
    simp [OVSDB_SECURITY_KEY_MGMT_WPA_PSK, hp, RDK_SECURITY_KEY_MGMT_WPA3_TRANSITION]
  refine ⟨?_, ?_, ?_, ?_, by decide, by decide⟩
  · cases hp : security_wpa_key_mgmt_match vconf "wpa-psk" with
    | false => rw [security_key_mgmt_ovsdb_to_sync_no_psk vconf hp]; simp
    | true =>
      cases hs : security_wpa_key_mgmt_match vconf "sae" with
      | true => rw [htrans hp hs]; decide
      | false =>
        have hne := security_key_mgmt_ovsdb_to_hal_no_sae vconf hs
        unfold security_key_mgmt_ovsdb_to_sync
        rw [if_pos (by exact hp)]
        cases hm : security_key_mgmt_ovsdb_to_hal vconf with
        | none => simp
        | some mode =>
          rw [hm] at hne
          cases mode <;> first | exact absurd rfl hne | (simp only []; decide)
  · intro h
    cases hp : security_wpa_key_mgmt_match vconf "wpa-psk" with
    | true => rfl
    | false => rw [security_key_mgmt_ovsdb_to_sync_no_psk vconf hp] at h; simp at h
  · intro hp hs
    exact ⟨security_key_mgmt_ovsdb_to_hal_psk_sae vconf hp hs, htrans hp hs⟩
  · intro hs hp
    exact ⟨security_key_mgmt_ovsdb_to_hal_sae_only vconf hs hp,
      security_key_mgmt_ovsdb_to_sync_no_psk vconf hp⟩

/-- C30: for every desired config and every non-empty key-management name `k`,
`security_wpa_key_mgmt_match` holds exactly when `k` occurs as a contiguous
part of some entry of the key-management list; so the list whose only entry
is "ft-sae" translates to WPA3-personal, and the list whose only entry is
"wpa-psk-sha256" matches "wpa-psk" and translates as a PSK list (to
WPA2-personal with the RSN CCMP cipher). -/
theorem key_mgmt_match_is_substring_test (vconf : schema_Wifi_VIF_Config) (k : String)
    (hk : k ≠ "") :
    (security_wpa_key_mgmt_match vconf k = true
        ↔ ∃ entry ∈ vconf.wpa_key_mgmt, k.data <:+: entry.data)
    ∧ security_key_mgmt_ovsdb_to_hal { wpa_key_mgmt := ["ft-sae"] }
        = some wifi_security_mode_wpa3_personal
    ∧ security_wpa_key_mgmt_match { wpa_key_mgmt := ["wpa-psk-sha256"] } "wpa-psk" = true
    ∧ security_key_mgmt_ovsdb_to_hal
        { wpa_key_mgmt := ["wpa-psk-sha256"], rsn_pairwise_ccmp := true }
        = some wifi_security_mode_wpa2_personal := by
  refine ⟨?_, by decide, by decide, by decide⟩
  unfold security_wpa_key_mgmt_match
  rw [if_neg (fun hc => hk hc.2)]
  simp only [List.any_eq_true, strstr, strstr_chars_iff]

/-- C30 at a concrete input: "sae" matches the list ["wpa-eap", "ft-sae"]
because it occurs inside the entry "ft-sae". -/
theorem key_mgmt_match_is_substring_test_witness :
    "sae" ≠ ""
    ∧ (security_wpa_key_mgmt_match { wpa_key_mgmt := ["wpa-eap", "ft-sae"] } "sae" = true
      ↔ ∃ entry ∈ ["wpa-eap", "ft-sae"], "sae".data <:+: entry.data)
    ∧ security_wpa_key_mgmt_match { wpa_key_mgmt := ["wpa-eap", "ft-sae"] } "sae" = true :=
  ⟨by decide,
    (key_mgmt_match_is_substring_test { wpa_key_mgmt := ["wpa-eap", "ft-sae"] } "sae"
      (by decide)).1,
    by decide⟩

/-! ## Security group of the config writer: PMF -/

section
variable {σ : Type}

theorem set_password_vap_info (P : Platform σ) (cfg : BuildConfig) (ssid_index : Int)
    (vconf : schema_Wifi_VIF_Config) (vap_info : wifi_vap_info_t) (w : World σ) :
    (set_password P cfg ssid_index vconf vap_info w).2.1
      = { vap_info with bss_info :=
          { vap_info.bss_info with security_key := (vconf.wpa_psks.headD ("", "")).2 } } := by
  unfold set_password
  dsimp only
  split_ifs <;> rfl

/-- The pre-shared-key block writes at most the key slot of the descriptor. -/
theorem set_security_psks_vap_info (P : Platform σ) (cfg : BuildConfig) (ssid_index : Int)
    (vconf : schema_Wifi_VIF_Config) (changed : schema_Wifi_VIF_Config_flags)
    (send_sync trigger_reconfig : Bool) (vap_info : wifi_vap_info_t) (w : World σ) :
    (set_security_psks P cfg ssid_index vconf changed send_sync trigger_reconfig vap_info w).2.1
      = if (changed.wpa_psks && decide (vconf.wpa_psks.length ≥ 1)) = true then
          { vap_info with bss_info :=
            { vap_info.bss_info with security_key := (vconf.wpa_psks.headD ("", "")).2 } }
        else vap_info := by
  unfold set_security_psks
  split_ifs with h
  · have hv := set_password_vap_info P cfg ssid_index vconf vap_info w
    split
    · next h1 => rw [h1] at hv; exact hv
    · next h1 => rw [h1] at hv; exact hv
  · rfl

theorem set_security_psks_trigger (P : Platform σ) (cfg : BuildConfig) (ssid_index : Int)
    (vconf : schema_Wifi_VIF_Config) (changed : schema_Wifi_VIF_Config_flags)
    (send_sync : Bool) (vap_info : wifi_vap_info_t) (w : World σ) :
    (set_security_psks P cfg ssid_index vconf changed send_sync true vap_info w).1 = true := by
  unfold set_security_psks
  split_ifs
  · split <;> rfl
  · rfl

/-- The security group of `set_security`: when the update is no WPA-disable
and one of the six group flags is set, the accumulator is set and the mode and
the PMF setting of the descriptor are overwritten. -/
theorem set_security_group (P : Platform σ) (cfg : BuildConfig) (ssid_index : Int)
    (vconf : schema_Wifi_VIF_Config) (changed : schema_Wifi_VIF_Config_flags)
    (trigger_reconfig : Bool) (vap_info : wifi_vap_info_t) (w : World σ)
    (hdis : ¬ (changed.wpa = true ∧ vconf.wpa = false))
    (hgrp : (changed.wpa_key_mgmt || changed.wpa_pairwise_tkip || changed.wpa_pairwise_ccmp ||
      changed.rsn_pairwise_tkip || changed.rsn_pairwise_ccmp || changed.pmf) = true) :
    (set_security P cfg ssid_index vconf changed trigger_reconfig vap_info w).1 = true
    ∧ (set_security P cfg ssid_index vconf changed trigger_reconfig vap_info
        w).2.1.bss_info.security_mfp = pmf_to_mfp vconf.pmf
    ∧ some (set_security P cfg ssid_index vconf changed trigger_reconfig vap_info
        w).2.1.bss_info.security_mode = security_key_mgmt_ovsdb_to_hal vconf := by
  obtain ⟨mode, hmode⟩ := security_key_mgmt_ovsdb_to_hal_isSome vconf
  unfold set_security
  have h1 : ¬ ((changed.wpa && vconf.wpa == false) = true) := by
    intro hc
    simp only [Bool.and_eq_true, beq_iff_eq] at hc
    exact hdis hc
  rw [if_neg h1, if_pos hgrp, hmode]
  dsimp only
  refine ⟨set_security_psks_trigger .., ?_, ?_⟩
  · rw [set_security_psks_vap_info]
    split_ifs <;> rfl
  · rw [set_security_psks_vap_info]
    split_ifs <;> rfl

/-- A PMF code that is neither optional nor required is read like disabled. -/
theorem get_security_unknown_mfp (P : Platform σ) (cfg : BuildConfig) (s : σ)
    (ids : Int → String) (ssidIndex : Int) (vap_info : wifi_vap_info_t)
    (vstate : schema_Wifi_VIF_State)
    (h1 : vap_info.bss_info.security_mfp ≠ wifi_mfp_cfg_optional)
    (h2 : vap_info.bss_info.security_mfp ≠ wifi_mfp_cfg_required) :
    get_security P cfg s ids ssidIndex vap_info vstate
      = get_security P cfg s ids ssidIndex
          { vap_info with bss_info :=
            { vap_info.bss_info with security_mfp := wifi_mfp_cfg_disabled } } vstate := by
  rcases vap_info with ⟨_, _, _, _, _, ⟨_, _, _, _, _, mfp, _, _, _, _, _, _, _, _, _⟩, _⟩
  cases mfp with
  | wifi_mfp_cfg_disabled => rfl
  | wifi_mfp_cfg_optional => exact absurd rfl h1
  | wifi_mfp_cfg_required => exact absurd rfl h2
  | other code => rfl

/-- The `pmf` field `get_security` leaves in the state record. -/
theorem get_security_pmf (P : Platform σ) (cfg : BuildConfig) (s : σ)
    (ids : Int → String) (ssidIndex : Int) (vap_info : wifi_vap_info_t)
    (vstate : schema_Wifi_VIF_State) :
    (get_security P cfg s ids ssidIndex vap_info vstate).2.pmf
      = some (match vap_info.bss_info.security_mfp with
          | wifi_mfp_cfg_optional => "optional"
          | wifi_mfp_cfg_required => "required"
          | _ => "disabled") := by
  unfold get_security
  dsimp only
  have key : ∀ (v : schema_Wifi_VIF_State) (x : String), v.pmf = some x →
      (if vap_info.bss_info.security_mode = wifi_security_mode_none then
          (true, { v with wpa := some false })
        else
          match security_key_mgmt_hal_to_ovsdb vap_info.bss_info.security_mode
              (some { v with wpa := some true }) none with
          | (true, some vstate2, _) =>
            if vap_info.bss_info.security_mode = wifi_security_mode_wpa2_enterprise then
              get_enterprise_credentials vap_info.bss_info.security_radius vstate2
            else
              get_psks P cfg s ids ssidIndex vap_info.bss_info.security_key vstate2
          | (_, vstate2, _) => (false, vstate2.getD { v with wpa := some true })).2.pmf
        = some x := by
    intro v x hv
    cases hm : vap_info.bss_info.security_mode <;>
      simp [security_key_mgmt_hal_to_ovsdb, security_mode_map_scan, security_mode_map,
        key_mgmt_of_mode, get_psks, get_enterprise_credentials, set_pairwise_state,
        state_key_mgmt_append, hv] <;>
      (try split_ifs) <;> (try split) <;> simp [hv]
  cases hp : vap_info.bss_info.security_mfp <;> exact key _ _ rfl

/-- C21 (amended): an unknown PMF value is mapped to disabled in both
directions and is no error. Whenever `set_security` applies the security group
(the update is no WPA-disable and the key-management list, a pairwise-cipher
flag or the pmf field is flagged as changed), a desired PMF string other than
"optional" and "required" sets the PMF setting of the descriptor to disabled
and sets the reconfigure-needed accumulator; and `get_security` on a HAL PMF
code other than optional and required returns exactly what it returns on the
code disabled, with "disabled" in the state record. -/
theorem pmf_unknown_maps_to_disabled (P : Platform σ) (cfg : BuildConfig) (ssid_index : Int)
    (vconf : schema_Wifi_VIF_Config) (changed : schema_Wifi_VIF_Config_flags)
    (trigger_reconfig : Bool) (vap_info : wifi_vap_info_t) (w : World σ)
    (ids : Int → String) (vstate : schema_Wifi_VIF_State) :
    (¬ (changed.wpa = true ∧ vconf.wpa = false) →
      (changed.wpa_key_mgmt = true ∨ changed.wpa_pairwise_tkip = true
        ∨ changed.wpa_pairwise_ccmp = true ∨ changed.rsn_pairwise_tkip = true
        ∨ changed.rsn_pairwise_ccmp = true ∨ changed.pmf = true) →
      vconf.pmf ≠ "optional" → vconf.pmf ≠ "required" →
      (set_security P cfg ssid_index vconf changed trigger_reconfig vap_info w).1 = true
      ∧ (set_security P cfg ssid_index vconf changed trigger_reconfig vap_info
          w).2.1.bss_info.security_mfp = wifi_mfp_cfg_disabled)
    ∧ (vap_info.bss_info.security_mfp ≠ wifi_mfp_cfg_optional →
      vap_info.bss_info.security_mfp ≠ wifi_mfp_cfg_required →
      get_security P cfg w.hal ids ssid_index vap_info vstate
        = get_security P cfg w.hal ids ssid_index
            { vap_info with bss_info :=
              { vap_info.bss_info with security_mfp := wifi_mfp_cfg_disabled } } vstate
      ∧ (get_security P cfg w.hal ids ssid_index vap_info vstate).2.pmf = some "disabled") := by
  constructor
  · intro hdis hgrp ho hr
    have hg : (changed.wpa_key_mgmt || changed.wpa_pairwise_tkip || changed.wpa_pairwise_ccmp ||
        changed.rsn_pairwise_tkip || changed.rsn_pairwise_ccmp || changed.pmf) = true := by
      rcases hgrp with h | h | h | h | h | h <;> simp [h]
    obtain ⟨h1, h2, _⟩ :=
      set_security_group P cfg ssid_index vconf changed trigger_reconfig vap_info w hdis hg
    refine ⟨h1, ?_⟩
    rw [h2]
    simp [pmf_to_mfp, OVSDB_SECURITY_PMF_OPTIONAL, OVSDB_SECURITY_PMF_REQUIRED, ho, hr]
  · intro h1 h2
    refine ⟨get_security_unknown_mfp P cfg w.hal ids ssid_index vap_info vstate h1 h2, ?_⟩
    rw [get_security_pmf]
    cases hm : vap_info.bss_info.security_mfp with
    | wifi_mfp_cfg_disabled => rfl
    | wifi_mfp_cfg_optional => exact absurd hm h1
    | wifi_mfp_cfg_required => exact absurd hm h2
    | other code => rfl

/-- C28: in `set_security`, whenever the update is no WPA-disable and the
key-management list or one of the four pairwise-cipher flags is flagged as
changed, the PMF setting of the descriptor is overwritten with the decoding of
the desired pmf string ("optional" gives optional, "required" gives required,
every other string, the empty one of an absent value included, gives
disabled), whether or not the pmf field is flagged. -/
theorem pmf_rewritten_by_other_security_fields (P : Platform σ) (cfg : BuildConfig)
    (ssid_index : Int) (vconf : schema_Wifi_VIF_Config) (changed : schema_Wifi_VIF_Config_flags)
    (trigger_reconfig : Bool) (vap_info : wifi_vap_info_t) (w : World σ)
    (hdis : ¬ (changed.wpa = true ∧ vconf.wpa = false))
    (hgrp : changed.wpa_key_mgmt = true ∨ changed.wpa_pairwise_tkip = true
      ∨ changed.wpa_pairwise_ccmp = true ∨ changed.rsn_pairwise_tkip = true
      ∨ changed.rsn_pairwise_ccmp = true) :
    (set_security P cfg ssid_index vconf changed trigger_reconfig vap_info
        w).2.1.bss_info.security_mfp
      = (if vconf.pmf = "optional" then wifi_mfp_cfg_optional
         else if vconf.pmf = "required" then wifi_mfp_cfg_required
         else wifi_mfp_cfg_disabled) := by
  have hg : (changed.wpa_key_mgmt || changed.wpa_pairwise_tkip || changed.wpa_pairwise_ccmp ||
      changed.rsn_pairwise_tkip || changed.rsn_pairwise_ccmp || changed.pmf) = true := by
    rcases hgrp with h | h | h | h | h <;> simp [h]
  exact (set_security_group P cfg ssid_index vconf changed trigger_reconfig vap_info w hdis hg).2.1

end

/-- C21 as stated fails: on `demo_platform`, applying the unknown PMF string
"bogus" with the pmf field flagged to a descriptor with PMF required sets the
accumulator and changes the PMF setting to disabled, and the call pushes the
descriptor with PMF disabled and succeeds; and reading the PMF code 9 succeeds
and reports "disabled". -/
theorem pmf_unknown_is_silently_disabled :
    demo_vap_pmf_required.bss_info.security_mfp = wifi_mfp_cfg_required
    ∧ (set_security demo_platform {} 0 { if_name := "wl0", pmf := "bogus" } { pmf := true }
        false demo_vap_pmf_required { hal := [] }).1 = true
    ∧ (set_security demo_platform {} 0 { if_name := "wl0", pmf := "bogus" } { pmf := true }
        false demo_vap_pmf_required { hal := [] }).2.1.bss_info.security_mfp
        = wifi_mfp_cfg_disabled
    ∧ (target_vif_config_set2 (demo_platform_with demo_vap_pmf_required) {}
        { if_name := "wl0", pmf := "bogus" } {} { pmf := true } { hal := [] }).1 = true
    ∧ (createVAP_calls (target_vif_config_set2 (demo_platform_with demo_vap_pmf_required) {}
        { if_name := "wl0", pmf := "bogus" } {} { pmf := true } { hal := [] }).2.log).map
          (fun c => c.2.map (fun v => v.bss_info.security_mfp))
        = [[wifi_mfp_cfg_disabled]]
    ∧ (get_security demo_platform {} [] (fun _ => "") 0 demo_vap_unknown_mfp {}).1 = true
    ∧ (get_security demo_platform {} [] (fun _ => "") 0 demo_vap_unknown_mfp {}).2.pmf
        = some "disabled"
    ∧ (vif_state_get (demo_platform_with demo_vap_unknown_mfp) {} [] (fun _ => "") 0).map
          (fun st => st.pmf) = some (some "disabled") := by
  decide

/-- C28 at a concrete input: on `demo_platform`, with only the key-management
list flagged and no pmf value in the desired record, the PMF setting of the
descriptor goes from required to disabled. -/
theorem pmf_rewritten_by_other_security_fields_witness :
    demo_vap_pmf_required.bss_info.security_mfp = wifi_mfp_cfg_required
    ∧ (set_security demo_platform {} 0
        { if_name := "wl0", wpa_key_mgmt := ["wpa-psk"], rsn_pairwise_ccmp := true }
        { wpa_key_mgmt := true } false demo_vap_pmf_required
        { hal := [] }).2.1.bss_info.security_mfp = wifi_mfp_cfg_disabled := by
  have h := pmf_rewritten_by_other_security_fields demo_platform {} 0
    { if_name := "wl0", wpa_key_mgmt := ["wpa-psk"], rsn_pairwise_ccmp := true }
    { wpa_key_mgmt := true } false demo_vap_pmf_required { hal := [] } (by decide)
    (Or.inl rfl)
  refine ⟨rfl, ?_⟩
  rw [h]
  decide

/-! ## Multicast-to-unicast gating -/

section
variable {σ : Type}

/-- The fields after the SSID broadcast option with the `mcast2ucast` flag
set, in terms of the same fields with the flag cleared. -/
theorem vif_ap_config_tail_mcast2ucast (P : Platform σ) (cfg : BuildConfig) (ssid_index : Int)
    (vconf : schema_Wifi_VIF_Config) (changed : schema_Wifi_VIF_Config_flags)
    (t : Bool) (vap_info : wifi_vap_info_t) (w : World σ)
    (hch : changed.mcast2ucast = true)
    (r : Bool × wifi_vap_info_t × World σ)
    (hr : vif_ap_config_tail P cfg ssid_index vconf { changed with mcast2ucast := false } t
      vap_info w = r) :
    vif_ap_config_tail P cfg ssid_index vconf changed t vap_info w
      = match get_mcast2ucast_supported P r.2.2.hal (INT_of_UINT r.2.1.radio_index) with
        | none => r
        | some supported =>
          if (!supported && vconf.mcast2ucast) = true then r
          else
            (true,
              { r.2.1 with bss_info := { r.2.1.bss_info with mcast2ucast := vconf.mcast2ucast } },
              r.2.2) := by
  subst hr
  have hoff : vif_ap_config_tail P cfg ssid_index vconf { changed with mcast2ucast := false } t
      vap_info w
      = acl_apply P cfg ssid_index vconf changed
          (if changed.bridge then true else if changed.ssid then true else t)
          (if changed.bridge then
            { (if changed.ssid then
                { vap_info with bss_info := { vap_info.bss_info with ssid := vconf.ssid } }
              else vap_info) with bridge_name := vconf.bridge }
           else (if changed.ssid then
                { vap_info with bss_info := { vap_info.bss_info with ssid := vconf.ssid } }
              else vap_info))
          (if changed.ssid && !cfg.RDK_DISABLE_SYNC then
            w.emit (Effect.sync_send_ssid_change ssid_index vconf.if_name vconf.ssid)
          else w) := rfl
  rw [hoff]
  unfold vif_ap_config_tail
  simp only [hch, if_true]

/-- The field application with the `mcast2ucast` flag set, in terms of the
application `off` with the flag cleared: the value is written when the
capability query succeeds and the feature is supported or the value is false,
and the application is `off` otherwise. -/
theorem vif_ap_config_apply_mcast2ucast (P : Platform σ) (cfg : BuildConfig)
    (ssid_index : Int) (vconf : schema_Wifi_VIF_Config) (changed : schema_Wifi_VIF_Config_flags)
    (vap_info : wifi_vap_info_t) (w : World σ)
    (off : ap_config_result σ)
    (hch : changed.mcast2ucast = true)
    (hoff : vif_ap_config_apply P cfg ssid_index vconf { changed with mcast2ucast := false }
      vap_info w = off)
    (hab : off.aborted = false) :
    (∀ supported : Bool,
        get_mcast2ucast_supported P off.world.hal (INT_of_UINT off.vap_info.radio_index)
          = some supported →
        (supported = true ∨ vconf.mcast2ucast = false) →
        vif_ap_config_apply P cfg ssid_index vconf changed vap_info w
          = { off with
              trigger_reconfig := true
              vap_info := { off.vap_info with bss_info :=
                { off.vap_info.bss_info with mcast2ucast := vconf.mcast2ucast } } })
    ∧ (get_mcast2ucast_supported P off.world.hal (INT_of_UINT off.vap_info.radio_index) = none →
        vif_ap_config_apply P cfg ssid_index vconf changed vap_info w = off)
    ∧ (get_mcast2ucast_supported P off.world.hal (INT_of_UINT off.vap_info.radio_index)
          = some false →
        vconf.mcast2ucast = true →
        vif_ap_config_apply P cfg ssid_index vconf changed vap_info w = off) := by
  subst hoff
  have hhead : vif_ap_config_head P cfg ssid_index vconf { changed with mcast2ucast := false }
      vap_info w = vif_ap_config_head P cfg ssid_index vconf changed vap_info w := rfl
  have key : ∀ (t : Bool) (v : wifi_vap_info_t) (w0 : World σ),
      let r := vif_ap_config_tail P cfg ssid_index vconf { changed with mcast2ucast := false } t
        v w0
      let r_on := vif_ap_config_tail P cfg ssid_index vconf changed t v w0
      (∀ supported : Bool,
        get_mcast2ucast_supported P r.2.2.hal (INT_of_UINT r.2.1.radio_index) = some supported →
        (supported = true ∨ vconf.mcast2ucast = false) →
        r_on = (true,
          { r.2.1 with bss_info := { r.2.1.bss_info with mcast2ucast := vconf.mcast2ucast } },
          r.2.2))
      ∧ (get_mcast2ucast_supported P r.2.2.hal (INT_of_UINT r.2.1.radio_index) = none → r_on = r)
      ∧ (get_mcast2ucast_supported P r.2.2.hal (INT_of_UINT r.2.1.radio_index) = some false →
          vconf.mcast2ucast = true → r_on = r) := by
    intro t v w0 r r_on
    have hon : r_on = _ := vif_ap_config_tail_mcast2ucast P cfg ssid_index vconf changed t v w0
      hch r rfl
    refine ⟨?_, ?_, ?_⟩
    · intro supported hq hs
      rw [hon, hq]
      rcases hs with h | h <;> simp [h]
    · intro hq
      rw [hon, hq]
    · intro hq hm
      rw [hon, hq]
      simp [hm]
  have hform : ∃ (t : Bool) (v : wifi_vap_info_t) (w0 : World σ),
      vif_ap_config_apply P cfg ssid_index vconf changed vap_info w
        = { aborted := false
            trigger_reconfig := (vif_ap_config_tail P cfg ssid_index vconf changed t v w0).1
            vap_info := (vif_ap_config_tail P cfg ssid_index vconf changed t v w0).2.1
            world := (vif_ap_config_tail P cfg ssid_index vconf changed t v w0).2.2 }
      ∧ vif_ap_config_apply P cfg ssid_index vconf { changed with mcast2ucast := false }
          vap_info w
        = { aborted := false
            trigger_reconfig := (vif_ap_config_tail P cfg ssid_index vconf
              { changed with mcast2ucast := false } t v w0).1
            vap_info := (vif_ap_config_tail P cfg ssid_index vconf
              { changed with mcast2ucast := false } t v w0).2.1
            world := (vif_ap_config_tail P cfg ssid_index vconf
              { changed with mcast2ucast := false } t v w0).2.2 } := by
    by_cases hb : changed.ssid_broadcast = true
    · cases hc : c_get_item_by_str map_enable_disable vconf.ssid_broadcast with
      | none =>
        exfalso
        revert hab
        unfold vif_ap_config_apply
        simp [hb, hc]
      | some citem =>
        refine ⟨true,
          { (vif_ap_config_head P cfg ssid_index vconf changed vap_info w).2.1 with bss_info :=
            { (vif_ap_config_head P cfg ssid_index vconf changed vap_info w).2.1.bss_info with
              showSsid := citem.1 } },
          if !cfg.RDK_DISABLE_SYNC then
            (vif_ap_config_head P cfg ssid_index vconf changed vap_info w).2.2.emit
              (Effect.sync_send_ssid_broadcast_change ssid_index citem.1)
          else (vif_ap_config_head P cfg ssid_index vconf changed vap_info w).2.2, ?_, ?_⟩
        · unfold vif_ap_config_apply
          simp only [hb, hc, if_true]
        · unfold vif_ap_config_apply
          simp only [hhead, hb, hc, if_true]
          all_goals rfl
    · refine ⟨(vif_ap_config_head P cfg ssid_index vconf changed vap_info w).1,
        (vif_ap_config_head P cfg ssid_index vconf changed vap_info w).2.1,
        (vif_ap_config_head P cfg ssid_index vconf changed vap_info w).2.2, ?_, ?_⟩
      · unfold vif_ap_config_apply
        simp only [hb, Bool.false_eq_true, if_false]
      · unfold vif_ap_config_apply
        simp only [hhead, hb, Bool.false_eq_true, if_false]
        all_goals rfl
  obtain ⟨t, v, w0, h_on, h_off⟩ := hform
  obtain ⟨k1, k2, k3⟩ := key t v w0
  rw [h_on, h_off]
  refine ⟨fun supported hq hs => ?_, fun hq => ?_, fun hq hm => ?_⟩
  · rw [k1 supported hq hs]
  · rw [k2 hq]
  · rw [k3 hq hm]

/-- C22 (amended): in `target_vif_config_set2` on a resolvable access-point
interface with `mcast2ucast` flagged as changed, let `off` be the field
application with that flag cleared, not stopped at the SSID broadcast option.
If the capability query succeeds and either reports the feature supported or
the desired value is false, the desired value is written to the descriptor
and the reconfigure-needed accumulator is set; if the query fails, or reports
the feature unsupported while the desired value is true, the field is
rejected: the descriptor and the accumulator are those of `off`, and the whole
call is the call without the flag. -/
theorem mcast2ucast_gated_by_capability (P : Platform σ) (cfg : BuildConfig)
    (vconf : schema_Wifi_VIF_Config) (cconfs : schema_Wifi_Credential_Config)
    (changed : schema_Wifi_VIF_Config_flags) (w : World σ)
    (ssid_index : Int) (vap_info : wifi_vap_info_t) (off : ap_config_result σ)
    (hidx : vif_ifname_to_idx P w.hal vconf.if_name = some ssid_index)
    (hvap : ssid_index_to_vap_info P w.hal (UINT_of_INT ssid_index) = some vap_info)
    (hmode : vap_info.vap_mode = wifi_vap_mode_ap)
    (hch : changed.mcast2ucast = true)
    (hoff : vif_ap_config_apply P cfg ssid_index vconf { changed with mcast2ucast := false }
      vap_info w = off)
    (hab : off.aborted = false) :
    (∀ supported : Bool,
        get_mcast2ucast_supported P off.world.hal (INT_of_UINT off.vap_info.radio_index)
          = some supported →
        (supported = true ∨ vconf.mcast2ucast = false) →
        vif_ap_config_apply P cfg ssid_index vconf changed vap_info w
          = { off with
              trigger_reconfig := true
              vap_info := { off.vap_info with bss_info :=
                { off.vap_info.bss_info with mcast2ucast := vconf.mcast2ucast } } })
    ∧ (get_mcast2ucast_supported P off.world.hal (INT_of_UINT off.vap_info.radio_index) = none
        ∨ (get_mcast2ucast_supported P off.world.hal (INT_of_UINT off.vap_info.radio_index)
            = some false ∧ vconf.mcast2ucast = true) →
        vif_ap_config_apply P cfg ssid_index vconf changed vap_info w = off
        ∧ target_vif_config_set2 P cfg vconf cconfs changed w
          = target_vif_config_set2 P cfg vconf cconfs { changed with mcast2ucast := false } w) := by
  obtain ⟨h1, h2, h3⟩ := vif_ap_config_apply_mcast2ucast P cfg ssid_index vconf changed
    vap_info w off hch hoff hab
  refine ⟨h1, ?_⟩
  intro hrej
  have he : vif_ap_config_apply P cfg ssid_index vconf changed vap_info w = off := by
    rcases hrej with hq | ⟨hq, hm⟩
    · exact h2 hq
    · exact h3 hq hm
  refine ⟨he, ?_⟩
  rw [target_vif_config_set2_ap P cfg vconf cconfs changed w ssid_index vap_info hidx hvap hmode,
    target_vif_config_set2_ap P cfg vconf cconfs { changed with mcast2ucast := false } w
      ssid_index vap_info hidx hvap hmode, he, hoff]

end

/-- C22 as stated fails: on a platform whose radio reports multicast-to-unicast
unsupported and whose VAP has it switched on, the desired value false with the
field flagged is written to the descriptor, sets the accumulator and is
pushed. -/
theorem mcast2ucast_off_is_written_when_unsupported :
    get_mcast2ucast_supported demo_platform_no_mcast2ucast [] 0 = some false
    ∧ demo_vap_mcast2ucast.bss_info.mcast2ucast = true
    ∧ (vif_ap_config_apply demo_platform_no_mcast2ucast {} 0
        { if_name := "wl0", mcast2ucast := false } { mcast2ucast := true }
        demo_vap_mcast2ucast { hal := [] }).trigger_reconfig = true
    ∧ (vif_ap_config_apply demo_platform_no_mcast2ucast {} 0
        { if_name := "wl0", mcast2ucast := false } { mcast2ucast := true }
        demo_vap_mcast2ucast { hal := [] }).vap_info.bss_info.mcast2ucast = false
    ∧ (createVAP_calls (target_vif_config_set2 demo_platform_no_mcast2ucast {}
        { if_name := "wl0", mcast2ucast := false } {} { mcast2ucast := true }
        { hal := [] }).2.log).map (fun c => c.2.map (fun v => v.bss_info.mcast2ucast))
        = [[false]] := by
  decide

/-- C22 (amended) at concrete inputs: with the radio reporting the feature
unsupported, the desired value true is rejected (the application is that
without the flag, the descriptor keeps its value and the accumulator stays
false); with the capability query failing, the desired value false is rejected
as well, the call being the call without the flag. -/
theorem mcast2ucast_gated_by_capability_witness :
    (vif_ap_config_apply demo_platform_no_mcast2ucast {} 0
        { if_name := "wl0", mcast2ucast := true } { mcast2ucast := true }
        demo_vap_mcast2ucast { hal := [] }
      = vif_ap_config_apply demo_platform_no_mcast2ucast {} 0
        { if_name := "wl0", mcast2ucast := true } {} demo_vap_mcast2ucast { hal := [] })
    ∧ (vif_ap_config_apply demo_platform_no_mcast2ucast {} 0
        { if_name := "wl0", mcast2ucast := true } { mcast2ucast := true }
        demo_vap_mcast2ucast { hal := [] }).trigger_reconfig = false
    ∧ (target_vif_config_set2 demo_platform_no_radio_cap {}
        { if_name := "wl0", mcast2ucast := false } {} { mcast2ucast := true } { hal := [] }
      = target_vif_config_set2 demo_platform_no_radio_cap {}
        { if_name := "wl0", mcast2ucast := false } {} {} { hal := [] }) :=
  ⟨((mcast2ucast_gated_by_capability demo_platform_no_mcast2ucast {}
      { if_name := "wl0", mcast2ucast := true } {} { mcast2ucast := true } { hal := [] } 0
      demo_vap_mcast2ucast _ (by decide) (by decide) rfl rfl rfl (by decide)).2
      (Or.inr ⟨by decide, rfl⟩)).1,
    by decide,
    ((mcast2ucast_gated_by_capability demo_platform_no_radio_cap {}
      { if_name := "wl0", mcast2ucast := false } {} { mcast2ucast := true } { hal := [] } 0
      demo_vap _ (by decide) (by decide) rfl rfl rfl (by decide)).2
      (Or.inl (by decide))).2⟩

/-! ## Push failure and the state refresh -/

section
variable {σ : Type}

theorem remove_not_needed_acls_status (P : Platform σ) (st : Int) (vap_index : Int)
    (vconf : schema_Wifi_VIF_Config) :
    ∀ (l : List String) (w : World σ),
      remove_not_needed_acls (with_createVAP_status P st) vap_index l vconf w
        = remove_not_needed_acls P vap_index l vconf w := by
  intro l
  induction l with
  | nil => intro w; rfl
  | cons cur rest ih =>
    intro w
    simp only [remove_not_needed_acls, ih]
    rfl

theorem add_needed_acls_loop_status (P : Platform σ) (st : Int) (vap_index : Int)
    (cur : List String) :
    ∀ (l : List String) (w : World σ),
      add_needed_acls_loop (with_createVAP_status P st) vap_index cur l w
        = add_needed_acls_loop P vap_index cur l w := by
  intro l
  induction l with
  | nil => intro w; rfl
  | cons m rest ih =>
    intro w
    simp only [add_needed_acls_loop, ih]
    rfl

theorem acl_apply_v3_loop_status (P : Platform σ) (st : Int) (ssid_index : Int) :
    ∀ (l : List String) (w : World σ),
      acl_apply_v3_loop (with_createVAP_status P st) ssid_index l w
        = acl_apply_v3_loop P ssid_index l w := by
  intro l
  induction l with
  | nil => intro w; rfl
  | cons m rest ih =>
    intro w
    simp only [acl_apply_v3_loop, ih]
    rfl

theorem acl_apply_status (P : Platform σ) (st : Int) (cfg : BuildConfig) (ssid_index : Int)
    (vconf : schema_Wifi_VIF_Config) (changed : schema_Wifi_VIF_Config_flags)
    (t : Bool) (vap_info : wifi_vap_info_t) (w : World σ) :
    acl_apply (with_createVAP_status P st) cfg ssid_index vconf changed t vap_info w
      = acl_apply P cfg ssid_index vconf changed t vap_info w := by
  have hl : ∀ w : World σ, acl_apply_list (with_createVAP_status P st) cfg ssid_index vconf w
      = acl_apply_list P cfg ssid_index vconf w := by
    intro w
    unfold acl_apply_list
    simp only [acl_apply_v3_loop_status, add_needed_acls, add_needed_acls_loop_status,
      remove_not_needed_acls_status]
    rfl
  unfold acl_apply
  simp only [hl]

theorem vif_ap_config_apply_status (P : Platform σ) (st : Int) (cfg : BuildConfig)
    (ssid_index : Int) (vconf : schema_Wifi_VIF_Config) (changed : schema_Wifi_VIF_Config_flags)
    (vap_info : wifi_vap_info_t) (w : World σ) :
    vif_ap_config_apply (with_createVAP_status P st) cfg ssid_index vconf changed vap_info w
      = vif_ap_config_apply P cfg ssid_index vconf changed vap_info w := by
  have hhead : ∀ w : World σ,
      vif_ap_config_head (with_createVAP_status P st) cfg ssid_index vconf changed vap_info w
        = vif_ap_config_head P cfg ssid_index vconf changed vap_info w := fun _ => rfl
  have htail : ∀ (t : Bool) (v : wifi_vap_info_t) (w : World σ),
      vif_ap_config_tail (with_createVAP_status P st) cfg ssid_index vconf changed t v w
        = vif_ap_config_tail P cfg ssid_index vconf changed t v w := by
    intro t v w
    unfold vif_ap_config_tail
    simp only [acl_apply_status]
    rfl
  unfold vif_ap_config_apply
  simp only [hhead, htail]

theorem vif_config_refresh_status (P : Platform σ) (st : Int) (cfg : BuildConfig)
    (ssid_index : Int) (w : World σ) :
    vif_config_refresh (with_createVAP_status P st) cfg ssid_index w
      = vif_config_refresh P cfg ssid_index w := rfl

theorem vif_config_push_status (P : Platform σ) (st : Int) (t : Bool)
    (vap_info : wifi_vap_info_t) (w : World σ) :
    vif_config_push (with_createVAP_status P st) t vap_info w
      = vif_config_push P t vap_info w := rfl

/-- The result and the world of `target_vif_config_set2` do not depend on the
status `wifi_createVAP` returns. -/
theorem target_vif_config_set2_status (P : Platform σ) (st : Int) (cfg : BuildConfig)
    (vconf : schema_Wifi_VIF_Config) (cconfs : schema_Wifi_Credential_Config)
    (changed : schema_Wifi_VIF_Config_flags) (w : World σ) :
    target_vif_config_set2 (with_createVAP_status P st) cfg vconf cconfs changed w
      = target_vif_config_set2 P cfg vconf cconfs changed w := by
  have hsta : vif_sta_config_set2 (with_createVAP_status P st) cfg vconf cconfs changed w
      = vif_sta_config_set2 P cfg vconf cconfs changed w := rfl
  unfold target_vif_config_set2
  simp only [hsta, vif_ap_config_apply_status, vif_config_refresh_status, vif_config_push_status]
  rfl

/-- C23: on a resolvable access-point interface whose field application does
not stop at the SSID broadcast option, the result and the world of
`target_vif_config_set2` are the same whatever status `wifi_createVAP`
returns; after the push (made when the accumulator is set) the call requests
the refresh of the interface: with a configured delay greater than zero
through `vif_state_update_deferred`, returning `true` and leaving the index
pending, and with the delay zero through `vif_state_update`, whose result it
returns and which executes one refresh of the index. -/
theorem push_failure_keeps_refresh (P : Platform σ) (cfg : BuildConfig)
    (vconf : schema_Wifi_VIF_Config) (cconfs : schema_Wifi_Credential_Config)
    (changed : schema_Wifi_VIF_Config_flags) (w : World σ)
    (ssid_index : Int) (vap_info : wifi_vap_info_t)
    (hidx : vif_ifname_to_idx P w.hal vconf.if_name = some ssid_index)
    (hvap : ssid_index_to_vap_info P w.hal (UINT_of_INT ssid_index) = some vap_info)
    (hmode : vap_info.vap_mode = wifi_vap_mode_ap)
    (hab : (vif_ap_config_apply P cfg ssid_index vconf changed vap_info w).aborted = false) :
    (∀ status : Int,
        target_vif_config_set2 (with_createVAP_status P status) cfg vconf cconfs changed w
          = target_vif_config_set2 P cfg vconf cconfs changed w)
    ∧ ((vif_ap_config_apply P cfg ssid_index vconf changed vap_info w).trigger_reconfig = true →
        (vif_config_push P
            (vif_ap_config_apply P cfg ssid_index vconf changed vap_info w).trigger_reconfig
            (vif_ap_config_apply P cfg ssid_index vconf changed vap_info w).vap_info
            (vif_ap_config_apply P cfg ssid_index vconf changed vap_info w).world).log
          = (vif_ap_config_apply P cfg ssid_index vconf changed vap_info w).world.log ++
            [Effect.hal (HalCall.wifi_createVAP
              (vif_ap_config_apply P cfg ssid_index vconf changed vap_info w).vap_info.radio_index
              [(vif_ap_config_apply P cfg ssid_index vconf changed vap_info w).vap_info])])
    ∧ (cfg.RDK_VIF_STATE_UPDATE_DELAY > 0 →
        target_vif_config_set2 P cfg vconf cconfs changed w
          = (true, sched_step P cfg (SchedEvent.requestRefresh ssid_index)
              (vif_config_push P
                (vif_ap_config_apply P cfg ssid_index vconf changed vap_info w).trigger_reconfig
                (vif_ap_config_apply P cfg ssid_index vconf changed vap_info w).vap_info
                (vif_ap_config_apply P cfg ssid_index vconf changed vap_info w).world))
        ∧ ssid_index ∈ sched_pending (target_vif_config_set2 P cfg vconf cconfs changed w).2)
    ∧ (cfg.RDK_VIF_STATE_UPDATE_DELAY = 0 →
        target_vif_config_set2 P cfg vconf cconfs changed w
          = vif_state_update P cfg ssid_index
              (vif_config_push P
                (vif_ap_config_apply P cfg ssid_index vconf changed vap_info w).trigger_reconfig
                (vif_ap_config_apply P cfg ssid_index vconf changed vap_info w).vap_info
                (vif_ap_config_apply P cfg ssid_index vconf changed vap_info w).world)
        ∧ refresh_calls (target_vif_config_set2 P cfg vconf cconfs changed w).2.log
          = refresh_calls
              (vif_config_push P
                (vif_ap_config_apply P cfg ssid_index vconf changed vap_info w).trigger_reconfig
                (vif_ap_config_apply P cfg ssid_index vconf changed vap_info w).vap_info
                (vif_ap_config_apply P cfg ssid_index vconf changed vap_info w).world).log
            ++ [ssid_index]) := by
  have htarget := target_vif_config_set2_ap P cfg vconf cconfs changed w ssid_index vap_info
    hidx hvap hmode
  rw [if_neg (by simp [hab])] at htarget
  generalize hr : vif_ap_config_apply P cfg ssid_index vconf changed vap_info w = r at *
  refine ⟨fun status => target_vif_config_set2_status P status cfg vconf cconfs changed w,
    ?_, ?_, ?_⟩
  · intro ht
    unfold vif_config_push
    rw [if_pos ht]
    rfl
  · intro hd
    have he : target_vif_config_set2 P cfg vconf cconfs changed w
        = (true, sched_step P cfg (SchedEvent.requestRefresh ssid_index)
            (vif_config_push P r.trigger_reconfig r.vap_info r.world)) := by
      rw [htarget]
      unfold vif_config_refresh
      rw [if_pos hd]
      rfl
    refine ⟨he, ?_⟩
    rw [he]
    have hp := (sched_step_request P cfg ssid_index
      (vif_config_push P r.trigger_reconfig r.vap_info r.world)).1
    show ssid_index ∈ sched_pending (vif_state_update_deferred P cfg ssid_index
      (vif_config_push P r.trigger_reconfig r.vap_info r.world))
    rw [hp]
    simp only [sched_pending_after]
    split_ifs with hm
    · exact hm
    · simp
  · intro hd
    have he : target_vif_config_set2 P cfg vconf cconfs changed w
        = vif_state_update P cfg ssid_index
            (vif_config_push P r.trigger_reconfig r.vap_info r.world) := by
      rw [htarget]
      unfold vif_config_refresh
      rw [if_neg (by omega)]
    refine ⟨he, ?_⟩
    rw [he]
    exact vif_state_update_refresh_calls P cfg ssid_index _

end

/-- C23 at a concrete input: on `demo_platform_push_fails`, whose
`wifi_createVAP` returns `RETURN_ERR`, a call with `enabled` flagged pushes the
descriptor, and still gives what it gives on `demo_platform`: with the delay
zero it returns `true` after one refresh of index 0, and with the delay 5 it
returns `true` and leaves index 0 pending without a refresh. -/
theorem push_failure_keeps_refresh_witness :
    (demo_platform_push_fails.wifi_createVAP [] 0 [demo_vap]).2 = RETURN_ERR
    ∧ target_vif_config_set2 demo_platform_push_fails {}
        { if_name := "wl0", enabled := true } {} { enabled := true } { hal := [] }
      = target_vif_config_set2 demo_platform {}
        { if_name := "wl0", enabled := true } {} { enabled := true } { hal := [] }
    ∧ (createVAP_calls (target_vif_config_set2 demo_platform_push_fails {}
        { if_name := "wl0", enabled := true } {} { enabled := true } { hal := [] }).2.log).length
        = 1
    ∧ (target_vif_config_set2 demo_platform_push_fails {}
        { if_name := "wl0", enabled := true } {} { enabled := true } { hal := [] }).1 = true
    ∧ refresh_calls (target_vif_config_set2 demo_platform_push_fails {}
        { if_name := "wl0", enabled := true } {} { enabled := true } { hal := [] }).2.log = [0]
    ∧ (target_vif_config_set2 demo_platform_push_fails { RDK_VIF_STATE_UPDATE_DELAY := 5 }
        { if_name := "wl0", enabled := true } {} { enabled := true } { hal := [] }).1 = true
    ∧ sched_pending (target_vif_config_set2 demo_platform_push_fails
        { RDK_VIF_STATE_UPDATE_DELAY := 5 }
        { if_name := "wl0", enabled := true } {} { enabled := true } { hal := [] }).2 = [0]
    ∧ refresh_calls (target_vif_config_set2 demo_platform_push_fails
        { RDK_VIF_STATE_UPDATE_DELAY := 5 }
        { if_name := "wl0", enabled := true } {} { enabled := true } { hal := [] }).2.log = [] :=
  ⟨by decide,
    (push_failure_keeps_refresh demo_platform {} { if_name := "wl0", enabled := true } {}
      { enabled := true } { hal := [] } 0 demo_vap (by decide) (by decide) rfl
      (by decide)).1 RETURN_ERR,
    by decide, by decide, by decide, by decide, by decide, by decide⟩

/-! ## Channel of the state read -/

section
variable {σ : Type}

theorem get_security_channel (P : Platform σ) (cfg : BuildConfig) (s : σ)
    (ids : Int → String) (ssidIndex : Int) (vap_info : wifi_vap_info_t)
    (vstate : schema_Wifi_VIF_State) :
    (get_security P cfg s ids ssidIndex vap_info vstate).2.channel = vstate.channel := by
  unfold get_security
  dsimp only
  have key : ∀ (v : schema_Wifi_VIF_State), v.channel = vstate.channel →
      (if vap_info.bss_info.security_mode = wifi_security_mode_none then
          (true, { v with wpa := some false })
        else
          match security_key_mgmt_hal_to_ovsdb vap_info.bss_info.security_mode
              (some { v with wpa := some true }) none with
          | (true, some vstate2, _) =>
            if vap_info.bss_info.security_mode = wifi_security_mode_wpa2_enterprise then
              get_enterprise_credentials vap_info.bss_info.security_radius vstate2
            else
              get_psks P cfg s ids ssidIndex vap_info.bss_info.security_key vstate2
          | (_, vstate2, _) => (false, vstate2.getD { v with wpa := some true })).2.channel
        = vstate.channel := by
    intro v hv
    cases hm : vap_info.bss_info.security_mode <;>
      simp [security_key_mgmt_hal_to_ovsdb, security_mode_map_scan, security_mode_map,
        key_mgmt_of_mode, get_psks, get_enterprise_credentials, set_pairwise_state,
        state_key_mgmt_append, hv] <;>
      (try split_ifs) <;> (try split) <;> simp [hv]
  cases hp : vap_info.bss_info.security_mfp <;> exact key _ rfl

theorem acl_to_state_channel (P : Platform σ) (cfg : BuildConfig) (s : σ)
    (vap_info : wifi_vap_info_t) (vstate : schema_Wifi_VIF_State) :
    (acl_to_state P cfg s vap_info vstate).2.channel = vstate.channel := by
  have hm : ∀ b v, acl_mode_to_state vap_info vstate = (b, v) → v.channel = vstate.channel := by
    intro b v h
    unfold acl_mode_to_state at h
    split_ifs at h <;> cases h <;> rfl
  unfold acl_to_state
  split_ifs
  · split
    · next v h => exact hm _ v h
    · next v h =>
      split
      · exact hm _ v h
      · exact hm _ v h
  · rfl
  · split
    · next v h => exact hm _ v h
    · next v h =>
      split
      · exact hm _ v h
      · split_ifs
        · exact hm _ v h
        · exact hm _ v h

/-- The channel part of `vif_ap_state_get` when the owning radio resolves.
With a `showSsid` of 0 or 1: on channel zero the record keeps its channel
field and a non-zero channel is stored. A failed operating-parameters query
fails the read, and so does a `showSsid` other than 0 and 1. -/
theorem vif_ap_state_get_channel (P : Platform σ) (cfg : BuildConfig) (s : σ)
    (ids : Int → String) (vstate : schema_Wifi_VIF_State) (vap_info : wifi_vap_info_t)
    (radio_idx : Int)
    (hradio : P.wifi_getSSIDRadioIndex s (INT_of_UINT vap_info.vap_index) = some radio_idx) :
    (P.wifi_getRadioOperatingParameters_channel s radio_idx = some 0 →
        (vap_info.bss_info.showSsid = 0 ∨ vap_info.bss_info.showSsid = 1) →
        ∃ st, vif_ap_state_get P cfg s ids vstate vap_info = some st
          ∧ st.channel = vstate.channel)
    ∧ (∀ channel, channel ≠ 0 →
        P.wifi_getRadioOperatingParameters_channel s radio_idx = some channel →
        (vap_info.bss_info.showSsid = 0 ∨ vap_info.bss_info.showSsid = 1) →
        ∃ st, vif_ap_state_get P cfg s ids vstate vap_info = some st
          ∧ st.channel = some channel)
    ∧ (P.wifi_getRadioOperatingParameters_channel s radio_idx = none →
        vif_ap_state_get P cfg s ids vstate vap_info = none)
    ∧ (vap_info.bss_info.showSsid ≠ 0 → vap_info.bss_info.showSsid ≠ 1 →
        vif_ap_state_get P cfg s ids vstate vap_info = none) := by
  have hok : ∀ v : schema_Wifi_VIF_State,
      get_channel P s (INT_of_UINT vap_info.vap_index) vstate = (true, v) →
      (vap_info.bss_info.showSsid = 0 ∨ vap_info.bss_info.showSsid = 1) →
      ∃ st, vif_ap_state_get P cfg s ids vstate vap_info = some st ∧ st.channel = v.channel := by
    intro v hv hs
    unfold vif_ap_state_get
    rw [hv]
    dsimp only
    rw [if_neg ((showSsid_decodes _).2 hs)]
    refine ⟨_, rfl, ?_⟩
    simp only [acl_to_state_channel, get_security_channel]
  refine ⟨?_, ?_, ?_, ?_⟩
  · intro h0 hs
    exact hok vstate (by simp [get_channel, hradio, h0]) hs
  · intro channel hne hc hs
    exact hok { vstate with channel := some channel } (by simp [get_channel, hradio, hc, hne]) hs
  · intro hn
    unfold vif_ap_state_get
    simp [get_channel, hradio, hn]
  · intro h0 h1
    have hnone : (vif_ap_state_get P cfg s ids vstate vap_info).isSome = false := by
      rw [vif_ap_state_get_isSome]
      simp [h0, h1]
    cases hv : vif_ap_state_get P cfg s ids vstate vap_info with
    | none => rfl
    | some st => rw [hv] at hnone; simp at hnone

/-- A fetched configuration snapshot: the owning radio resolved and the
descriptor is the one of the index. -/
theorem ssid_index_to_vap_info_some (P : Platform σ) (s : σ) (ssid_index : Nat)
    (vap_info : wifi_vap_info_t)
    (h : ssid_index_to_vap_info P s ssid_index = some vap_info) :
    (∃ radio_idx, P.wifi_getSSIDRadioIndex s (INT_of_UINT ssid_index) = some radio_idx)
    ∧ vap_info.vap_index = ssid_index := by
  unfold ssid_index_to_vap_info at h
  cases hr : P.wifi_getSSIDRadioIndex s (INT_of_UINT ssid_index) with
  | none => rw [hr] at h; simp at h
  | some radio_idx =>
    rw [hr] at h
    dsimp only at h
    cases hm : P.wifi_getRadioVapInfoMap s radio_idx with
    | none => rw [hm] at h; simp at h
    | some vap_array =>
      rw [hm] at h
      dsimp only at h
      have := List.find?_some h
      exact ⟨⟨radio_idx, rfl⟩, by simpa using this⟩

/-- C24 (amended): for an access-point interface whose configuration snapshot
was fetched (`radio_idx` being its owning radio), the state read is
`vif_ap_state_get` on the fresh record; when the `showSsid` of the descriptor
is 0 or 1, a reported channel of zero does not fail it: the read succeeds and
the channel field is absent from the state record, and a non-zero channel is
stored in the record; a failure of the radio operating-parameters query fails
the state read, and so does a `showSsid` other than 0 and 1. -/
theorem channel_zero_is_omitted (P : Platform σ) (cfg : BuildConfig) (s : σ)
    (ids : Int → String) (ssidIndex : Int) (vap_info : wifi_vap_info_t) (radio_idx : Int)
    (hidx : 0 ≤ ssidIndex)
    (hvap : ssid_index_to_vap_info P s (UINT_of_INT ssidIndex) = some vap_info)
    (hmode : vap_info.vap_mode = wifi_vap_mode_ap)
    (hradio : P.wifi_getSSIDRadioIndex s (INT_of_UINT (UINT_of_INT ssidIndex)) = some radio_idx) :
    vif_state_get P cfg s ids ssidIndex
        = vif_ap_state_get P cfg s ids
            { if_name := some (P.target_unmap_ifname vap_info.vap_name) } vap_info
    ∧ (P.wifi_getRadioOperatingParameters_channel s radio_idx = some 0 →
        (vap_info.bss_info.showSsid = 0 ∨ vap_info.bss_info.showSsid = 1) →
        ∃ st, vif_state_get P cfg s ids ssidIndex = some st ∧ st.channel = none)
    ∧ (∀ channel, channel ≠ 0 →
        P.wifi_getRadioOperatingParameters_channel s radio_idx = some channel →
        (vap_info.bss_info.showSsid = 0 ∨ vap_info.bss_info.showSsid = 1) →
        ∃ st, vif_state_get P cfg s ids ssidIndex = some st ∧ st.channel = some channel)
    ∧ (P.wifi_getRadioOperatingParameters_channel s radio_idx = none →
        vif_state_get P cfg s ids ssidIndex = none)
    ∧ (vap_info.bss_info.showSsid ≠ 0 → vap_info.bss_info.showSsid ≠ 1 →
        vif_state_get P cfg s ids ssidIndex = none) := by
  have hvi := (ssid_index_to_vap_info_some P s _ vap_info hvap).2
  have hr : P.wifi_getSSIDRadioIndex s (INT_of_UINT vap_info.vap_index) = some radio_idx := by
    rw [hvi]; exact hradio
  have he : vif_state_get P cfg s ids ssidIndex
      = vif_ap_state_get P cfg s ids
          { if_name := some (P.target_unmap_ifname vap_info.vap_name) } vap_info := by
    unfold vif_state_get
    rw [if_neg (by omega), hvap]
    dsimp only
    rw [if_pos hmode]
  obtain ⟨h1, h2, h3, h4⟩ := vif_ap_state_get_channel P cfg s ids
    { if_name := some (P.target_unmap_ifname vap_info.vap_name) } vap_info radio_idx hr
  refine ⟨he, ?_, ?_, ?_, ?_⟩
  · intro h0 hs
    rw [he]
    exact h1 h0 hs
  · intro channel hne hc hs
    rw [he]
    exact h2 channel hne hc hs
  · intro hn
    rw [he]
    exact h3 hn
  · intro hs0 hs1
    rw [he]
    exact h4 hs0 hs1

end

/-- C24 as stated fails: on a platform whose radio operating-parameters query
fails, the configuration snapshot of the access-point VAP is fetched, yet
`vif_ap_state_get` and `vif_state_get` fail. -/
theorem state_read_fails_without_channel :
    demo_platform_no_channel.wifi_getRadioOperatingParameters_channel [] 0 = none
    ∧ ssid_index_to_vap_info demo_platform_no_channel [] 0 = some demo_vap
    ∧ demo_vap.vap_mode = wifi_vap_mode_ap
    ∧ vif_ap_state_get demo_platform_no_channel {} [] (fun _ => "") {} demo_vap = none
    ∧ vif_state_get demo_platform_no_channel {} [] (fun _ => "") 0 = none := by
  decide

/-- C24 (amended) at concrete inputs: on a platform whose radio reports the
channel 0, the state read of the VAP succeeds and the record has no channel;
and on `demo_platform`, whose radio reports channel 6, the state read of a VAP
with the `showSsid` value 2 fails. -/
theorem channel_zero_is_omitted_witness :
    (∃ st, vif_state_get demo_platform_channel_zero {} [] (fun _ => "") 0 = some st
      ∧ st.channel = none)
    ∧ vif_state_get (demo_platform_with demo_vap_unknown_showSsid) {} [] (fun _ => "") 0
        = none :=
  ⟨(channel_zero_is_omitted demo_platform_channel_zero {} [] (fun _ => "") 0 demo_vap 0
      (by decide) (by decide) rfl (by decide)).2.1 (by decide) (Or.inl rfl),
    (channel_zero_is_omitted (demo_platform_with demo_vap_unknown_showSsid) {} []
      (fun _ => "") 0 demo_vap_unknown_showSsid 0
      (by decide) (by decide) rfl (by decide)).2.2.2.2 (by decide) (by decide)⟩

/-! ## Pre-shared keys of the config writer -/

section
variable {σ : Type}

theorem set_password_world (P : Platform σ) (cfg : BuildConfig) (ssid_index : Int)
    (vconf : schema_Wifi_VIF_Config) (vap_info : wifi_vap_info_t) (w : World σ) :
    (set_password P cfg ssid_index vconf vap_info w).2.2.cached_key_ids
        = Function.update w.cached_key_ids ssid_index (vconf.wpa_psks.headD ("", "")).1
    ∧ (set_password P cfg ssid_index vconf vap_info w).2.2.log
        = w.log ++ (if cfg.RDK_MULTI_PSK_SUPPORT = true then
            [Effect.hal (HalCall.wifi_pushMultiPskKeys ssid_index (multi_psk_keys vconf.wpa_psks))]
          else []) := by
  unfold set_password
  dsimp only
  by_cases hm : cfg.RDK_MULTI_PSK_SUPPORT = true
  · rw [if_pos hm, if_pos hm]
    by_cases hl : vconf.wpa_psks.length > 1
    · rw [if_pos hl]
      exact ⟨rfl, rfl⟩
    · rw [if_neg hl]
      have hd : multi_psk_keys vconf.wpa_psks = [] := by
        unfold multi_psk_keys
        rw [List.drop_of_length_le (by omega)]
        rfl
      rw [hd]
      exact ⟨rfl, rfl⟩
  · rw [if_neg hm, if_neg hm]
    exact ⟨rfl, by simp⟩

theorem set_security_exit_world (cfg : BuildConfig) (ssid_index : Int)
    (vconf : schema_Wifi_VIF_Config) (changed : schema_Wifi_VIF_Config_flags) (send_sync : Bool)
    (w : World σ) :
    (set_security_exit cfg ssid_index vconf changed send_sync w).cached_key_ids = w.cached_key_ids
    ∧ hal_calls (set_security_exit cfg ssid_index vconf changed send_sync w).log
        = hal_calls w.log := by
  unfold set_security_exit
  by_cases hc : (send_sync && !cfg.RDK_DISABLE_SYNC && !cfg.RDK_MULTI_PSK_SUPPORT) = true
  · rw [if_pos hc]
    exact ⟨rfl, by simp [World.emit, hal_calls_append, hal_calls]⟩
  · rw [if_neg hc]
    exact ⟨rfl, rfl⟩

theorem set_security_psks_world (P : Platform σ) (cfg : BuildConfig) (ssid_index : Int)
    (vconf : schema_Wifi_VIF_Config) (changed : schema_Wifi_VIF_Config_flags)
    (send_sync trigger_reconfig : Bool) (vap_info : wifi_vap_info_t) (w : World σ)
    (hch : changed.wpa_psks = true) (hlen : vconf.wpa_psks.length ≥ 1) :
    (set_security_psks P cfg ssid_index vconf changed send_sync trigger_reconfig vap_info
        w).2.2.cached_key_ids
      = Function.update w.cached_key_ids ssid_index (vconf.wpa_psks.headD ("", "")).1
    ∧ hal_calls (set_security_psks P cfg ssid_index vconf changed send_sync trigger_reconfig
        vap_info w).2.2.log
      = hal_calls w.log ++ (if cfg.RDK_MULTI_PSK_SUPPORT = true then
          [HalCall.wifi_pushMultiPskKeys ssid_index (multi_psk_keys vconf.wpa_psks)]
        else []) := by
  obtain ⟨hc, hl⟩ := set_password_world P cfg ssid_index vconf vap_info w
  have hlog : hal_calls (set_password P cfg ssid_index vconf vap_info w).2.2.log
      = hal_calls w.log ++ (if cfg.RDK_MULTI_PSK_SUPPORT = true then
          [HalCall.wifi_pushMultiPskKeys ssid_index (multi_psk_keys vconf.wpa_psks)]
        else []) := by
    rw [hl, hal_calls_append]
    split_ifs <;> rfl
  unfold set_security_psks
  rw [if_pos (by simp [hch, hlen])]
  split
  · next h1 =>
    rw [h1] at hc hlog
    obtain ⟨e1, e2⟩ := set_security_exit_world cfg ssid_index vconf changed send_sync
      (set_password P cfg ssid_index vconf vap_info w).2.2
    rw [h1] at e1 e2
    exact ⟨e1.trans hc, e2.trans hlog⟩
  · next h1 =>
    rw [h1] at hc hlog
    obtain ⟨e1, e2⟩ := set_security_exit_world cfg ssid_index vconf changed true
      (set_password P cfg ssid_index vconf vap_info w).2.2
    rw [h1] at e1 e2
    exact ⟨e1.trans hc, e2.trans hlog⟩

/-- C25 (amended): in `set_security`, whenever the pre-shared-key field is
flagged as changed, the desired list holds at least one pair and the update is
no WPA-disable, the descriptor is the one the other security fields give with
only its active key slot overwritten by the secret of the first pair, the
identifier of the first pair becomes the cached key-id of the interface, and
the only HAL call made is, on multi-key builds, one `wifi_pushMultiPskKeys`
with exactly the remaining pairs in order (the empty table when there are
none); builds without multi-key support make no HAL call. -/
theorem psks_first_pair_and_remaining (P : Platform σ) (cfg : BuildConfig) (ssid_index : Int)
    (vconf : schema_Wifi_VIF_Config) (changed : schema_Wifi_VIF_Config_flags)
    (trigger_reconfig : Bool) (vap_info : wifi_vap_info_t) (w : World σ)
    (key_id secret : String) (rest : List (String × String))
    (hch : changed.wpa_psks = true)
    (hpsks : vconf.wpa_psks = (key_id, secret) :: rest)
    (hdis : ¬ (changed.wpa = true ∧ vconf.wpa = false)) :
    (set_security P cfg ssid_index vconf changed trigger_reconfig vap_info w).2.1
        = { (set_security P cfg ssid_index vconf { changed with wpa_psks := false }
              trigger_reconfig vap_info w).2.1 with bss_info :=
            { (set_security P cfg ssid_index vconf { changed with wpa_psks := false }
                trigger_reconfig vap_info w).2.1.bss_info with security_key := secret } }
    ∧ (set_security P cfg ssid_index vconf changed trigger_reconfig vap_info w).2.2.cached_key_ids
        = Function.update w.cached_key_ids ssid_index key_id
    ∧ hal_calls (set_security P cfg ssid_index vconf changed trigger_reconfig vap_info w).2.2.log
        = hal_calls w.log ++
          (if cfg.RDK_MULTI_PSK_SUPPORT = true then
            [HalCall.wifi_pushMultiPskKeys ssid_index
              (rest.map (fun kv => { wifi_keyId := kv.1, wifi_psk := kv.2 }))]
          else []) := by
  obtain ⟨mode, hmode⟩ := security_key_mgmt_ovsdb_to_hal_isSome vconf
  have h1 : ¬ ((changed.wpa && vconf.wpa == false) = true) := by
    intro hc
    simp only [Bool.and_eq_true, beq_iff_eq] at hc
    exact hdis hc
  have hlen : vconf.wpa_psks.length ≥ 1 := by rw [hpsks]; simp
  have hhead : vconf.wpa_psks.headD ("", "") = (key_id, secret) := by rw [hpsks]; rfl
  have hkeys : multi_psk_keys vconf.wpa_psks
      = rest.map (fun kv => { wifi_keyId := kv.1, wifi_psk := kv.2 }) := by rw [hpsks]; rfl
  have hoff : ¬ ((false && decide (vconf.wpa_psks.length ≥ 1)) = true) := by simp
  have hon : (changed.wpa_psks && decide (vconf.wpa_psks.length ≥ 1)) = true := by
    simp [hch, hlen]
  unfold set_security
  simp only [if_neg h1, hmode]
  by_cases hg : (changed.wpa_key_mgmt || changed.wpa_pairwise_tkip || changed.wpa_pairwise_ccmp ||
      changed.rsn_pairwise_tkip || changed.rsn_pairwise_ccmp || changed.pmf) = true
  · simp only [if_pos hg]
    obtain ⟨e1, e2⟩ := set_security_psks_world P cfg ssid_index vconf changed true true
      { vap_info with bss_info :=
        { vap_info.bss_info with security_mode := mode, security_mfp := pmf_to_mfp vconf.pmf } }
      w hch hlen
    refine ⟨?_, ?_, ?_⟩
    · rw [set_security_psks_vap_info, set_security_psks_vap_info, if_pos hon, if_neg hoff, hhead]
    · rw [e1, hhead]
    · rw [e2, hkeys]
  · simp only [if_neg hg]
    obtain ⟨e1, e2⟩ := set_security_psks_world P cfg ssid_index vconf changed false
      trigger_reconfig vap_info w hch hlen
    refine ⟨?_, ?_, ?_⟩
    · rw [set_security_psks_vap_info, set_security_psks_vap_info, if_pos hon, if_neg hoff, hhead]
    · rw [e1, hhead]
    · rw [e2, hkeys]

end

/-- C25 as stated fails: on a multi-key build of `demo_platform`, a WPA-disable
update with the pre-shared-key field flagged and two desired pairs writes
neither the key slot nor the cached key-id and pushes no multi-key table; and
with the field flagged and an empty desired list no table is pushed either. -/
theorem psks_skipped_on_wpa_disable_and_empty_list :
    (set_security demo_platform { RDK_MULTI_PSK_SUPPORT := true } 0
        { if_name := "wl0", wpa := false, wpa_psks := [("k1", "s1"), ("k2", "s2")] }
        { wpa := true, wpa_psks := true } false demo_vap
        { hal := [] }).2.1.bss_info.security_key = ""
    ∧ (set_security demo_platform { RDK_MULTI_PSK_SUPPORT := true } 0
        { if_name := "wl0", wpa := false, wpa_psks := [("k1", "s1"), ("k2", "s2")] }
        { wpa := true, wpa_psks := true } false demo_vap
        { hal := [] }).2.2.cached_key_ids 0 = ""
    ∧ hal_calls (set_security demo_platform { RDK_MULTI_PSK_SUPPORT := true } 0
        { if_name := "wl0", wpa := false, wpa_psks := [("k1", "s1"), ("k2", "s2")] }
        { wpa := true, wpa_psks := true } false demo_vap
        { hal := [] }).2.2.log = []
    ∧ hal_calls (set_security demo_platform { RDK_MULTI_PSK_SUPPORT := true } 0
        { if_name := "wl0", wpa := true, wpa_psks := [] }
        { wpa_psks := true } false demo_vap { hal := [] }).2.2.log = [] := by
  decide

/-- C25 (amended) at a concrete input: on a multi-key build of `demo_platform`,
three desired pairs with the field flagged write the first secret to the key
slot, cache the first identifier, and push the two remaining pairs in order. -/
theorem psks_first_pair_and_remaining_witness :
    (set_security demo_platform { RDK_MULTI_PSK_SUPPORT := true } 0
        { if_name := "wl0", wpa := true, wpa_psks := [("k1", "s1"), ("k2", "s2"), ("k3", "s3")] }
        { wpa_psks := true } false demo_vap { hal := [] }).2.1.bss_info.security_key = "s1"
    ∧ (set_security demo_platform { RDK_MULTI_PSK_SUPPORT := true } 0
        { if_name := "wl0", wpa := true, wpa_psks := [("k1", "s1"), ("k2", "s2"), ("k3", "s3")] }
        { wpa_psks := true } false demo_vap { hal := [] }).2.2.cached_key_ids 0 = "k1"
    ∧ hal_calls (set_security demo_platform { RDK_MULTI_PSK_SUPPORT := true } 0
        { if_name := "wl0", wpa := true, wpa_psks := [("k1", "s1"), ("k2", "s2"), ("k3", "s3")] }
        { wpa_psks := true } false demo_vap { hal := [] }).2.2.log
      = [HalCall.wifi_pushMultiPskKeys 0
          [{ wifi_keyId := "k2", wifi_psk := "s2" }, { wifi_keyId := "k3", wifi_psk := "s3" }]] := by
  have h := psks_first_pair_and_remaining demo_platform { RDK_MULTI_PSK_SUPPORT := true } 0
    { if_name := "wl0", wpa := true, wpa_psks := [("k1", "s1"), ("k2", "s2"), ("k3", "s3")] }
    { wpa_psks := true } false demo_vap { hal := [] } "k1" "s1" [("k2", "s2"), ("k3", "s3")]
    rfl rfl (by decide)
  refine ⟨?_, ?_, ?_⟩
  · rw [h.1]
  · rw [h.2.1]; rfl
  · rw [h.2.2]; rfl

/-! ## Event consumer and deferred scheduler -/

section
variable {σ : Type}

/-- The consumer loop does not touch the pending table of the deferred update
scheduler. -/
theorem vif_sta_update_async_cb_loop_sched (P : Platform σ) (cfg : BuildConfig) :
    ∀ (q : List hal_cb_entry_t) (w : World σ),
      (vif_sta_update_async_cb_loop P cfg q w).vif_update_queue = w.vif_update_queue
      ∧ (vif_sta_update_async_cb_loop P cfg q w).vif_update_init_done
          = w.vif_update_init_done := by
  intro q
  induction q with
  | nil => intro w; exact ⟨rfl, rfl⟩
  | cons cbe rest ih =>
    intro w
    unfold vif_sta_update_async_cb_loop
    dsimp only
    cases hres : ssid_index_to_vap_info P w.hal (UINT_of_INT cbe.ssidIndex) with
    | none =>
      exact ih { w with hal_cb_queue := rest, hal_cb_queue_len := w.hal_cb_queue_len - 1 }
    | some vap =>
      obtain ⟨h1, h2⟩ := ih (vif_state_update P cfg cbe.ssidIndex
        { w with hal_cb_queue := rest, hal_cb_queue_len := w.hal_cb_queue_len - 1 }).2
      simp only [vif_state_update_queue, vif_state_update_init_done] at h1 h2
      exact ⟨h1, h2⟩

/-- C26 (amended): one run of the event consumer converts each drained event
whose interface index resolves into one immediate refresh of that index
(`vif_state_update`, executed during the drain), one per event and in queue
order; an event whose index does not resolve is skipped without a refresh and
the drain goes on; and the pending table of the deferred update scheduler is
left as it was, so no event creates or re-arms a pending entry. -/
theorem event_consumer_refreshes_directly (P : Platform σ) (cfg : BuildConfig) (w : World σ) :
    refresh_calls (vif_sta_update_async_cb P cfg w).log
        = refresh_calls w.log ++
          (w.hal_cb_queue.filter (fun cbe =>
            (ssid_index_to_vap_info P w.hal (UINT_of_INT cbe.ssidIndex)).isSome)).map
            (fun cbe => cbe.ssidIndex)
    ∧ (vif_sta_update_async_cb P cfg w).vif_update_queue = w.vif_update_queue
    ∧ (vif_sta_update_async_cb P cfg w).vif_update_init_done = w.vif_update_init_done
    ∧ sched_pending (vif_sta_update_async_cb P cfg w) = sched_pending w := by
  obtain ⟨_, _, _, _, _, h6⟩ := vif_sta_update_async_cb_loop_spec P cfg w.hal_cb_queue w rfl
  obtain ⟨h1, h2⟩ := vif_sta_update_async_cb_loop_sched P cfg w.hal_cb_queue w
  refine ⟨h6, h1, h2, ?_⟩
  unfold sched_pending
  rw [show (vif_sta_update_async_cb P cfg w).vif_update_queue = w.vif_update_queue from h1]

theorem vif_update_queue_timer_get (op : ev_timer → ev_timer) :
    ∀ (k : Nat) (q : List vif_state_update_entry_t) (ptr : vif_state_update_entry_t),
      q.get? k = some ptr →
      (vif_update_queue_timer op k q).get? k
        = some { ptr with defer_timer := op ptr.defer_timer } := by
  intro k q
  induction q generalizing k with
  | nil => intro ptr h; simp at h
  | cons p rest ih =>
    intro ptr h
    cases k with
    | zero =>
      simp only [List.get?_cons_zero, Option.some.injEq] at h
      subst h
      rfl
    | succ k =>
      simp only [List.get?_cons_succ] at h
      simp only [vif_update_queue_timer, List.get?_cons_succ]
      exact ih k ptr h

theorem vif_update_queue_timer_find (op : ev_timer → ev_timer) (i : Int) :
    ∀ (k : Nat) (q : List vif_state_update_entry_t),
      vif_update_queue_find i (vif_update_queue_timer op k q) = vif_update_queue_find i q := by
  intro k q
  induction q generalizing k with
  | nil => cases k <;> rfl
  | cons p rest ih =>
    cases k with
    | zero => rfl
    | succ k => simp only [vif_update_queue_timer, vif_update_queue_find, ih]

theorem vif_update_queue_find_append (i : Int) (e : vif_state_update_entry_t)
    (he : e.ssid_index = i) :
    ∀ (q : List vif_state_update_entry_t), vif_update_queue_find i q = none →
      vif_update_queue_find i (q ++ [e]) = some q.length
      ∧ (q ++ [e]).get? q.length = some e := by
  intro q
  induction q with
  | nil =>
    intro _
    simp [vif_update_queue_find, he]
  | cons p rest ih =>
    intro h
    unfold vif_update_queue_find at h
    by_cases hp : i = p.ssid_index
    · rw [if_pos hp] at h; cases h
    · rw [if_neg hp] at h
      have hr : vif_update_queue_find i rest = none := by
        cases hf : vif_update_queue_find i rest with
        | none => rfl
        | some k => rw [hf] at h; simp at h
      obtain ⟨h1, h2⟩ := ih hr
      refine ⟨?_, ?_⟩
      · simp only [List.cons_append, vif_update_queue_find, if_neg hp, List.append_eq, h1,
          Option.map_some', List.length_cons]
      · simp [h2]

/-- After a request the index is pending with its timer armed for the
configured delay. -/
theorem vif_state_update_deferred_armed (P : Platform σ) (cfg : BuildConfig) (i : Int)
    (w : World σ) :
    ∃ k, vif_update_queue_find i (vif_state_update_deferred P cfg i w).vif_update_queue = some k
      ∧ (vif_state_update_deferred P cfg i w).vif_update_queue.get? k
          = some { ssid_index := i,
                   defer_timer := { active := true, after := cfg.RDK_VIF_STATE_UPDATE_DELAY } } := by
  have core : ∀ w0 : World σ, w0.vif_update_init_done = true →
      ∃ k, vif_update_queue_find i (vif_state_update_deferred P cfg i w0).vif_update_queue
          = some k
        ∧ (vif_state_update_deferred P cfg i w0).vif_update_queue.get? k
          = some { ssid_index := i,
                   defer_timer := { active := true, after := cfg.RDK_VIF_STATE_UPDATE_DELAY } } := by
    intro w0 h0
    unfold vif_state_update_deferred
    simp only [h0, Bool.not_true, Bool.false_eq_true, if_false]
    cases hf : vif_update_queue_find i w0.vif_update_queue with
    | none =>
      obtain ⟨h1, h2⟩ := vif_update_queue_find_append i
        { ssid_index := i, defer_timer := ev_timer_set_start cfg.RDK_VIF_STATE_UPDATE_DELAY {} }
        rfl w0.vif_update_queue hf
      exact ⟨w0.vif_update_queue.length, h1, h2⟩
    | some k =>
      obtain ⟨⟨ptr, hget, hpi⟩, _, _⟩ := vif_update_queue_find_some i _ k hf
      refine ⟨k, ?_, ?_⟩
      · simp only [vif_state_update_queue, vif_update_queue_timer_find, hf]
      · simp only [vif_state_update_queue]
        rw [vif_update_queue_timer_get _ k _ _
          (vif_update_queue_timer_get ev_timer_stop k _ ptr hget)]
        simp [ev_timer_set_start, hpi]
  by_cases hinit : w.vif_update_init_done = true
  · exact core w hinit
  · have he : vif_state_update_deferred P cfg i w
        = vif_state_update_deferred P cfg i
            { w with vif_update_queue := [], vif_update_init_done := true } := by
      unfold vif_state_update_deferred
      simp [hinit]
    rw [he]
    exact core _ rfl

/-- C27: after every request for an index, whatever the pending table was,
the index is pending and the timer of its entry is armed for the configured
delay; a request that finds the index pending executes one refresh at once and
leaves the table with the same indices; the expiry of the timer after a
request executes one refresh of the index; and so, after any sequence of
events, a request followed by the expiry of its timer ends with one refresh of
the index. -/
theorem request_always_leaves_pending (P : Platform σ) (cfg : BuildConfig) (i : Int)
    (w : World σ) :
    (∃ k, vif_update_queue_find i (vif_state_update_deferred P cfg i w).vif_update_queue = some k
      ∧ (vif_state_update_deferred P cfg i w).vif_update_queue.get? k
          = some { ssid_index := i,
                   defer_timer := { active := true, after := cfg.RDK_VIF_STATE_UPDATE_DELAY } })
    ∧ i ∈ sched_pending (vif_state_update_deferred P cfg i w)
    ∧ (i ∈ sched_pending_init w →
        refresh_calls (vif_state_update_deferred P cfg i w).log = refresh_calls w.log ++ [i]
        ∧ sched_pending (vif_state_update_deferred P cfg i w) = sched_pending_init w)
    ∧ refresh_calls (sched_step P cfg (SchedEvent.timerExpiry i)
          (vif_state_update_deferred P cfg i w)).log
        = refresh_calls (vif_state_update_deferred P cfg i w).log ++ [i]
    ∧ (∀ pre : List SchedEvent,
        refresh_calls (sched_run P cfg
            (pre ++ [SchedEvent.requestRefresh i, SchedEvent.timerExpiry i]) w).log
          = refresh_calls (sched_run P cfg (pre ++ [SchedEvent.requestRefresh i]) w).log
            ++ [i]) := by
  have hmem : ∀ w0 : World σ, i ∈ sched_pending (vif_state_update_deferred P cfg i w0) := by
    intro w0
    rw [(sched_step_request P cfg i w0).1]
    simp only [sched_pending_after]
    split_ifs with hm
    · exact hm
    · simp
  have hexp : ∀ w0 : World σ,
      refresh_calls (sched_step P cfg (SchedEvent.timerExpiry i)
          (vif_state_update_deferred P cfg i w0)).log
        = refresh_calls (vif_state_update_deferred P cfg i w0).log ++ [i] := by
    intro w0
    rw [(sched_step_expiry P cfg i (vif_state_update_deferred P cfg i w0)).2.1]
    simp only [sched_refreshes_of, hmem w0, if_true]
  refine ⟨vif_state_update_deferred_armed P cfg i w, hmem w, ?_, hexp w, ?_⟩
  · intro hp
    obtain ⟨h1, h2, _⟩ := sched_step_request P cfg i w
    simp only [sched_pending_after, sched_refreshes_of, hp, if_true] at h1 h2
    exact ⟨h2, h1⟩
  · intro pre
    rw [sched_run_append, sched_run_append]
    exact hexp (sched_run P cfg pre w)

end

/-- C26 as stated fails: on `demo_platform` with the delay 5 configured, the
drain of one event for index 0 executes one refresh and leaves the pending
table empty, whereas a request to the deferred update scheduler for index 0
executes no refresh and leaves index 0 pending. -/
theorem event_consumer_bypasses_scheduler :
    refresh_calls (vif_sta_update_async_cb demo_platform { RDK_VIF_STATE_UPDATE_DELAY := 5 }
        { hal := [], hal_cb_queue := [{ ssidIndex := 0, sta := "a" }],
          hal_cb_queue_len := 1 }).log = [0]
    ∧ sched_pending (vif_sta_update_async_cb demo_platform { RDK_VIF_STATE_UPDATE_DELAY := 5 }
        { hal := [], hal_cb_queue := [{ ssidIndex := 0, sta := "a" }],
          hal_cb_queue_len := 1 }) = []
    ∧ refresh_calls (sched_step demo_platform { RDK_VIF_STATE_UPDATE_DELAY := 5 }
        (SchedEvent.requestRefresh 0) { hal := [] }).log = []
    ∧ sched_pending (sched_step demo_platform { RDK_VIF_STATE_UPDATE_DELAY := 5 }
        (SchedEvent.requestRefresh 0) { hal := [] }) = [0] := by
  decide

end Vif
